import Mathlib

/-!
The goca account authentication and lifecycle engine

A shallow embedding of `internal/modules/user` (entity, dto, service), of the
collaborators the service drives (`apperror`, `database`, `cache`, `ratelimit`,
`worker`, `token`, `random`) and of the packages `validator`, `request` and
`encryption`, and theorems about the service operations and these packages.

Conventions of the embedding

* Instants and durations are natural numbers of nanoseconds (`time.Duration`).
* `uuid.UUID` values are natural numbers.
* A Go pointer field that may be nil is an `Option`.
* Every service operation is a function from the world before the call to an
  outcome and the world after the call.  The world holds the committed user
  rows, the cache entries, the task queue and the list of collaborator calls
  made so far.
* What the outside decides during one call (clock, random source, library
  results, infrastructure failures) is read from an `Env` value.
-/

namespace Goca

/-! ## apperror -/

/-- Go `type ErrorCode string`. -/
abbrev ErrorCode := String

def ErrCodeNotFound : ErrorCode := "NOT_FOUND"
def ErrCodeInvalidInput : ErrorCode := "INVALID_INPUT"
def ErrCodeUnauthorized : ErrorCode := "UNAUTHORIZED"
def ErrCodeForbidden : ErrorCode := "FORBIDDEN"
def ErrCodeConflict : ErrorCode := "CONFLICT"
def ErrCodeInternalError : ErrorCode := "INTERNAL_ERROR"
def ErrCodeValidationFailed : ErrorCode := "VALIDATION_FAILED"
def ErrCodeDatabaseError : ErrorCode := "DATABASE_ERROR"
def ErrCodeExternalService : ErrorCode := "EXTERNAL_SERVICE_ERROR"
def ErrCodeBadRequest : ErrorCode := "BAD_REQUEST"
def ErrCodeTooManyRequests : ErrorCode := "TOO_MANY_REQUESTS"
def ErrCodeUserAlreadyExists : ErrorCode := "USER_ALREADY_EXISTS"
def ErrCodeUserNotFound : ErrorCode := "USER_NOT_FOUND"
def ErrCodeUserIncorrectPassword : ErrorCode := "USER_INCORRECT_PASSWORD"
def ErrCodeUserInactive : ErrorCode := "USER_INACTIVE"
def ErrCodeUserEmailNotVerified : ErrorCode := "USER_EMAIL_NOT_VERIFIED"
def ErrCodeInvalidOTP : ErrorCode := "INVALID_OTP"
def ErrCodeOTPExpired : ErrorCode := "OTP_EXPIRED"
def ErrCodeInvalidToken : ErrorCode := "INVALID_TOKEN"

/-- Go `apperror.AppError`; `Cause` keeps the message of the wrapped error. -/
structure AppError where
  Code : ErrorCode
  Message : String
  Details : String
  Cause : Option String
deriving DecidableEq, Repr

/-- Go `validator.ValidationError`. -/
structure ValidationError where
  Field : String
  Message : String
  Tag : String
  Value : String
deriving DecidableEq, Repr

/-- Go `validator.ValidationErrors`; the nil slice is the empty list. -/
abbrev ValidationErrors := List ValidationError

/-- The Go `error` values that reach the service: an `*AppError`, a
`*ValidationErrors` (an `AppError` with the failing fields), or an error of any
other type (driver, `fmt.Errorf`), kept as its message. -/
inductive Error where
  | app (e : AppError)
  | validation (e : AppError) (fields : ValidationErrors)
  | other (msg : String)
deriving DecidableEq, Repr

def NewAppError (code : ErrorCode) (message : String) : AppError :=
  { Code := code, Message := message, Details := "", Cause := none }

def NewAppErrorWithCause (code : ErrorCode) (message : String) (cause : String) : AppError :=
  { Code := code, Message := message, Details := "", Cause := some cause }

def NewValidationError (fields : ValidationErrors) : Error :=
  .validation
    { Code := ErrCodeValidationFailed, Message := "Failed to validate request",
      Details := "", Cause := none } fields

def ErrNotFound : AppError := NewAppError ErrCodeNotFound "Resource not found"
def ErrUserAlreadyExists : AppError := NewAppError ErrCodeUserAlreadyExists "User already exists"
def ErrUserNotFound : AppError := NewAppError ErrCodeUserNotFound "User not found"
def ErrUserIncorrectPassword : AppError :=
  NewAppError ErrCodeUserIncorrectPassword "Incorrect password"
def ErrUserInactive : AppError := NewAppError ErrCodeUserInactive "User is inactive"
def ErrUserEmailNotVerified : AppError :=
  NewAppError ErrCodeUserEmailNotVerified "Email not verified"
def ErrInvalidOTP : AppError := NewAppError ErrCodeInvalidOTP "Invalid OTP"
def ErrOTPExpired : AppError := NewAppError ErrCodeOTPExpired "OTP has expired"
def ErrInvalidToken : AppError := NewAppError ErrCodeInvalidToken "Invalid token"

/-- Go `AppError.Error`. -/
def AppError.Error (e : AppError) : String :=
  if e.Details ≠ "" then e.Code ++ ": " ++ e.Message ++ " (" ++ e.Details ++ ")"
  else e.Code ++ ": " ++ e.Message

/-- Go `apperror.WrapError` on a non-nil error: an `*AppError` is returned as
it is, any other error becomes the cause of a new `AppError`.  A
`*ValidationErrors` is such an other error: `errors.As` finds no `*AppError`
in it (the embedded pointer is a field, and its promoted `Unwrap` returns the
nil cause), so it is wrapped, its error string being the cause. -/
def WrapError (err : Error) (code : ErrorCode) (message : String) : AppError :=
  match err with
  | .app e => e
  | .validation e _ => NewAppErrorWithCause code message e.Error
  | .other msg => NewAppErrorWithCause code message msg

/-- Go `errors.Is(err, target)` for an `*AppError` target: `AppError.Is`
compares the codes; an error of another type has no `AppError` in its chain.
A cause is kept as its message, the message of a driver or library error, so
the chain below the outer error holds no `AppError` to compare: the errors of
this embedding are those the repositories and the service build, none of which
has an `AppError` as its cause. -/
def errorsIs (err : Error) (target : AppError) : Bool :=
  match err with
  | .app e => e.Code == target.Code
  | .validation e _ => e.Code == target.Code
  | .other _ => false

/-- Go `AppError.HTTPStatusCode`. -/
def HTTPStatusCode (e : AppError) : Nat :=
  if e.Code = ErrCodeNotFound ∨ e.Code = ErrCodeUserNotFound then 404
  else if e.Code = ErrCodeInvalidInput ∨ e.Code = ErrCodeValidationFailed ∨
      e.Code = ErrCodeInvalidOTP then 400
  else if e.Code = ErrCodeUnauthorized ∨ e.Code = ErrCodeUserIncorrectPassword ∨
      e.Code = ErrCodeUserInactive ∨ e.Code = ErrCodeUserEmailNotVerified ∨
      e.Code = ErrCodeInvalidToken then 401
  else if e.Code = ErrCodeForbidden then 403
  else if e.Code = ErrCodeConflict ∨ e.Code = ErrCodeUserAlreadyExists then 409
  else if e.Code = ErrCodeExternalService then 503
  else if e.Code = ErrCodeDatabaseError ∨ e.Code = ErrCodeInternalError ∨
      e.Code = ErrCodeOTPExpired then 500
  else 500

/-- The code carried by an error value, when it is an application error. -/
def Error.code? : Error → Option ErrorCode
  | .app e => some e.Code
  | .validation e _ => some e.Code
  | .other _ => none

/-! ## entity -/

/-- Go `entity.UserStatus` with its four declared values. -/
inductive UserStatus where
  | active
  | inactive
  | pending
  | suspended
deriving DecidableEq, Repr

abbrev UserID := Nat

/-- Go `entity.User`. -/
structure User where
  ID : UserID
  Email : String
  EmailVerifiedAt : Option Nat
  FirstName : String
  LastName : Option String
  FullName : String
  Password : String
  Status : UserStatus
  TwoFactorSecret : Option String
  TwoFactorEnabled : Bool
  CreatedAt : Nat
  UpdatedAt : Nat
deriving DecidableEq, Repr

/-- Go `User.GenerateFullName`.  The `nil` branch assigns `FirstName` and then
falls through to the dereference of `LastName`; `none` is the resulting
nil-pointer panic. -/
def User.GenerateFullName (u : User) : Option User :=
  let u1 := if u.LastName.isNone then { u with FullName := u.FirstName } else u
  match u1.LastName with
  | none => none
  | some l => some { u1 with FullName := u1.FirstName ++ " " ++ l }

def User.IsActive (u : User) : Bool := u.Status == UserStatus.active
def User.IsSuspended (u : User) : Bool := u.Status == UserStatus.suspended
def User.IsPending (u : User) : Bool := u.Status == UserStatus.pending
def User.IsInactive (u : User) : Bool := u.Status == UserStatus.inactive
def User.SetStatus (u : User) (s : UserStatus) : User := { u with Status := s }
def User.Suspend (u : User) : User := { u with Status := UserStatus.suspended }
def User.Activate (u : User) : User := u.SetStatus UserStatus.active
def User.IsEmailVerified (u : User) : Bool := u.EmailVerifiedAt.isSome
def User.IsTwoFactorEnabled (u : User) : Bool := u.TwoFactorEnabled && u.TwoFactorSecret.isSome
def User.SetTwoFactorSecret (u : User) (secret : String) : User :=
  { u with TwoFactorSecret := some secret }
def User.GetTwoFactorSecret (u : User) : String :=
  match u.TwoFactorSecret with
  | none => ""
  | some s => s
def User.HasTwoFactorSecret (u : User) : Bool := u.TwoFactorSecret.isSome
def User.DisableTwoFactor (u : User) : User :=
  { u with TwoFactorEnabled := false, TwoFactorSecret := none }
def User.EnableTwoFactor (u : User) : User := { u with TwoFactorEnabled := true }
def User.VerifyEmail (u : User) (t : Nat) : User := { u with EmailVerifiedAt := some t }

/-! ## dto -/

/-- Go `dto.UserResponse`: the public profile, without credential and secret. -/
structure UserResponse where
  ID : UserID
  Email : String
  FirstName : String
  LastName : Option String
  FullName : String
  Status : UserStatus
  TwoFactorEnabled : Bool
  CreatedAt : Nat
  UpdatedAt : Nat
deriving DecidableEq, Repr

structure RegisterRequest where
  Email : String
  FirstName : String
  LastName : Option String
  Password : String
deriving DecidableEq, Repr

structure RegisterResponse where
  UserResponse : UserResponse
deriving DecidableEq, Repr

structure LoginRequest where
  Email : String
  Password : String
  Remember : Bool
deriving DecidableEq, Repr

/-- Go `dto.LoginResponse`; the embedded `*UserResponse` is the field
`UserResponse`, and an unset string or time field has Go's zero value. -/
structure LoginResponse where
  UserResponse : UserResponse
  TwoFactorEnabled : Bool
  AccessToken : String
  RefreshToken : String
  AccessTokenExpiresAt : Nat
  RefreshTokenExpiresAt : Nat
deriving DecidableEq, Repr

structure VerifyOTPRequest where
  Email : String
  OTP : String
deriving DecidableEq, Repr

structure VerifyOTPResponse where
  UserResponse : UserResponse
deriving DecidableEq, Repr

structure ResendOTPRequest where
  Email : String
deriving DecidableEq, Repr

structure RefreshTokenRequest where
  RefreshToken : String
deriving DecidableEq, Repr

structure RefreshTokenResponse where
  AccessToken : String
  RefreshToken : String
  AccessTokenExpiresAt : Nat
  RefreshTokenExpiresAt : Nat
deriving DecidableEq, Repr

structure ForgotPasswordRequest where
  Email : String
deriving DecidableEq, Repr

structure ResetPasswordRequest where
  Email : String
  OTP : String
  NewPassword : String
deriving DecidableEq, Repr

structure Setup2FARequest where
  UserID : UserID
deriving DecidableEq, Repr

structure Setup2FAResponse where
  Secret : String
  QRCode : String
deriving DecidableEq, Repr

structure Verify2FARequest where
  UserID : UserID
  Code : String
deriving DecidableEq, Repr

structure Verify2FAResponse where
  Verified : Bool
  AccessToken : String
  RefreshToken : String
  AccessTokenExpiresAt : Nat
  RefreshTokenExpiresAt : Nat
deriving DecidableEq, Repr

structure Disable2FARequest where
  UserID : UserID
deriving DecidableEq, Repr

/-- A request of any of the ten service operations. -/
inductive Request where
  | register (r : RegisterRequest)
  | login (r : LoginRequest)
  | verifyOTP (r : VerifyOTPRequest)
  | resendOTP (r : ResendOTPRequest)
  | refreshToken (r : RefreshTokenRequest)
  | forgotPassword (r : ForgotPasswordRequest)
  | resetPassword (r : ResetPasswordRequest)
  | setup2FA (r : Setup2FARequest)
  | verify2FA (r : Verify2FARequest)
  | disable2FA (r : Disable2FARequest)
deriving DecidableEq, Repr

/-- Go `dto.RegisterRequestToUserEntity`; `id` is the fresh `uuid.NewV7()`,
`now` the clock.  The status left unset by the struct literal is written by
`SetStatus(UserStatusPending)` before anything reads it.  `none` is the panic
of `GenerateFullName`. -/
def RegisterRequestToUserEntity (id : UserID) (now : Nat) (payload : RegisterRequest) :
    Option User :=
  let user : User :=
    { ID := id, Email := payload.Email, EmailVerifiedAt := none,
      FirstName := payload.FirstName, LastName := payload.LastName, FullName := "",
      Password := payload.Password, Status := UserStatus.pending,
      TwoFactorSecret := none, TwoFactorEnabled := false,
      CreatedAt := now, UpdatedAt := now }
  (user.SetStatus UserStatus.pending).GenerateFullName

/-- Go `dto.UserEntityToUserResponse`. -/
def UserEntityToUserResponse (user : User) : UserResponse :=
  { ID := user.ID, Email := user.Email, FirstName := user.FirstName,
    LastName := user.LastName, FullName := user.FullName, Status := user.Status,
    TwoFactorEnabled := user.IsTwoFactorEnabled,
    CreatedAt := user.CreatedAt, UpdatedAt := user.UpdatedAt }

/-! ## config -/

def Second : Nat := 1000000000
def Minute : Nat := 60 * Second

def EmailConfirmationExpInMin : Nat := 15 * Minute
def OTPCodeLength : Int := 6
def AuthRateLimiterKey : String := "auth"

/-- The fields of Go `config.Config` that the service and its collaborators read. -/
structure Config where
  AppName : String
  AppFrontendURL : String
  AuthAccessTokenExpiry : Nat
  AuthAccessTokenExpiryExtended : Nat
  AuthRefreshTokenExpiry : Nat
  AuthRefreshTokenExpiryExtended : Nat
deriving DecidableEq, Repr

/-! ## worker payloads and token claims -/

structure PayloadSendVerifyEmail where
  UserID : UserID
  Name : String
  Email : String
  VerificationCode : String
  VerificationCodeExpiration : Nat
  From : String
  Subject : String
deriving DecidableEq, Repr

structure PayloadSendForgotPasswordEmail where
  UserID : UserID
  Name : String
  Email : String
  VerificationCode : String
  VerificationCodeExpiration : Nat
  From : String
  Subject : String
  ResetLink : String
deriving DecidableEq, Repr

/-- A work item accepted by the queue. -/
inductive Task where
  | sendVerifyEmail (p : PayloadSendVerifyEmail)
  | sendForgotPasswordEmail (p : PayloadSendForgotPasswordEmail)
deriving DecidableEq, Repr

/-- Go `token.customClaims`: the registered claims the issuer fills and the
user id. -/
structure Claims where
  UserID : UserID
  Issuer : String
  ExpiresAt : Nat
  IssuedAt : Nat
  NotBefore : Nat
deriving DecidableEq, Repr

/-- Result of `jwt.ParseWithClaims` as `VerifyToken` distinguishes it. -/
inductive ParseResult where
  | valid (c : Claims)
  | expired
  | invalid
deriving DecidableEq, Repr

structure GenerateTokenResponse where
  Value : String
  ExpiresAt : Nat
deriving DecidableEq, Repr

structure Payload where
  UserID : UserID
  ExpiresAt : Nat
deriving DecidableEq, Repr

/-! ## the world and the environment of one call -/

/-- A live key of the cache with the instant at which it expires. -/
structure CacheEntry where
  key : String
  value : String
  expiresAt : Nat
deriving DecidableEq, Repr

/-- A call made to a stateful collaborator. -/
inductive Call where
  | limiterTake (key : String)
  | txBegin
  | txCommit
  | txRollback
  | repoGetByID (id : UserID)
  | repoGetByEmail (email : String)
  | repoCreate (u : User)
  | repoUpdate (u : User)
  | cacheSet (key : String) (value : String) (ttl : Nat)
  | cacheGet (key : String)
  | cacheDelete (key : String)
  | enqueue (t : Task)
deriving DecidableEq, Repr

/-- State of the collaborators: committed rows of `users`, live cache keys,
queued tasks, and every collaborator call made so far, oldest first. -/
structure World where
  users : List User
  cache : List CacheEntry
  queue : List Task
  trace : List Call
deriving DecidableEq, Repr

/-- Infrastructure failures during one call: each flag makes the named
collaborator call return an error. -/
structure Faults where
  txBegin : Bool
  txCommit : Bool
  repoGet : Bool
  repoCreate : Bool
  repoUpdate : Bool
  cacheSet : Bool
  cacheGet : Bool
  cacheDelete : Bool
  enqueue : Bool
deriving DecidableEq, Repr

def noFaults : Faults :=
  { txBegin := false, txCommit := false, repoGet := false, repoCreate := false,
    repoUpdate := false, cacheSet := false, cacheGet := false, cacheDelete := false,
    enqueue := false }

/-- Everything the outside decides during one call.

* `now`: the clock (`time.Now()`); one call runs at one instant.
* `newID`: the result of `uuid.NewV7()`.
* `limiter key`: result of `RateLimiter.Take`: `none` is an error, `some b`
  is `IsExceeded = b`.
* `validate`: `Validator.ValidateAndGetErrors`, `[]` being nil.
* `hashPassword`, `checkPasswordHash`: package `password`, whose source file is
  not part of the repository snapshot; `hashPassword` may fail.
* `rand i`: the `i`-th draw `rand.Int(rand.Reader, 10)`, `none` being an error.
* `sign`, `parse`: `jwt` signing and parsing with the service key.
* `totpGenerate issuer account`, `totpValidate code secret`: package `totp`.
* `qrEncode`: `qrcode.Encode` followed by `encoding.Base64Encode`.
* `queryEscape`: `url.QueryEscape`.
* `faults`: infrastructure failures. -/
structure Env where
  now : Nat
  newID : UserID
  limiter : String → Option Bool
  validate : Request → ValidationErrors
  hashPassword : String → Option String
  checkPasswordHash : String → String → Bool
  rand : Nat → Option (Fin 10)
  sign : Claims → Option String
  parse : String → ParseResult
  totpGenerate : String → String → Option String
  totpValidate : String → String → Bool
  qrEncode : String → Option String
  queryEscape : String → String
  faults : Faults

/-- Outcome of a service operation: a value, a returned error, or a panic. -/
inductive Result (α : Type) where
  | ok (a : α)
  | err (e : Error)
  | panic (msg : String)
deriving DecidableEq, Repr

def World.log (w : World) (c : Call) : World := { w with trace := w.trace ++ [c] }

/-! ## repository (`UserPostgresRepository`) over the rows of the world -/

/-- Go `GetByID`: `ErrNotFound` when no row has the id, a wrapped database
error on a driver failure. -/
def repoGetByID (env : Env) (id : UserID) (w : World) : Except Error User × World :=
  let w1 := w.log (.repoGetByID id)
  if env.faults.repoGet then
    (.error (.app (WrapError (.other "driver") ErrCodeDatabaseError "Failed to retrieve user")), w1)
  else
    match w.users.find? (fun u => u.ID == id) with
    | none => (.error (.app ErrNotFound), w1)
    | some u => (.ok u, w1)

/-- Go `GetByEmail`: `ErrUserNotFound` when no row has the email. -/
def repoGetByEmail (env : Env) (email : String) (w : World) : Except Error User × World :=
  let w1 := w.log (.repoGetByEmail email)
  if env.faults.repoGet then
    (.error (.app (WrapError (.other "driver") ErrCodeDatabaseError "Failed to retrieve user")), w1)
  else
    match w.users.find? (fun u => u.Email == email) with
    | none => (.error (.app ErrUserNotFound), w1)
    | some u => (.ok u, w1)

/-- Modelled from the spec: the schema of the table `users` is not among the
source files.  The spec gives a user a unique identifier and a globally unique
email, so an insert violates a unique constraint when a row with the same id
or the same email exists. -/
def violatesUnique (users : List User) (user : User) : Bool :=
  users.any (fun u => u.ID == user.ID || u.Email == user.Email)

/-- Go `Create`: an insert that violates a unique constraint
(`database.IsUniqueViolation`) is refused with `ErrUserAlreadyExists`. -/
def repoCreate (env : Env) (user : User) (w : World) : Option Error × World :=
  let w1 := w.log (.repoCreate user)
  if env.faults.repoCreate then
    (some (.app (WrapError (.other "driver") ErrCodeDatabaseError "Failed to create user")), w1)
  else if violatesUnique w.users user then
    (some (.app ErrUserAlreadyExists), w1)
  else
    (none, { w1 with users := w1.users ++ [user] })

/-- Go `Update`: `UPDATE users SET ... WHERE id = user.ID`; no matching row is
not an error. -/
def repoUpdate (env : Env) (user : User) (w : World) : Option Error × World :=
  let w1 := w.log (.repoUpdate user)
  if env.faults.repoUpdate then
    (some (.app (WrapError (.other "driver") ErrCodeDatabaseError "Failed to update user")), w1)
  else
    (none, { w1 with users := w1.users.map (fun u => if u.ID == user.ID then user else u) })

/-! ## database (`PostgreSQLDatabase.WithTransaction`) -/

/-- Go `WithTransaction`.  The unit of work runs on the rows as they are; an
error or a panic of the unit of work rolls back (the rows return to what they
were at `Begin`), and so does a failed commit.  Cache and queue are outside the
transaction and keep what the unit of work did to them. -/
def WithTransaction {α : Type} (env : Env) (fn : World → Result α × World) (w : World) :
    Result α × World :=
  let w1 := w.log .txBegin
  if env.faults.txBegin then
    (.err (.other "failed to begin transaction: driver"), w1)
  else
    match fn w1 with
    | (.panic p, w2) => (.panic p, { w2.log .txRollback with users := w.users })
    | (.err e, w2) => (.err e, { w2.log .txRollback with users := w.users })
    | (.ok a, w2) =>
      let w3 := w2.log .txCommit
      if env.faults.txCommit then
        (.err (.other "commit: driver"), { w3 with users := w.users })
      else
        (.ok a, w3)

/-! ## cache (`RedisClient`) -/

/-- Go `Cache.Set`: the key is overwritten and expires `expiration` later. -/
def cacheSet (env : Env) (key value : String) (expiration : Nat) (w : World) :
    Option Error × World :=
  let w1 := w.log (.cacheSet key value expiration)
  if env.faults.cacheSet then
    (some (.other "redis"), w1)
  else
    (none, { w1 with cache := w1.cache.filter (fun e => e.key != key) ++
      [{ key := key, value := value, expiresAt := env.now + expiration }] })

/-- Go `Cache.Get`: a missing or expired key is the error `redis.Nil`. -/
def cacheGet (env : Env) (key : String) (w : World) : Except Error String × World :=
  let w1 := w.log (.cacheGet key)
  if env.faults.cacheGet then
    (.error (.other "redis"), w1)
  else
    match w.cache.find? (fun e => e.key == key && decide (env.now < e.expiresAt)) with
    | none => (.error (.other "redis: nil"), w1)
    | some e => (.ok e.value, w1)

/-- Go `Cache.Delete`. -/
def cacheDelete (env : Env) (key : String) (w : World) : Option Error × World :=
  let w1 := w.log (.cacheDelete key)
  if env.faults.cacheDelete then
    (some (.other "redis"), w1)
  else
    (none, { w1 with cache := w1.cache.filter (fun e => e.key != key) })

/-! ## worker (`RedisTaskDistributor`) -/

def TaskSendVerifyEmailSubject : String := "Verifikasi Email"
def TaskSendForgotPasswordEmailSubject : String := "Permintaan Reset Password"

/-- Enqueue step shared by the two distributors (`client.EnqueueContext`). -/
def enqueueTask (env : Env) (t : Task) (w : World) : Option Error × World :=
  let w1 := w.log (.enqueue t)
  if env.faults.enqueue then
    (some (.other "failed to enqueue task: redis"), w1)
  else
    (none, { w1 with queue := w1.queue ++ [t] })

/-- Go `DistributeTaskSendVerifyEmail`. -/
def DistributeTaskSendVerifyEmail (cfg : Config) (env : Env) (payload : PayloadSendVerifyEmail)
    (w : World) : Option Error × World :=
  enqueueTask env
    (.sendVerifyEmail { payload with Subject := TaskSendVerifyEmailSubject, From := cfg.AppName }) w

/-- Go `DistributeTaskSendForgotPasswordEmail`. -/
def DistributeTaskSendForgotPasswordEmail (cfg : Config) (env : Env)
    (payload : PayloadSendForgotPasswordEmail) (w : World) : Option Error × World :=
  enqueueTask env
    (.sendForgotPasswordEmail
      { payload with
        Subject := TaskSendForgotPasswordEmailSubject, From := cfg.AppName,
        ResetLink := cfg.AppFrontendURL ++ "/reset-password/" ++ payload.VerificationCode }) w

/-! ## token (`JWT`) -/

/-- Go `JWT.GenerateToken`: claims for `userID` expiring `exp` after now, signed
with the service key; `none` is the signing error. -/
def GenerateToken (cfg : Config) (env : Env) (userID : UserID) (exp : Nat) :
    Option GenerateTokenResponse :=
  let expiration := env.now + exp
  let claims : Claims :=
    { UserID := userID, Issuer := cfg.AppName, ExpiresAt := expiration,
      IssuedAt := env.now, NotBefore := env.now }
  match env.sign claims with
  | none => none
  | some signedToken => some { Value := signedToken, ExpiresAt := expiration }

def ErrInvalidTokenFormatMsg : String := "token format tidak valid"
def ErrInvalidTokenMsg : String := "token tidak valid"
def ErrExpiredTokenMsg : String := "token sudah kedaluwarsa"

/-- Go `JWT.VerifyToken`. -/
def VerifyToken (env : Env) (tokenStr : String) : Except Error Payload :=
  match env.parse tokenStr with
  | .expired => .error (.other ErrExpiredTokenMsg)
  | .invalid => .error (.other ErrInvalidTokenMsg)
  | .valid claims => .ok { UserID := claims.UserID, ExpiresAt := claims.ExpiresAt }

/-! ## random (`GenerateNumericOTP`) -/

def minOTPLength : Int := 4
def maxOTPLength : Int := 12

/-- The character `digits[n]` of `"0123456789"`. -/
def digitChar (n : Fin 10) : Char := Char.ofNat (48 + n.val)

/-- The loop of `GenerateNumericOTP`: `remaining` more draws, the next being
draw number `i`, appended to `acc`. -/
def otpLoop (rand : Nat → Option (Fin 10)) : Nat → Nat → List Char → Except Error String
  | 0, _, acc => .ok (String.mk acc)
  | remaining + 1, i, acc =>
    match rand i with
    | none =>
      .error (.app (NewAppErrorWithCause ErrCodeInternalError "Failed to generate random OTP"
        "rand"))
    | some n => otpLoop rand remaining (i + 1) (acc ++ [digitChar n])

/-- Go `random.GenerateNumericOTP`. -/
def GenerateNumericOTP (rand : Nat → Option (Fin 10)) (length : Int) : Except Error String :=
  if length < minOTPLength || length > maxOTPLength then
    .error (.app (NewAppError ErrCodeInvalidInput "OTP length must be between 4 and 12 digits"))
  else
    otpLoop rand length.toNat 0 []

/-! ## service helpers -/

/-- Go `UserService.hashPassword`. -/
def hashPassword (env : Env) (plainPassword : String) : Except Error String :=
  match env.hashPassword plainPassword with
  | none => .error (.app (NewAppError ErrCodeInternalError "Failed to hash password"))
  | some hashedPassword => .ok hashedPassword

/-- The key `fmt.Sprintf("%s:%s:%s", config.AuthRateLimiterKey, operation,
identifier)` under which `checkRateLimit` counts. -/
def rateLimitKey (operation identifier : String) : String :=
  AuthRateLimiterKey ++ ":" ++ operation ++ ":" ++ identifier

/-- The key `fmt.Sprintf("%s:%s", cacheKeyPrefix, identifier)` of a one-time code. -/
def otpCacheKey (cacheKeyPre identifier : String) : String :=
  cacheKeyPre ++ ":" ++ identifier

/-- Go `UserService.checkRateLimit`; `none` is a nil error. -/
def checkRateLimit (env : Env) (operation identifier : String) (w : World) :
    Option Error × World :=
  let limiterKey := rateLimitKey operation identifier
  let w1 := w.log (.limiterTake limiterKey)
  match env.limiter limiterKey with
  | none => (some (.app (NewAppError ErrCodeInternalError "Failed to check rate limit")), w1)
  | some isExceeded =>
    if isExceeded then
      (some (.app (NewAppError ErrCodeTooManyRequests "Too many requests")), w1)
    else
      (none, w1)

/-- Go `UserService.getUserByEmail`. -/
def getUserByEmail (env : Env) (email : String) (w : World) : Except Error User × World :=
  repoGetByEmail env email w

/-- Go `UserService.getUserByID`. -/
def getUserByID (env : Env) (userID : UserID) (w : World) : Except Error User × World :=
  repoGetByID env userID w

/-- Go `UserService.createUser`. -/
def createUser (env : Env) (user : User) (w : World) : Option Error × World :=
  repoCreate env user w

/-- Go `UserService.updateUser`. -/
def updateUser (env : Env) (user : User) (w : World) : Option Error × World :=
  repoUpdate env user w

/-- Go `UserService.verifyPassword`; `none` is a nil error. -/
def verifyPassword (env : Env) (plainPassword hashedPassword : String) : Option Error :=
  if !env.checkPasswordHash plainPassword hashedPassword then
    some (.app ErrUserIncorrectPassword)
  else
    none

/-- Go `UserService.generateAndCacheOTP`. -/
def generateAndCacheOTP (env : Env) (cacheKeyPre identifier : String) (w : World) :
    Except Error String × World :=
  let cacheKey := otpCacheKey cacheKeyPre identifier
  match GenerateNumericOTP env.rand OTPCodeLength with
  | .error _ => (.error (.app (NewAppError ErrCodeInternalError "Failed to generate OTP")), w)
  | .ok otpCode =>
    match cacheSet env cacheKey otpCode EmailConfirmationExpInMin w with
    | (some _, w1) => (.error (.app (NewAppError ErrCodeInternalError "Failed to cache OTP")), w1)
    | (none, w1) => (.ok otpCode, w1)

/-- Go `UserService.getCachedOTP`: every cache error is reported as
`ErrOTPExpired`. -/
def getCachedOTP (env : Env) (cacheKeyPre identifier : String) (w : World) :
    Except Error String × World :=
  let cacheKey := otpCacheKey cacheKeyPre identifier
  match cacheGet env cacheKey w with
  | (.error _, w1) => (.error (.app ErrOTPExpired), w1)
  | (.ok cachedOTP, w1) => (.ok cachedOTP, w1)

/-- Go `UserService.deleteCachedOTP`: a failed delete is logged and dropped. -/
def deleteCachedOTP (env : Env) (cacheKeyPre identifier : String) (w : World) :
    Option Error × World :=
  let cacheKey := otpCacheKey cacheKeyPre identifier
  match cacheDelete env cacheKey w with
  | (_, w1) => (none, w1)

/-- Go `service.TokenPair`. -/
structure TokenPair where
  AccessToken : GenerateTokenResponse
  RefreshToken : GenerateTokenResponse
deriving DecidableEq, Repr

/-- Go `UserService.generateAuthTokens`. -/
def generateAuthTokens (cfg : Config) (env : Env) (userID : UserID) (remember : Bool) :
    Except Error TokenPair :=
  let accessTokenExpiry :=
    if remember then cfg.AuthAccessTokenExpiryExtended else cfg.AuthAccessTokenExpiry
  let refreshTokenExpiry :=
    if remember then cfg.AuthRefreshTokenExpiryExtended else cfg.AuthRefreshTokenExpiry
  match GenerateToken cfg env userID accessTokenExpiry with
  | none => .error (.app (NewAppError ErrCodeInternalError "Failed to generate access token"))
  | some accessToken =>
    match GenerateToken cfg env userID refreshTokenExpiry with
    | none => .error (.app (NewAppError ErrCodeInternalError "Failed to generate refresh token"))
    | some refreshToken => .ok { AccessToken := accessToken, RefreshToken := refreshToken }

/-- Go `UserService.verifyToken`. -/
def verifyToken (env : Env) (tokenString : String) : Except Error Payload :=
  match VerifyToken env tokenString with
  | .error _ => .error (.app ErrInvalidToken)
  | .ok payload => .ok payload

/-- Go `UserService.queueVerificationEmail`. -/
def queueVerificationEmail (cfg : Config) (env : Env) (user : User) (otpCode : String)
    (w : World) : Option Error × World :=
  DistributeTaskSendVerifyEmail cfg env
    { UserID := user.ID, Name := user.FullName, Email := user.Email,
      VerificationCode := otpCode,
      VerificationCodeExpiration := EmailConfirmationExpInMin / Minute,
      From := "", Subject := "" } w

/-- Go `UserService.queueForgotPasswordEmail`. -/
def queueForgotPasswordEmail (cfg : Config) (env : Env) (user : User) (otpCode : String)
    (w : World) : Option Error × World :=
  DistributeTaskSendForgotPasswordEmail cfg env
    { UserID := user.ID, Name := user.FullName, Email := user.Email,
      VerificationCode := otpCode,
      VerificationCodeExpiration := EmailConfirmationExpInMin / Minute,
      From := "", Subject := "", ResetLink := "" } w

/-- Go `UserService.validateUserState`; `none` is a nil error. -/
def validateUserState (user : User) (requireEmailVerified requireActive : Bool) :
    Option Error :=
  if requireEmailVerified && !user.IsEmailVerified then
    some (.app ErrUserEmailNotVerified)
  else if requireActive && !user.IsActive then
    some (.app ErrUserInactive)
  else
    none

/-- Go `UserService.generate2FASecret`: the secret of the generated key. -/
def generate2FASecret (cfg : Config) (env : Env) (userEmail : String) : Except Error String :=
  match env.totpGenerate cfg.AppName userEmail with
  | none => .error (.app (NewAppError ErrCodeInternalError "Failed to generate 2FA secret"))
  | some secret => .ok secret

/-- Go `UserService.generateQRCode`. -/
def generateQRCode (env : Env) (otpAuthURL : String) : Except Error String :=
  match env.qrEncode otpAuthURL with
  | none => .error (.app (NewAppError ErrCodeInternalError "Failed to generate QR code"))
  | some qrCodeData => .ok ("data:image/png;base64," ++ qrCodeData)

/-! ## service operations

The closure a Go operation passes to `WithTransaction` is the definition named
after the operation with the suffix `Tx`; the value it leaves in a captured
variable is its result. -/

def nilDereference : String := "runtime error: invalid memory address or nil pointer dereference"

/-- What an operation does after `WithTransaction` returned: an error (or a
panic) is passed on, a nil error leads to the response built from the value
the closure captured. -/
def respond {α β : Type} (build : α → β) : Result α × World → Result β × World
  | (.ok a, w) => (.ok (build a), w)
  | (.err e, w) => (.err e, w)
  | (.panic p, w) => (.panic p, w)

/-- Unit of work of `Register`; its value is `createdUser`. -/
def RegisterTx (cfg : Config) (env : Env) (req : RegisterRequest) (tx : World) :
    Result User × World :=
  match getUserByEmail env req.Email tx with
  | (.ok _, tx1) => (.err (.app ErrUserAlreadyExists), tx1)
  | (.error err, tx1) =>
    if !errorsIs err ErrUserNotFound then (.err err, tx1)
    else
      match RegisterRequestToUserEntity env.newID env.now req with
      | none => (.panic nilDereference, tx1)
      | some user0 =>
        match hashPassword env user0.Password with
        | .error err => (.err err, tx1)
        | .ok hashedPassword =>
          match createUser env { user0 with Password := hashedPassword } tx1 with
          | (some err, tx2) => (.err err, tx2)
          | (none, tx2) =>
            match generateAndCacheOTP env "email_verification" user0.Email tx2 with
            | (.error err, tx3) => (.err err, tx3)
            | (.ok otpCode, tx3) =>
              match queueVerificationEmail cfg env { user0 with Password := hashedPassword }
                otpCode tx3 with
              | (some err, tx4) => (.err err, tx4)
              | (none, tx4) => (.ok { user0 with Password := hashedPassword }, tx4)

/-- Go `UserService.Register`. -/
def Register (cfg : Config) (env : Env) (req : RegisterRequest) (w : World) :
    Result RegisterResponse × World :=
  match checkRateLimit env "register" req.Email w with
  | (some err, w1) => (.err err, w1)
  | (none, w1) =>
    match env.validate (.register req) with
    | f :: fs => (.err (NewValidationError (f :: fs)), w1)
    | [] =>
      respond (fun createdUser => { UserResponse := UserEntityToUserResponse createdUser })
        (WithTransaction env (RegisterTx cfg env req) w1)

/-- Go `UserService.Login`. -/
def Login (cfg : Config) (env : Env) (req : LoginRequest) (w : World) :
    Result LoginResponse × World :=
  match checkRateLimit env "login" req.Email w with
  | (some err, w1) => (.err err, w1)
  | (none, w1) =>
    match env.validate (.login req) with
    | f :: fs => (.err (NewValidationError (f :: fs)), w1)
    | [] =>
      match getUserByEmail env req.Email w1 with
      | (.error _, w2) => (.err (.app ErrUserIncorrectPassword), w2)
      | (.ok user, w2) =>
        match verifyPassword env req.Password user.Password with
        | some err => (.err err, w2)
        | none =>
          match validateUserState user true true with
          | some err => (.err err, w2)
          | none =>
            if user.IsTwoFactorEnabled then
              (.ok { UserResponse := UserEntityToUserResponse user, TwoFactorEnabled := true,
                     AccessToken := "", RefreshToken := "",
                     AccessTokenExpiresAt := 0, RefreshTokenExpiresAt := 0 }, w2)
            else
              match generateAuthTokens cfg env user.ID req.Remember with
              | .error err => (.err err, w2)
              | .ok tokenPair =>
                (.ok { UserResponse := UserEntityToUserResponse user, TwoFactorEnabled := false,
                       AccessToken := tokenPair.AccessToken.Value,
                       RefreshToken := tokenPair.RefreshToken.Value,
                       AccessTokenExpiresAt := tokenPair.AccessToken.ExpiresAt,
                       RefreshTokenExpiresAt := tokenPair.RefreshToken.ExpiresAt }, w2)

/-- Unit of work of `VerifyOTP`; its value is `user`. -/
def VerifyOTPTx (env : Env) (req : VerifyOTPRequest) (tx : World) : Result User × World :=
  match getUserByEmail env req.Email tx with
  | (.error err, tx1) =>
    if errorsIs err ErrUserNotFound then (.err (.app ErrInvalidOTP), tx1)
    else (.err err, tx1)
  | (.ok user0, tx1) =>
    if user0.IsEmailVerified then
      (.err (.app (NewAppError ErrCodeBadRequest "Email already verified")), tx1)
    else
      match getCachedOTP env "email_verification" req.Email tx1 with
      | (.error err, tx2) => (.err err, tx2)
      | (.ok cachedOTP, tx2) =>
        if cachedOTP != req.OTP then (.err (.app ErrInvalidOTP), tx2)
        else
          match updateUser env (user0.VerifyEmail env.now).Activate tx2 with
          | (some err, tx3) => (.err err, tx3)
          | (none, tx3) =>
            match deleteCachedOTP env "email_verification" req.Email tx3 with
            | (some err, tx4) => (.err err, tx4)
            | (none, tx4) => (.ok (user0.VerifyEmail env.now).Activate, tx4)

/-- Go `UserService.VerifyOTP`. -/
def VerifyOTP (env : Env) (req : VerifyOTPRequest) (w : World) :
    Result VerifyOTPResponse × World :=
  match checkRateLimit env "verify_otp" req.Email w with
  | (some err, w1) => (.err err, w1)
  | (none, w1) =>
    match env.validate (.verifyOTP req) with
    | f :: fs => (.err (NewValidationError (f :: fs)), w1)
    | [] =>
      respond (fun user => { UserResponse := UserEntityToUserResponse user })
        (WithTransaction env (VerifyOTPTx env req) w1)

/-- Unit of work of `ResendOTP`. -/
def ResendOTPTx (cfg : Config) (env : Env) (req : ResendOTPRequest) (tx : World) :
    Result Unit × World :=
  match getUserByEmail env req.Email tx with
  | (.error err, tx1) =>
    if errorsIs err ErrUserNotFound then (.ok (), tx1)
    else (.err err, tx1)
  | (.ok user, tx1) =>
    if user.IsEmailVerified then
      (.err (.app (NewAppError ErrCodeBadRequest "Email already verified")), tx1)
    else
      match generateAndCacheOTP env "email_verification" user.Email tx1 with
      | (.error err, tx2) => (.err err, tx2)
      | (.ok otpCode, tx2) =>
        match queueVerificationEmail cfg env user otpCode tx2 with
        | (some err, tx3) => (.err err, tx3)
        | (none, tx3) => (.ok (), tx3)

/-- Go `UserService.ResendOTP`; `.ok ()` is a nil error. -/
def ResendOTP (cfg : Config) (env : Env) (req : ResendOTPRequest) (w : World) :
    Result Unit × World :=
  match checkRateLimit env "resend_otp" req.Email w with
  | (some err, w1) => (.err err, w1)
  | (none, w1) =>
    match env.validate (.resendOTP req) with
    | f :: fs => (.err (NewValidationError (f :: fs)), w1)
    | [] => WithTransaction env (ResendOTPTx cfg env req) w1

/-- Go `UserService.RefreshToken`. -/
def RefreshToken (cfg : Config) (env : Env) (req : RefreshTokenRequest) (w : World) :
    Result RefreshTokenResponse × World :=
  match env.validate (.refreshToken req) with
  | f :: fs => (.err (NewValidationError (f :: fs)), w)
  | [] =>
    match verifyToken env req.RefreshToken with
    | .error err => (.err err, w)
    | .ok payload =>
      match getUserByID env payload.UserID w with
      | (.error _, w1) => (.err (.app ErrUserNotFound), w1)
      | (.ok user, w1) =>
        match validateUserState user true true with
        | some err => (.err err, w1)
        | none =>
          match GenerateToken cfg env user.ID cfg.AuthAccessTokenExpiry with
          | none =>
            (.err (.app (NewAppError ErrCodeInternalError "Failed to generate access token")), w1)
          | some newAccess =>
            match GenerateToken cfg env user.ID cfg.AuthRefreshTokenExpiry with
            | none =>
              (.err (.app (NewAppError ErrCodeInternalError "Failed to generate refresh token")),
                w1)
            | some newRefresh =>
              (.ok { AccessToken := newAccess.Value, RefreshToken := newRefresh.Value,
                     AccessTokenExpiresAt := newAccess.ExpiresAt,
                     RefreshTokenExpiresAt := newRefresh.ExpiresAt }, w1)

/-- Unit of work of `ForgotPassword`. -/
def ForgotPasswordTx (cfg : Config) (env : Env) (req : ForgotPasswordRequest) (tx : World) :
    Result Unit × World :=
  match getUserByEmail env req.Email tx with
  | (.error err, tx1) =>
    if errorsIs err ErrUserNotFound then (.ok (), tx1)
    else (.err err, tx1)
  | (.ok user, tx1) =>
    match generateAndCacheOTP env "password_reset" user.Email tx1 with
    | (.error err, tx2) => (.err err, tx2)
    | (.ok otpCode, tx2) =>
      match queueForgotPasswordEmail cfg env user otpCode tx2 with
      | (some err, tx3) => (.err err, tx3)
      | (none, tx3) => (.ok (), tx3)

/-- Go `UserService.ForgotPassword`; `.ok ()` is a nil error. -/
def ForgotPassword (cfg : Config) (env : Env) (req : ForgotPasswordRequest) (w : World) :
    Result Unit × World :=
  match checkRateLimit env "forgot_password" req.Email w with
  | (some err, w1) => (.err err, w1)
  | (none, w1) =>
    match env.validate (.forgotPassword req) with
    | f :: fs => (.err (NewValidationError (f :: fs)), w1)
    | [] => WithTransaction env (ForgotPasswordTx cfg env req) w1

/-- Unit of work of `ResetPassword`. -/
def ResetPasswordTx (env : Env) (req : ResetPasswordRequest) (tx : World) :
    Result Unit × World :=
  match getUserByEmail env req.Email tx with
  | (.error err, tx1) =>
    if errorsIs err ErrUserNotFound then (.err (.app ErrInvalidOTP), tx1)
    else (.err err, tx1)
  | (.ok user0, tx1) =>
    match getCachedOTP env "password_reset" req.Email tx1 with
    | (.error err, tx2) => (.err err, tx2)
    | (.ok cachedOTP, tx2) =>
      if cachedOTP != req.OTP then (.err (.app ErrInvalidOTP), tx2)
      else if env.checkPasswordHash req.NewPassword user0.Password then
        (.err (.app (NewAppError ErrCodeInvalidInput
          "New password must be different from the old password")), tx2)
      else
        match hashPassword env req.NewPassword with
        | .error err => (.err err, tx2)
        | .ok hashedPassword =>
          match updateUser env { user0 with Password := hashedPassword, UpdatedAt := env.now }
            tx2 with
          | (some err, tx3) => (.err err, tx3)
          | (none, tx3) =>
            match deleteCachedOTP env "password_reset" req.Email tx3 with
            | (some err, tx4) => (.err err, tx4)
            | (none, tx4) => (.ok (), tx4)

/-- Go `UserService.ResetPassword`; `.ok ()` is a nil error. -/
def ResetPassword (env : Env) (req : ResetPasswordRequest) (w : World) :
    Result Unit × World :=
  match checkRateLimit env "reset_password" req.Email w with
  | (some err, w1) => (.err err, w1)
  | (none, w1) =>
    match env.validate (.resetPassword req) with
    | f :: fs => (.err (NewValidationError (f :: fs)), w1)
    | [] => WithTransaction env (ResetPasswordTx env req) w1

/-- Unit of work of `Setup2FA`; its value is `user`. -/
def Setup2FATx (cfg : Config) (env : Env) (req : Setup2FARequest) (tx : World) :
    Result User × World :=
  match repoGetByID env req.UserID tx with
  | (.error _, tx1) => (.err (.app ErrUserNotFound), tx1)
  | (.ok user0, tx1) =>
    if !user0.IsEmailVerified then (.err (.app ErrUserEmailNotVerified), tx1)
    else if !user0.IsActive then (.err (.app ErrUserInactive), tx1)
    else if user0.IsTwoFactorEnabled then
      (.err (.app (NewAppError ErrCodeBadRequest "2FA already enabled")), tx1)
    else
      match generate2FASecret cfg env user0.Email with
      | .error _ =>
        (.err (.app (NewAppError ErrCodeInternalError "Failed to generate 2FA secret")), tx1)
      | .ok secret =>
        match repoUpdate env (user0.SetTwoFactorSecret secret).EnableTwoFactor tx1 with
        | (some err, tx2) => (.err err, tx2)
        | (none, tx2) => (.ok (user0.SetTwoFactorSecret secret).EnableTwoFactor, tx2)

/-- What `Setup2FA` does with the updated user after the transaction. -/
def Setup2FAFinish (cfg : Config) (env : Env) : Result User × World →
    Result Setup2FAResponse × World
  | (.panic p, w1) => (.panic p, w1)
  | (.err err, w1) => (.err err, w1)
  | (.ok user, w1) =>
    let issuer := env.queryEscape cfg.AppName
    let accountName := env.queryEscape user.Email
    let secret := user.GetTwoFactorSecret
    let otpAuthURL := "otpauth://totp/" ++ issuer ++ ":" ++ accountName ++ "?secret=" ++
      secret ++ "&issuer=" ++ issuer ++ "&algorithm=SHA1&digits=6&period=30"
    match generateQRCode env otpAuthURL with
    | .error err => (.err err, w1)
    | .ok qrCodeBase64 => (.ok { Secret := user.GetTwoFactorSecret, QRCode := qrCodeBase64 }, w1)

/-- Go `UserService.Setup2FA`. -/
def Setup2FA (cfg : Config) (env : Env) (req : Setup2FARequest) (w : World) :
    Result Setup2FAResponse × World :=
  match env.validate (.setup2FA req) with
  | f :: fs => (.err (NewValidationError (f :: fs)), w)
  | [] => Setup2FAFinish cfg env (WithTransaction env (Setup2FATx cfg env req) w)

/-- Tail of the unit of work of `Verify2FA`: the two tokens. -/
def Verify2FATokens (cfg : Config) (env : Env) (user : User) (tx : World) :
    Result (GenerateTokenResponse × GenerateTokenResponse) × World :=
  match GenerateToken cfg env user.ID cfg.AuthAccessTokenExpiry with
  | none =>
    (.err (.app (NewAppError ErrCodeInternalError "Failed to generate access token")), tx)
  | some accessToken =>
    match GenerateToken cfg env user.ID cfg.AuthRefreshTokenExpiry with
    | none =>
      (.err (.app (NewAppError ErrCodeInternalError "Failed to generate refresh token")), tx)
    | some refreshToken => (.ok (accessToken, refreshToken), tx)

/-- Unit of work of `Verify2FA`; its value is the pair `accessToken`,
`refreshToken`. -/
def Verify2FATx (cfg : Config) (env : Env) (req : Verify2FARequest) (tx : World) :
    Result (GenerateTokenResponse × GenerateTokenResponse) × World :=
  match repoGetByID env req.UserID tx with
  | (.error _, tx1) => (.err (.app ErrUserNotFound), tx1)
  | (.ok user0, tx1) =>
    if !user0.IsEmailVerified then (.err (.app ErrUserEmailNotVerified), tx1)
    else if !user0.IsActive then (.err (.app ErrUserInactive), tx1)
    else if !user0.HasTwoFactorSecret then
      (.err (.app (NewAppError ErrCodeBadRequest "2FA not set up")), tx1)
    else if !env.totpValidate req.Code user0.GetTwoFactorSecret then
      (.err (.app (NewAppError ErrCodeInvalidInput "Invalid 2FA code")), tx1)
    else if !user0.IsTwoFactorEnabled then
      match repoUpdate env user0.EnableTwoFactor tx1 with
      | (some err, tx2) => (.err err, tx2)
      | (none, tx2) => Verify2FATokens cfg env user0.EnableTwoFactor tx2
    else Verify2FATokens cfg env user0 tx1

/-- Go `UserService.Verify2FA`. -/
def Verify2FA (cfg : Config) (env : Env) (req : Verify2FARequest) (w : World) :
    Result Verify2FAResponse × World :=
  match checkRateLimit env "verify_2fa" ("verify_2fa:" ++ toString req.UserID) w with
  | (some err, w1) => (.err err, w1)
  | (none, w1) =>
    match env.validate (.verify2FA req) with
    | f :: fs => (.err (NewValidationError (f :: fs)), w1)
    | [] =>
      respond
        (fun tokens =>
          { Verified := true, AccessToken := tokens.1.Value, RefreshToken := tokens.2.Value,
            AccessTokenExpiresAt := tokens.1.ExpiresAt,
            RefreshTokenExpiresAt := tokens.2.ExpiresAt })
        (WithTransaction env (Verify2FATx cfg env req) w1)

/-- Unit of work of `Disable2FA`. -/
def Disable2FATx (env : Env) (req : Disable2FARequest) (tx : World) : Result Unit × World :=
  match repoGetByID env req.UserID tx with
  | (.error _, tx1) => (.err (.app ErrUserNotFound), tx1)
  | (.ok user0, tx1) =>
    if !user0.IsEmailVerified then (.err (.app ErrUserEmailNotVerified), tx1)
    else if !user0.IsActive then (.err (.app ErrUserInactive), tx1)
    else if !user0.IsTwoFactorEnabled then
      (.err (.app (NewAppError ErrCodeBadRequest "2FA not enabled")), tx1)
    else
      match repoUpdate env user0.DisableTwoFactor tx1 with
      | (some err, tx2) => (.err err, tx2)
      | (none, tx2) => (.ok (), tx2)

/-- Go `UserService.Disable2FA`; `.ok ()` is a nil error. -/
def Disable2FA (env : Env) (req : Disable2FARequest) (w : World) : Result Unit × World :=
  match env.validate (.disable2FA req) with
  | f :: fs => (.err (NewValidationError (f :: fs)), w)
  | [] => WithTransaction env (Disable2FATx env req) w

/-- Forget the value of an outcome. -/
def Result.void {α : Type} : Result α → Result Unit
  | .ok _ => .ok ()
  | .err e => .err e
  | .panic p => .panic p

/-- One service operation on `rq`: its outcome without the response value,
and the world after it. -/
def perform (cfg : Config) (env : Env) (rq : Request) (w : World) : Result Unit × World :=
  match rq with
  | .register r => ((Register cfg env r w).1.void, (Register cfg env r w).2)
  | .login r => ((Login cfg env r w).1.void, (Login cfg env r w).2)
  | .verifyOTP r => ((VerifyOTP env r w).1.void, (VerifyOTP env r w).2)
  | .resendOTP r => ((ResendOTP cfg env r w).1.void, (ResendOTP cfg env r w).2)
  | .refreshToken r => ((RefreshToken cfg env r w).1.void, (RefreshToken cfg env r w).2)
  | .forgotPassword r => ((ForgotPassword cfg env r w).1.void, (ForgotPassword cfg env r w).2)
  | .resetPassword r => ((ResetPassword env r w).1.void, (ResetPassword env r w).2)
  | .setup2FA r => ((Setup2FA cfg env r w).1.void, (Setup2FA cfg env r w).2)
  | .verify2FA r => ((Verify2FA cfg env r w).1.void, (Verify2FA cfg env r w).2)
  | .disable2FA r => ((Disable2FA env r w).1.void, (Disable2FA env r w).2)

/-- The world after one service operation on `rq`. -/
def step (cfg : Config) (env : Env) (rq : Request) (w : World) : World :=
  (perform cfg env rq w).2

/-- The world after a sequence of service operations, each with the
environment of its own call. -/
def run (cfg : Config) : List (Env × Request) → World → World
  | [], w => w
  | (env, rq) :: rest, w => run cfg rest (step cfg env rq w)


/-! ## validator (`GoPlaygroundValidator.validatePassword`)

A password is a Lean `String`, that is a valid UTF-8 string: the runes the Go
loop `for _, char := range password` yields are its characters, and
`len(password)` is its size in bytes. -/

/-- The predicates of the standard package `unicode` that `validatePassword`
calls. -/
structure UnicodeTables where
  IsLower : Char → Bool
  IsUpper : Char → Bool
  IsNumber : Char → Bool
  IsPunct : Char → Bool
  IsSymbol : Char → Bool

/-- The four flags of `validatePassword`. -/
structure PasswordFlags where
  hasLower : Bool
  hasUpper : Bool
  hasNumber : Bool
  hasSpecial : Bool
deriving DecidableEq, Repr

/-- One turn of the loop of `validatePassword`: the `switch` takes the first
case that holds. -/
def passwordStep (uni : UnicodeTables) (f : PasswordFlags) (char : Char) : PasswordFlags :=
  if uni.IsLower char then { f with hasLower := true }
  else if uni.IsUpper char then { f with hasUpper := true }
  else if uni.IsNumber char then { f with hasNumber := true }
  else if uni.IsPunct char || uni.IsSymbol char then { f with hasSpecial := true }
  else f

/-- Go `GoPlaygroundValidator.validatePassword` on the field value. -/
def validatePassword (uni : UnicodeTables) (password : String) : Bool :=
  if password.utf8ByteSize < 6 then false
  else
    let f := password.data.foldl (passwordStep uni)
      { hasLower := false, hasUpper := false, hasNumber := false, hasSpecial := false }
    f.hasLower && f.hasUpper && f.hasNumber && f.hasSpecial

/-! ## request (`NewPaging`)

A Go `int` is a 64-bit two's complement integer: an `Int` between `minInt` and
`maxInt`, and the result of `+`, `-` and `*` is wrapped into that range. -/

def minInt : Int := -9223372036854775808
def maxInt : Int := 9223372036854775807

/-- The 64-bit two's complement integer congruent to `x`. -/
def wrapInt (x : Int) : Int := (x + 9223372036854775808) % 18446744073709551616 - 9223372036854775808

def UnlimitedPage : Int := -1

/-- Go `request.Paging`. -/
structure Paging where
  HasPreviousPage : Bool
  HasNextPage : Bool
  CurrentPage : Int
  PerPage : Int
  TotalData : Int
  TotalDataInCurrentPage : Int
  LastPage : Int
  From : Int
  To : Int
deriving DecidableEq, Repr

def ErrPaging : Error := .other "per_page harus lebih besar dari 0 dan offset tidak boleh negatif"

/-- Go `isUnlimitedPage`. -/
def isUnlimitedPage (perPage : Int) : Bool := perPage == UnlimitedPage

/-- Go `NewPaging`; `.error` is a nil `*Paging` with the error; `to1` and
`from1` are the variables `to` and `from`.  Go's `/` and `%` truncate towards
zero. -/
def NewPaging (currentPage perPage totalData : Int) : Except Error Paging :=
  if isUnlimitedPage perPage then
    .ok { HasPreviousPage := false, HasNextPage := false, CurrentPage := currentPage,
          PerPage := perPage, TotalData := totalData, LastPage := 1, From := 1,
          To := totalData, TotalDataInCurrentPage := totalData }
  else if totalData = 0 then
    .ok { HasPreviousPage := false, HasNextPage := false, CurrentPage := 1,
          PerPage := perPage, TotalData := 0, TotalDataInCurrentPage := 0, LastPage := 1,
          From := 0, To := 0 }
  else
    let offset := wrapInt (wrapInt (currentPage - 1) * perPage)
    if perPage ≤ 0 ∨ offset < 0 then .error ErrPaging
    else
      let lastPage0 := Int.tdiv totalData perPage
      let lastPage := if Int.tmod totalData perPage ≠ 0 then wrapInt (lastPage0 + 1) else lastPage0
      let to1 := min (wrapInt (offset + perPage)) totalData
      let from1 := if to1 > offset then wrapInt (offset + 1) else 0
      let currentPage1 := if currentPage > lastPage then lastPage else currentPage
      let totalDataInCurrentPage := wrapInt (to1 - offset)
      .ok { HasPreviousPage := decide (currentPage1 > 1),
            HasNextPage := decide (currentPage1 < lastPage),
            CurrentPage := currentPage1, PerPage := perPage, TotalData := totalData,
            LastPage := lastPage, From := from1, To := to1,
            TotalDataInCurrentPage := totalDataInCurrentPage }

/-! ## token (`JWT.extractBearerToken`, `JWT.VerifyBearerToken`) -/

def ErrInvalidTokenFormat : Error := .other ErrInvalidTokenFormatMsg

/-- Go `strings.Split(s, sep)` for a separator of one character, on the
characters of `s`: the pieces between the occurrences of the separator, one
more than there are occurrences. -/
def stringsSplit (sep : Char) : List Char → List (List Char)
  | [] => [[]]
  | c :: cs =>
    if c = sep then [] :: stringsSplit sep cs
    else
      match stringsSplit sep cs with
      | [] => [[c]]
      | p :: ps => (c :: p) :: ps

/-- Go `JWT.extractBearerToken`; `.error` is the empty string with the error. -/
def extractBearerToken (authHeader : String) : Except Error String :=
  if authHeader = "" then .error ErrInvalidTokenFormat
  else
    let parts := stringsSplit ' ' authHeader.data
    if parts.length ≠ 2 ∨ parts.getD 0 [] ≠ "Bearer".data then .error ErrInvalidTokenFormat
    else if parts.getD 1 [] = [] then .error ErrInvalidTokenFormat
    else .ok (String.mk (parts.getD 1 []))

/-- Go `JWT.VerifyBearerToken`. -/
def VerifyBearerToken (env : Env) (bearerToken : String) : Except Error Payload :=
  match extractBearerToken bearerToken with
  | .error err => .error err
  | .ok tokenStr => VerifyToken env tokenStr

/-! ## encryption (`AES256CBC`)

A byte slice is a list of natural numbers below 256, and so is a plaintext: a
Go string is a sequence of bytes, `[]byte(plaintext)` and
`string(unpaddedText)` keep them.  The texts the package exchanges in base64
and hexadecimal are strings.  Where the Go code appends the text of a library
error to its own message (`fmt.Errorf("...: %v", err)`), that text is the name
of the library: `rand`, `base64`, `json`, `aes`. -/

abbrev Bytes := List Nat

/-- Go `EncryptedPayload`. -/
structure EncryptedPayload where
  IV : String
  Value : String
  MAC : String
  Tag : String
deriving DecidableEq, Repr

/-- What `Encrypt` and `Decrypt` take from the standard library.

* `randRead n`: `rand.Read` on a slice of `n` bytes, `none` being an error.
* `base64Encode`, `base64Decode`: `base64.StdEncoding`.
* `jsonMarshal`, `jsonUnmarshal`: `encoding/json` on an `EncryptedPayload`.
* `cbcEncrypt key iv src`, `cbcDecrypt key iv src`: `CryptBlocks` of the CBC
  encrypter and decrypter of the AES cipher for `key`.
* `hmacHex key text`: the HMAC-SHA256 of `text` under `key`, in hexadecimal. -/
structure CryptoLib where
  randRead : Nat → Option Bytes
  base64Encode : Bytes → String
  base64Decode : String → Option Bytes
  jsonMarshal : EncryptedPayload → Bytes
  jsonUnmarshal : Bytes → Option EncryptedPayload
  cbcEncrypt : Bytes → Bytes → Bytes → Bytes
  cbcDecrypt : Bytes → Bytes → Bytes → Bytes
  hmacHex : Bytes → String → String

/-- The constant `aes.BlockSize`. -/
def BlockSize : Nat := 16

/-- Go `aes.NewCipher` succeeds for keys of 16, 24 or 32 bytes. -/
def validKeySize (key : Bytes) : Bool :=
  key.length == 16 || key.length == 24 || key.length == 32

/-- Go `pkcs7Pad`. -/
def pkcs7Pad (data : Bytes) (blockSize : Nat) : Bytes :=
  let padding := blockSize - data.length % blockSize
  data ++ List.replicate padding (padding % 256)

/-- Go `pkcs7Unpad`. -/
def pkcs7Unpad (data : Bytes) (blockSize : Nat) : Except Error Bytes :=
  if data.length = 0 then .error (.other "data is empty")
  else if data.length % blockSize ≠ 0 then .error (.other "data is not padded properly")
  else
    let padLen := data.getLastD 0
    if padLen = 0 ∨ padLen > blockSize then .error (.other "invalid padding")
    else if (data.drop (data.length - padLen)).any (fun b => b != padLen % 256) then
      .error (.other "invalid padding")
    else .ok (data.take (data.length - padLen))

/-- Go `AES256CBC.generateMAC`. -/
def generateMAC (lib : CryptoLib) (key : Bytes) (payload : EncryptedPayload) : String :=
  let jsonData := lib.jsonMarshal { payload with MAC := "" }
  let macPayload := lib.base64Encode jsonData
  lib.hmacHex key macPayload

/-- Go `AES256CBC.Encrypt`.  The panics are those of `cipher.NewCBCEncrypter`
(an IV that is not one block) and of `CryptBlocks` (an input that is not full
blocks). -/
def Encrypt (lib : CryptoLib) (key : Bytes) (plaintext : Bytes) : Result String :=
  match lib.randRead BlockSize with
  | none => .err (.other "failed to generate IV: rand")
  | some iv =>
    let paddedText := pkcs7Pad plaintext BlockSize
    if !validKeySize key then .err (.other "failed to create cipher: aes")
    else if iv.length ≠ BlockSize then
      .panic "cipher.NewCBCEncrypter: IV length must equal block size"
    else if paddedText.length % BlockSize ≠ 0 then .panic "crypto/cipher: input not full blocks"
    else
      let ciphertext := lib.cbcEncrypt key iv paddedText
      let payload : EncryptedPayload :=
        { IV := lib.base64Encode iv, Value := lib.base64Encode ciphertext, MAC := "", Tag := "" }
      let mac := generateMAC lib key payload
      let jsonPayload := lib.jsonMarshal { payload with MAC := mac }
      .ok (lib.base64Encode jsonPayload)

/-- Go `AES256CBC.Decrypt`. -/
def Decrypt (lib : CryptoLib) (key : Bytes) (encryptedData : String) : Result Bytes :=
  match lib.base64Decode encryptedData with
  | none => .err (.other "invalid base64 data: base64")
  | some jsonPayload =>
    match lib.jsonUnmarshal jsonPayload with
    | none => .err (.other "invalid JSON payload: json")
    | some payload =>
      let expectedMAC := generateMAC lib key payload
      if payload.MAC ≠ expectedMAC then
        .err (.other "MAC verification failed - data may be tampered")
      else
        match lib.base64Decode payload.IV with
        | none => .err (.other "invalid IV: base64")
        | some iv =>
          match lib.base64Decode payload.Value with
          | none => .err (.other "invalid ciphertext: base64")
          | some ciphertext =>
            if !validKeySize key then .err (.other "failed to create cipher: aes")
            else if ciphertext.length % BlockSize ≠ 0 then
              .err (.other "ciphertext is not a multiple of block size")
            else if iv.length ≠ BlockSize then
              .panic "cipher.NewCBCDecrypter: IV length must equal block size"
            else
              let plaintext := lib.cbcDecrypt key iv ciphertext
              match pkcs7Unpad plaintext BlockSize with
              | .error err =>
                .err (.other ("failed to remove padding: " ++
                  (match err with
                   | .other msg => msg
                   | .app e => e.Error
                   | .validation e _ => e.Error)))
              | .ok unpaddedText => .ok unpaddedText
/-! ## Vocabulary of the statements -/

/-- Row replacement performed by `repoUpdate`. -/
def putRow (user : User) (users : List User) : List User :=
  users.map (fun u => if u.ID == user.ID then user else u)

/-- How an operation may rewrite one row: identity and email are kept, the
status is kept unless the operation is `VerifyOTP` on an unverified user (which
activates), a verification timestamp is never removed or changed, and a row
that had a secret whenever its flag was set still has. -/
def RowStep (rq : Request) (u0 u1 : User) : Prop :=
  u1.ID = u0.ID ∧ u1.Email = u0.Email ∧
  (u1.Status = u0.Status ∨
    ((∃ r, rq = Request.verifyOTP r) ∧ u0.EmailVerifiedAt = none ∧
      u1.Status = UserStatus.active)) ∧
  (u0.EmailVerifiedAt.isSome = true → u1.EmailVerifiedAt = u0.EmailVerifiedAt) ∧
  ((u0.TwoFactorEnabled = true → u0.TwoFactorSecret.isSome = true) →
    (u1.TwoFactorEnabled = true → u1.TwoFactorSecret.isSome = true))

/-- How an operation may change the rows: not at all, by appending one new
pending, unverified row with a fresh id and email (`Register`), or by
rewriting one existing row. -/
def UsersStep (rq : Request) (users users1 : List User) : Prop :=
  users1 = users ∨
  (∃ u, users1 = users ++ [u] ∧ (∃ r, rq = Request.register r) ∧
    u.Status = UserStatus.pending ∧ u.EmailVerifiedAt = none ∧ u.TwoFactorEnabled = false ∧
    ∀ x ∈ users, x.ID ≠ u.ID ∧ x.Email ≠ u.Email) ∨
  (∃ u0 u1, u0 ∈ users ∧ users1 = putRow u1 users ∧ RowStep rq u0 u1)

/-- The primary key of `users`: no two rows share an id. -/
def UniqueIDs (users : List User) : Prop := (users.map User.ID).Nodup

instance (users : List User) : Decidable (UniqueIDs users) :=
  inferInstanceAs (Decidable ((users.map User.ID).Nodup))

/-- The lookup by email finds a row whose email is verified. -/
def VerifiedEmail (e : String) (users : List User) : Prop :=
  ∃ u, users.find? (fun x => x.Email == e) = some u ∧ u.EmailVerifiedAt ≠ none

/-- The rate-limit key of a request: the key its operation passes to
`checkRateLimit`, or `none` for the operations that do not check the limiter
(`RefreshToken`, `Setup2FA`, `Disable2FA`). -/
def gateKey : Request → Option String
  | .register r => some (rateLimitKey "register" r.Email)
  | .login r => some (rateLimitKey "login" r.Email)
  | .verifyOTP r => some (rateLimitKey "verify_otp" r.Email)
  | .resendOTP r => some (rateLimitKey "resend_otp" r.Email)
  | .forgotPassword r => some (rateLimitKey "forgot_password" r.Email)
  | .resetPassword r => some (rateLimitKey "reset_password" r.Email)
  | .verify2FA r => some (rateLimitKey "verify_2fa" ("verify_2fa:" ++ toString r.UserID))
  | .refreshToken _ => none
  | .setup2FA _ => none
  | .disable2FA _ => none

/-- The second-factor invariant of the data model: a row whose enabled flag is
set has a secret. -/
def TwoFactorInvariant (users : List User) : Prop :=
  ∀ u ∈ users, u.TwoFactorEnabled = true → u.TwoFactorSecret ≠ none

/-- Where an error returned by an operation can come from, as far as its
classification goes.  An untyped error is the error of a failed transaction
begin, of a failed commit or of a failed enqueue.  A typed error classified
`DATABASE_ERROR` comes from a failed repository call and carries the driver
error as its cause.  A validation error is classified `VALIDATION_FAILED`. -/
def ErrorOrigin (env : Env) : Error → Prop
  | .other msg =>
    (env.faults.txBegin = true ∧ msg = "failed to begin transaction: driver") ∨
    (env.faults.txCommit = true ∧ msg = "commit: driver") ∨
    (env.faults.enqueue = true ∧ msg = "failed to enqueue task: redis")
  | .app a =>
    a.Code = ErrCodeDatabaseError →
      a.Cause = some "driver" ∧
      (env.faults.repoGet = true ∨ env.faults.repoCreate = true ∨
        env.faults.repoUpdate = true)
  | .validation a _ => a.Code = ErrCodeValidationFailed

/-- The three operations that dispatch an email. -/
def dispatches : Request → Bool
  | .register _ => true
  | .resendOTP _ => true
  | .forgotPassword _ => true
  | _ => false

/-- What a unit of work that dispatches does to the queue: nothing, or, when
it returns no error, one task more. -/
def QueueStep {α : Type} (fn : World → Result α × World) : Prop :=
  ∀ tx, (fn tx).2.queue = tx.queue ∨
    ((∃ a, (fn tx).1 = .ok a) ∧ ∃ t, (fn tx).2.queue = tx.queue ++ [t])


/-- The error codes the package `apperror` defines. -/
def definedCodes : List ErrorCode :=
  [ErrCodeNotFound, ErrCodeInvalidInput, ErrCodeUnauthorized, ErrCodeForbidden, ErrCodeConflict,
   ErrCodeInternalError, ErrCodeValidationFailed, ErrCodeDatabaseError, ErrCodeExternalService,
   ErrCodeBadRequest, ErrCodeTooManyRequests, ErrCodeUserAlreadyExists, ErrCodeUserNotFound,
   ErrCodeUserIncorrectPassword, ErrCodeUserInactive, ErrCodeUserEmailNotVerified,
   ErrCodeInvalidOTP, ErrCodeOTPExpired, ErrCodeInvalidToken]

/-- The defined codes that name a mistake of the client or a broken business
rule: all but `INTERNAL_ERROR`, `DATABASE_ERROR` and `EXTERNAL_SERVICE_ERROR`. -/
def clientCodes : List ErrorCode :=
  [ErrCodeNotFound, ErrCodeInvalidInput, ErrCodeUnauthorized, ErrCodeForbidden, ErrCodeConflict,
   ErrCodeValidationFailed, ErrCodeBadRequest, ErrCodeTooManyRequests,
   ErrCodeUserAlreadyExists, ErrCodeUserNotFound, ErrCodeUserIncorrectPassword,
   ErrCodeUserInactive, ErrCodeUserEmailNotVerified, ErrCodeInvalidOTP, ErrCodeOTPExpired,
   ErrCodeInvalidToken]

/-- The header `h` is the string `Bearer `, with its one space, followed by
the non-empty token `t`, which contains no space. -/
def BearerFormat (h t : String) : Prop :=
  h = "Bearer " ++ t ∧ t ≠ "" ∧ ' ' ∉ t.data

/-- The classes of `tables` are disjoint on the characters of `s`, as the
general categories of Unicode are: an uppercase letter is not a lowercase
letter, a number is not a letter, a punctuation or symbol character is neither
a letter nor a number. -/
def DisjointClasses (uni : UnicodeTables) (s : String) : Prop :=
  ∀ c ∈ s.data,
    (uni.IsUpper c = true → uni.IsLower c = false) ∧
    (uni.IsNumber c = true → uni.IsLower c = false ∧ uni.IsUpper c = false) ∧
    (uni.IsPunct c = true ∨ uni.IsSymbol c = true →
      uni.IsLower c = false ∧ uni.IsUpper c = false ∧ uni.IsNumber c = false)

/-- The least integer not below the quotient of `a` by a positive `b`. -/
def ceilDiv (a b : Int) : Int := (a + b - 1) / b

/-- The payload `Encrypt` marshals when `rand.Read` yields the IV `iv`: the
base64 texts of the IV and of the ciphertext, and their MAC. -/
def encryptedPayloadOf (lib : CryptoLib) (key iv plaintext : Bytes) : EncryptedPayload :=
  { IV := lib.base64Encode iv,
    Value := lib.base64Encode (lib.cbcEncrypt key iv (pkcs7Pad plaintext BlockSize)),
    MAC := generateMAC lib key
      { IV := lib.base64Encode iv,
        Value := lib.base64Encode (lib.cbcEncrypt key iv (pkcs7Pad plaintext BlockSize)),
        MAC := "", Tag := "" },
    Tag := "" }

/-- The standard library undoes what it did on the values of one `Encrypt`
call with the IV `iv`: decoding the base64 texts gives the bytes that were
encoded, unmarshalling the JSON gives the payload that was marshalled, and the
CBC decrypter returns the padded text from the ciphertext, which is as long as
the padded text. -/
def LibraryRoundTrips (lib : CryptoLib) (key iv plaintext : Bytes) : Prop :=
  (lib.cbcEncrypt key iv (pkcs7Pad plaintext BlockSize)).length =
    (pkcs7Pad plaintext BlockSize).length ∧
  lib.cbcDecrypt key iv (lib.cbcEncrypt key iv (pkcs7Pad plaintext BlockSize)) =
    pkcs7Pad plaintext BlockSize ∧
  lib.base64Decode (lib.base64Encode iv) = some iv ∧
  lib.base64Decode (lib.base64Encode (lib.cbcEncrypt key iv (pkcs7Pad plaintext BlockSize))) =
    some (lib.cbcEncrypt key iv (pkcs7Pad plaintext BlockSize)) ∧
  lib.jsonUnmarshal (lib.jsonMarshal (encryptedPayloadOf lib key iv plaintext)) =
    some (encryptedPayloadOf lib key iv plaintext) ∧
  lib.base64Decode (lib.base64Encode (lib.jsonMarshal (encryptedPayloadOf lib key iv plaintext))) =
    some (lib.jsonMarshal (encryptedPayloadOf lib key iv plaintext))
/-! ## Sample data for the concrete instances -/

def sampleCfg : Config :=
  { AppName := "goca", AppFrontendURL := "https://app.example",
    AuthAccessTokenExpiry := 15 * Minute, AuthAccessTokenExpiryExtended := 60 * Minute,
    AuthRefreshTokenExpiry := 1440 * Minute, AuthRefreshTokenExpiryExtended := 43200 * Minute }

/-- An environment in which nothing fails: the limiter admits every key, every
request validates, the hash of `p` is `hash:p`, every random draw is 4, every
token is `jwt`, and the one accepted second-factor code is `123456`. -/
def sampleEnv : Env :=
  { now := 1000, newID := 2,
    limiter := fun _ => some false,
    validate := fun _ => [],
    hashPassword := fun p => some ("hash:" ++ p),
    checkPasswordHash := fun p h => h == "hash:" ++ p,
    rand := fun _ => some 4,
    sign := fun _ => some "jwt",
    parse := fun _ => ParseResult.invalid,
    totpGenerate := fun _ _ => some "SECRET",
    totpValidate := fun code _ => code == "123456",
    qrEncode := fun _ => some "png",
    queryEscape := fun s => s,
    faults := noFaults }

/-- The sample environment with the limiter reporting every key as exceeded
and every request failing validation. -/
def limitedEnv : Env :=
  { sampleEnv with
    limiter := fun _ => some true,
    validate := fun _ => [{ Field := "email", Message := "email is required",
                            Tag := "required", Value := "" }] }

/-- A registered user who has not verified the email yet. -/
def ann : User :=
  { ID := 1, Email := "a@x.com", EmailVerifiedAt := none, FirstName := "Ann",
    LastName := some "Lee", FullName := "Ann Lee", Password := "hash:Abcd12!@",
    Status := UserStatus.pending, TwoFactorSecret := none, TwoFactorEnabled := false,
    CreatedAt := 10, UpdatedAt := 10 }

/-- The same user after the email was verified. -/
def annActive : User :=
  { ann with EmailVerifiedAt := some 500, Status := UserStatus.active }

/-- The verified user with the second factor enabled. -/
def annTwoFactor : User :=
  { annActive with TwoFactorSecret := some "SECRET", TwoFactorEnabled := true }

/-- The unverified user after an operator suspended the account. -/
def annSuspended : User := { ann with Status := UserStatus.suspended }

/-- A world holding only the suspended, unverified user: no code is stored. -/
def suspendedWorld : World :=
  { users := [annSuspended], cache := [], queue := [], trace := [] }

def emptyWorld : World := { users := [], cache := [], queue := [], trace := [] }

/-- A world holding the users `us` and the verification code `483920` and the
reset code `771204` for `a@x.com`, both live until instant 2000. -/
def worldWith (us : List User) : World :=
  { users := us,
    cache := [{ key := "email_verification:a@x.com", value := "483920", expiresAt := 2000 },
              { key := "password_reset:a@x.com", value := "771204", expiresAt := 2000 }],
    queue := [], trace := [] }

/-- The sample environment with a token parser that accepts every token as one
issued for user 1. -/
def tokenEnv : Env :=
  { sampleEnv with
    parse := fun _ => ParseResult.valid
      { UserID := 1, Issuer := "goca", ExpiresAt := 5000, IssuedAt := 0, NotBefore := 0 } }

/-- The sample environment with a commit that fails. -/
def commitFailEnv : Env := { sampleEnv with faults := { noFaults with txCommit := true } }

/-- The sample environment with a cache delete that fails. -/
def deleteFailEnv : Env := { sampleEnv with faults := { noFaults with cacheDelete := true } }

/-- The sample environment with repository reads that fail. -/
def readFailEnv : Env := { sampleEnv with faults := { noFaults with repoGet := true } }

/-- The sample environment with an enqueue that fails. -/
def enqueueFailEnv : Env := { sampleEnv with faults := { noFaults with enqueue := true } }

/-- The sample environment whose second-factor validator rejects every code. -/
def rejectEnv : Env := { sampleEnv with totpValidate := fun _ _ => false }

/-- The sample registration request of `Ann Lee`. -/
def annRequest : RegisterRequest :=
  { Email := "a@x.com", FirstName := "Ann", LastName := some "Lee", Password := "Abcd12!@" }


/-- The tables of `unicode` on the characters up to U+00FF, as the array
`properties` of the package gives them for Latin-1, the characters being given
by their codes; the characters beyond U+00FF are not classed here.  The numbers
are the digits 0 to 9 and the six characters `²`, `³`, `¹`, `¼`, `½`, `¾`
(178, 179, 185, 188, 189, 190). -/
def latin1Tables : UnicodeTables :=
  { IsLower := fun c =>
      decide ((97 ≤ c.toNat ∧ c.toNat ≤ 122) ∨ c.toNat = 181 ∨
        (223 ≤ c.toNat ∧ c.toNat ≤ 246) ∨ (248 ≤ c.toNat ∧ c.toNat ≤ 255))
    IsUpper := fun c =>
      decide ((65 ≤ c.toNat ∧ c.toNat ≤ 90) ∨ (192 ≤ c.toNat ∧ c.toNat ≤ 214) ∨
        (216 ≤ c.toNat ∧ c.toNat ≤ 222))
    IsNumber := fun c =>
      decide ((48 ≤ c.toNat ∧ c.toNat ≤ 57) ∨ c.toNat ∈ [178, 179, 185, 188, 189, 190])
    IsPunct := fun c =>
      c.toNat ∈ [33, 34, 35, 37, 38, 39, 40, 41, 42, 44, 45, 46, 47, 58, 59, 63, 64, 91, 92,
        93, 95, 123, 125, 161, 167, 171, 182, 183, 187, 191]
    IsSymbol := fun c =>
      c.toNat ∈ [36, 43, 60, 61, 62, 94, 96, 124, 126, 162, 163, 164, 165, 166, 168, 169, 172,
        174, 175, 176, 177, 180, 184, 215, 247] }

/-- The sample environment with an issuer that tells its tokens apart: a token
signed for the default access duration is `access@` followed by the instant of
issue, any other is `refresh@` followed by it, and the parser knows the two
tokens issued for user 1 at instant 1000. -/
def issuerEnv : Env :=
  { sampleEnv with
    sign := fun c =>
      some ((if c.ExpiresAt = c.IssuedAt + 15 * Minute then "access@" else "refresh@") ++
        toString c.IssuedAt),
    parse := fun t =>
      if t = "access@1000" then
        ParseResult.valid
          { UserID := 1, Issuer := "goca", ExpiresAt := 1000 + 15 * Minute, IssuedAt := 1000,
            NotBefore := 1000 }
      else if t = "refresh@1000" then
        ParseResult.valid
          { UserID := 1, Issuer := "goca", ExpiresAt := 1000 + 1440 * Minute, IssuedAt := 1000,
            NotBefore := 1000 }
      else ParseResult.invalid }

/-- The issuer of `issuerEnv` one thousand instants later. -/
def laterIssuerEnv : Env := { issuerEnv with now := 2000 }

/-- A toy library for the concrete instances: the IV is sixteen bytes 7, the
base64 text of a byte string is the string of the characters with those codes,
a payload is marshalled as its four fields separated by a bar, the cipher
adds one to every byte, and the MAC of a text is its length. -/
def toyLib : CryptoLib :=
  { randRead := fun n => some (List.replicate n 7)
    base64Encode := fun b => String.mk (b.map Char.ofNat)
    base64Decode := fun s => some (s.data.map Char.toNat)
    jsonMarshal := fun p =>
      (p.IV.data ++ '|' :: p.Value.data ++ '|' :: p.MAC.data ++ '|' :: p.Tag.data).map
        Char.toNat
    jsonUnmarshal := fun b =>
      match stringsSplit '|' (b.map Char.ofNat) with
      | [iv, value, mac, tag] =>
        some { IV := String.mk iv, Value := String.mk value, MAC := String.mk mac,
               Tag := String.mk tag }
      | _ => none
    cbcEncrypt := fun _ _ src => src.map (fun b => (b + 1) % 256)
    cbcDecrypt := fun _ _ src => src.map (fun b => (b + 255) % 256)
    hmacHex := fun _ text => "mac" ++ toString text.length }

/-- A key of 32 bytes. -/
def toyKey : Bytes := List.replicate 32 1
/-! ## Effects of the collaborator calls -/

@[simp] theorem log_users (w : World) (c : Call) : (w.log c).users = w.users := rfl
@[simp] theorem log_cache (w : World) (c : Call) : (w.log c).cache = w.cache := rfl
@[simp] theorem log_queue (w : World) (c : Call) : (w.log c).queue = w.queue := rfl
@[simp] theorem log_trace (w : World) (c : Call) : (w.log c).trace = w.trace ++ [c] := rfl

/-- An equation between a computed pair and a pair of values, oriented so that
the world variable can be eliminated. -/
theorem pair_eq_iff {α β : Type} (p : α × β) (a : α) (b : β) :
    p = (a, b) ↔ b = p.2 ∧ p.1 = a := by
  constructor
  · rintro rfl
    exact ⟨rfl, rfl⟩
  · rintro ⟨rfl, rfl⟩
    rfl

theorem checkRateLimit_snd (env : Env) (o i : String) (w : World) :
    (checkRateLimit env o i w).2 = w.log (.limiterTake (rateLimitKey o i)) := by
  unfold checkRateLimit
  dsimp only
  repeat' split
  all_goals rfl

theorem repoGetByEmail_snd (env : Env) (e : String) (w : World) :
    (repoGetByEmail env e w).2 = w.log (.repoGetByEmail e) := by
  unfold repoGetByEmail
  repeat' split
  all_goals rfl

theorem repoGetByEmail_ok (env : Env) (e : String) (w : World) (u : User) :
    (repoGetByEmail env e w).1 = .ok u ↔
      env.faults.repoGet = false ∧ w.users.find? (fun x => x.Email == e) = some u := by
  unfold repoGetByEmail
  cases env.faults.repoGet <;> cases h : w.users.find? (fun x => x.Email == e) <;> simp [h]

theorem repoGetByEmail_error (env : Env) (e : String) (w : World) (err : Error) :
    (repoGetByEmail env e w).1 = .error err ↔
      (env.faults.repoGet = true ∧ err = .app (WrapError (.other "driver") ErrCodeDatabaseError
        "Failed to retrieve user")) ∨
      (env.faults.repoGet = false ∧ w.users.find? (fun x => x.Email == e) = none ∧
        err = .app ErrUserNotFound) := by
  unfold repoGetByEmail
  cases env.faults.repoGet <;> cases h : w.users.find? (fun x => x.Email == e) <;>
    simp [h, eq_comm]

theorem getUserByEmail_snd (env : Env) (e : String) (w : World) :
    (getUserByEmail env e w).2 = w.log (.repoGetByEmail e) := repoGetByEmail_snd env e w

theorem getUserByEmail_ok (env : Env) (e : String) (w : World) (u : User) :
    (getUserByEmail env e w).1 = .ok u ↔
      env.faults.repoGet = false ∧ w.users.find? (fun x => x.Email == e) = some u :=
  repoGetByEmail_ok env e w u

theorem getUserByEmail_error (env : Env) (e : String) (w : World) (err : Error) :
    (getUserByEmail env e w).1 = .error err ↔
      (env.faults.repoGet = true ∧ err = .app (WrapError (.other "driver") ErrCodeDatabaseError
        "Failed to retrieve user")) ∨
      (env.faults.repoGet = false ∧ w.users.find? (fun x => x.Email == e) = none ∧
        err = .app ErrUserNotFound) :=
  repoGetByEmail_error env e w err

theorem repoGetByID_snd (env : Env) (id : UserID) (w : World) :
    (repoGetByID env id w).2 = w.log (.repoGetByID id) := by
  unfold repoGetByID
  repeat' split
  all_goals rfl

theorem repoGetByID_ok (env : Env) (id : UserID) (w : World) (u : User) :
    (repoGetByID env id w).1 = .ok u ↔
      env.faults.repoGet = false ∧ w.users.find? (fun x => x.ID == id) = some u := by
  unfold repoGetByID
  cases env.faults.repoGet <;> cases h : w.users.find? (fun x => x.ID == id) <;> simp [h]

theorem getUserByID_snd (env : Env) (id : UserID) (w : World) :
    (getUserByID env id w).2 = w.log (.repoGetByID id) := repoGetByID_snd env id w

theorem getUserByID_ok (env : Env) (id : UserID) (w : World) (u : User) :
    (getUserByID env id w).1 = .ok u ↔
      env.faults.repoGet = false ∧ w.users.find? (fun x => x.ID == id) = some u :=
  repoGetByID_ok env id w u

theorem repoCreate_none (env : Env) (u : User) (w : World) :
    (repoCreate env u w).1 = none ↔
      env.faults.repoCreate = false ∧
        w.users.any (fun x => x.ID == u.ID || x.Email == u.Email) = false := by
  unfold repoCreate violatesUnique
  cases env.faults.repoCreate <;>
    cases h : w.users.any (fun x => x.ID == u.ID || x.Email == u.Email) <;> simp [h]

theorem repoCreate_snd_users (env : Env) (u : User) (w : World) :
    (repoCreate env u w).2.users =
      if (repoCreate env u w).1 = none then w.users ++ [u] else w.users := by
  unfold repoCreate violatesUnique
  cases env.faults.repoCreate <;>
    cases h : w.users.any (fun x => x.ID == u.ID || x.Email == u.Email) <;> simp [h]

theorem repoUpdate_none (env : Env) (u : User) (w : World) :
    (repoUpdate env u w).1 = none ↔ env.faults.repoUpdate = false := by
  unfold repoUpdate
  cases env.faults.repoUpdate <;> simp

theorem repoUpdate_snd_users (env : Env) (u : User) (w : World) :
    (repoUpdate env u w).2.users =
      if (repoUpdate env u w).1 = none then putRow u w.users else w.users := by
  unfold repoUpdate putRow
  cases env.faults.repoUpdate <;> simp

theorem cacheSet_snd_users (env : Env) (k v : String) (t : Nat) (w : World) :
    (cacheSet env k v t w).2.users = w.users := by
  unfold cacheSet
  cases env.faults.cacheSet <;> simp

theorem generateAndCacheOTP_snd_users (env : Env) (p i : String) (w : World) :
    (generateAndCacheOTP env p i w).2.users = w.users := by
  unfold generateAndCacheOTP
  cases GenerateNumericOTP env.rand OTPCodeLength with
  | error e => rfl
  | ok c =>
    have h := cacheSet_snd_users env (otpCacheKey p i) c EmailConfirmationExpInMin w
    rcases hc : cacheSet env (otpCacheKey p i) c EmailConfirmationExpInMin w with ⟨_ | _, w1⟩ <;>
      simp [hc] at h ⊢ <;> exact h

theorem getCachedOTP_snd (env : Env) (p i : String) (w : World) :
    (getCachedOTP env p i w).2 = w.log (.cacheGet (otpCacheKey p i)) := by
  unfold getCachedOTP cacheGet
  cases env.faults.cacheGet <;>
    cases h : w.cache.find?
      (fun e => e.key == otpCacheKey p i && decide (env.now < e.expiresAt)) <;> simp [h]

theorem deleteCachedOTP_snd_users (env : Env) (p i : String) (w : World) :
    (deleteCachedOTP env p i w).2.users = w.users := by
  unfold deleteCachedOTP cacheDelete
  cases env.faults.cacheDelete <;> simp

theorem deleteCachedOTP_fst (env : Env) (p i : String) (w : World) :
    (deleteCachedOTP env p i w).1 = none := by
  unfold deleteCachedOTP cacheDelete
  cases env.faults.cacheDelete <;> simp

theorem enqueueTask_snd_users (env : Env) (t : Task) (w : World) :
    (enqueueTask env t w).2.users = w.users := by
  unfold enqueueTask
  cases env.faults.enqueue <;> simp

theorem queueVerificationEmail_snd_users (cfg : Config) (env : Env) (u : User) (c : String)
    (w : World) : (queueVerificationEmail cfg env u c w).2.users = w.users := by
  unfold queueVerificationEmail DistributeTaskSendVerifyEmail
  exact enqueueTask_snd_users _ _ _

theorem queueForgotPasswordEmail_snd_users (cfg : Config) (env : Env) (u : User) (c : String)
    (w : World) : (queueForgotPasswordEmail cfg env u c w).2.users = w.users := by
  unfold queueForgotPasswordEmail DistributeTaskSendForgotPasswordEmail
  exact enqueueTask_snd_users _ _ _

@[simp] theorem respond_snd {α β : Type} (f : α → β) (r : Result α × World) :
    (respond f r).2 = r.2 := by
  rcases r with ⟨_ | _ | _, w⟩ <;> rfl

theorem respond_ok {α β : Type} (f : α → β) (r : Result α × World) (b : β) :
    (respond f r).1 = .ok b ↔ ∃ a, r.1 = .ok a ∧ b = f a := by
  rcases r with ⟨_ | _ | _, w⟩ <;> simp [respond, eq_comm]

theorem respond_err {α β : Type} (f : α → β) (r : Result α × World) (e : Error) :
    (respond f r).1 = .err e ↔ r.1 = .err e := by
  rcases r with ⟨_ | _ | _, w⟩ <;> simp [respond]

/-- Rows after `WithTransaction`: those of the unit of work when it returned
no error and the commit went through, the rows at `Begin` otherwise. -/
theorem WithTransaction_users {α : Type} (env : Env) (fn : World → Result α × World)
    (w : World) :
    (WithTransaction env fn w).2.users = w.users ∨
      ((∃ a, (fn (w.log .txBegin)).1 = .ok a ∧ (WithTransaction env fn w).1 = .ok a) ∧
        (WithTransaction env fn w).2.users = (fn (w.log .txBegin)).2.users) := by
  unfold WithTransaction
  cases env.faults.txBegin
  · rcases h : fn (w.log .txBegin) with ⟨_ | _ | _, w2⟩
    · cases env.faults.txCommit <;> simp [h]
    · simp [h]
    · simp [h]
  · simp

/-- A transaction that returns a value ran its unit of work to that value and
committed its rows. -/
theorem WithTransaction_ok {α : Type} (env : Env) (fn : World → Result α × World)
    (w : World) (a : α) (h : (WithTransaction env fn w).1 = .ok a) :
    (fn (w.log .txBegin)).1 = .ok a ∧
      (WithTransaction env fn w).2.users = (fn (w.log .txBegin)).2.users := by
  revert h
  unfold WithTransaction
  cases env.faults.txBegin
  · rcases h : fn (w.log .txBegin) with ⟨_ | _ | _, w2⟩
    · cases env.faults.txCommit <;> simp [h]
    · simp [h]
    · simp [h]
  · simp


theorem VerifyOTPTx_users (env : Env) (req : VerifyOTPRequest) (w : World) :
    (VerifyOTPTx env req w).2.users = w.users ∨
      ∃ u0, w.users.find? (fun x => x.Email == req.Email) = some u0 ∧
        u0.EmailVerifiedAt = none ∧
        (VerifyOTPTx env req w).2.users = putRow (u0.VerifyEmail env.now).Activate w.users := by
  unfold VerifyOTPTx
  repeat' split
  all_goals simp_all [pair_eq_iff, getUserByEmail_snd, getCachedOTP_snd,
    repoUpdate_snd_users, updateUser, deleteCachedOTP_snd_users, deleteCachedOTP_fst,
    getUserByEmail_ok, repoUpdate_none, User.IsEmailVerified]

theorem VerifyOTPTx_usersStep (env : Env) (req : VerifyOTPRequest) (w : World) :
    UsersStep (.verifyOTP req) w.users (VerifyOTPTx env req w).2.users := by
  rcases VerifyOTPTx_users env req w with h | ⟨u0, hf, hv, h⟩
  · exact Or.inl h
  · refine Or.inr (Or.inr ⟨u0, _, List.mem_of_find?_eq_some hf, h, ?_⟩)
    simp [RowStep, User.VerifyEmail, User.Activate, User.SetStatus, hv]

theorem RegisterRequestToUserEntity_some (id : UserID) (now : Nat) (req : RegisterRequest)
    (u : User) (h : RegisterRequestToUserEntity id now req = some u) :
    u.ID = id ∧ u.Email = req.Email ∧ u.Status = UserStatus.pending ∧
      u.EmailVerifiedAt = none ∧ u.Password = req.Password ∧ u.TwoFactorEnabled = false ∧
      u.TwoFactorSecret = none ∧ u.FirstName = req.FirstName ∧ u.LastName = req.LastName := by
  revert h
  unfold RegisterRequestToUserEntity User.GenerateFullName User.SetStatus
  cases hl : req.LastName <;> simp
  rintro rfl
  simp

theorem hashPassword_ok (env : Env) (p h : String) :
    hashPassword env p = .ok h ↔ env.hashPassword p = some h := by
  unfold hashPassword
  cases env.hashPassword p <;> simp

theorem RegisterTx_users (cfg : Config) (env : Env) (req : RegisterRequest) (w : World) :
    (RegisterTx cfg env req w).2.users = w.users ∨
      ∃ u0 h, RegisterRequestToUserEntity env.newID env.now req = some u0 ∧
        env.hashPassword u0.Password = some h ∧
        w.users.any (fun x => x.ID == u0.ID || x.Email == u0.Email) = false ∧
        (RegisterTx cfg env req w).2.users = w.users ++ [{ u0 with Password := h }] := by
  unfold RegisterTx
  repeat' split
  all_goals simp_all [pair_eq_iff, getUserByEmail_snd, createUser, repoCreate_snd_users,
    repoCreate_none, generateAndCacheOTP_snd_users, queueVerificationEmail_snd_users,
    hashPassword_ok]

theorem RegisterTx_usersStep (cfg : Config) (env : Env) (req : RegisterRequest) (w : World) :
    UsersStep (.register req) w.users (RegisterTx cfg env req w).2.users := by
  rcases RegisterTx_users cfg env req w with h | ⟨u0, p, he, _, hany, h⟩
  · exact Or.inl h
  · obtain ⟨_, _, hs, hv, _, ht, _⟩ := RegisterRequestToUserEntity_some _ _ _ _ he
    refine Or.inr (Or.inl ⟨_, h, ⟨req, rfl⟩, hs, hv, ht, ?_⟩)
    intro x hx
    have := List.any_eq_false.mp hany x hx
    simpa [not_or] using this

theorem ResendOTPTx_users (cfg : Config) (env : Env) (req : ResendOTPRequest) (w : World) :
    (ResendOTPTx cfg env req w).2.users = w.users := by
  unfold ResendOTPTx
  repeat' split
  all_goals simp_all [pair_eq_iff, getUserByEmail_snd, generateAndCacheOTP_snd_users,
    queueVerificationEmail_snd_users]

theorem ForgotPasswordTx_users (cfg : Config) (env : Env) (req : ForgotPasswordRequest)
    (w : World) : (ForgotPasswordTx cfg env req w).2.users = w.users := by
  unfold ForgotPasswordTx
  repeat' split
  all_goals simp_all [pair_eq_iff, getUserByEmail_snd, generateAndCacheOTP_snd_users,
    queueForgotPasswordEmail_snd_users]

theorem ResetPasswordTx_users (env : Env) (req : ResetPasswordRequest) (w : World) :
    (ResetPasswordTx env req w).2.users = w.users ∨
      ∃ u0 h, w.users.find? (fun x => x.Email == req.Email) = some u0 ∧
        env.hashPassword req.NewPassword = some h ∧
        (ResetPasswordTx env req w).2.users =
          putRow { u0 with Password := h, UpdatedAt := env.now } w.users := by
  unfold ResetPasswordTx
  repeat' split
  all_goals simp_all [pair_eq_iff, getUserByEmail_snd, getCachedOTP_snd,
    repoUpdate_snd_users, updateUser, deleteCachedOTP_snd_users, deleteCachedOTP_fst,
    getUserByEmail_ok, repoUpdate_none, hashPassword_ok]

theorem ResetPasswordTx_usersStep (env : Env) (req : ResetPasswordRequest) (w : World) :
    UsersStep (.resetPassword req) w.users (ResetPasswordTx env req w).2.users := by
  rcases ResetPasswordTx_users env req w with h | ⟨u0, p, hf, _, h⟩
  · exact Or.inl h
  · refine Or.inr (Or.inr ⟨u0, _, List.mem_of_find?_eq_some hf, h, ?_⟩)
    simp [RowStep]

theorem generate2FASecret_ok (cfg : Config) (env : Env) (e s : String) :
    generate2FASecret cfg env e = .ok s ↔ env.totpGenerate cfg.AppName e = some s := by
  unfold generate2FASecret
  cases env.totpGenerate cfg.AppName e <;> simp

theorem Setup2FATx_users (cfg : Config) (env : Env) (req : Setup2FARequest) (w : World) :
    (Setup2FATx cfg env req w).2.users = w.users ∨
      ∃ u0 s, w.users.find? (fun x => x.ID == req.UserID) = some u0 ∧
        u0.EmailVerifiedAt ≠ none ∧ u0.Status = UserStatus.active ∧
        u0.IsTwoFactorEnabled = false ∧
        env.totpGenerate cfg.AppName u0.Email = some s ∧
        (Setup2FATx cfg env req w).2.users =
          putRow (u0.SetTwoFactorSecret s).EnableTwoFactor w.users := by
  unfold Setup2FATx
  repeat' split
  all_goals simp_all [pair_eq_iff, repoGetByID_snd, repoUpdate_snd_users, repoGetByID_ok,
    repoUpdate_none, generate2FASecret_ok, User.IsEmailVerified, User.IsActive]

theorem Setup2FATx_usersStep (cfg : Config) (env : Env) (req : Setup2FARequest) (w : World) :
    UsersStep (.setup2FA req) w.users (Setup2FATx cfg env req w).2.users := by
  rcases Setup2FATx_users cfg env req w with h | ⟨u0, s, hf, _, _, _, _, h⟩
  · exact Or.inl h
  · refine Or.inr (Or.inr ⟨u0, _, List.mem_of_find?_eq_some hf, h, ?_⟩)
    simp [RowStep, User.SetTwoFactorSecret, User.EnableTwoFactor]

theorem Verify2FATokens_snd (cfg : Config) (env : Env) (u : User) (w : World) :
    (Verify2FATokens cfg env u w).2 = w := by
  unfold Verify2FATokens
  repeat' split
  all_goals rfl

theorem Verify2FATx_users (cfg : Config) (env : Env) (req : Verify2FARequest) (w : World) :
    (Verify2FATx cfg env req w).2.users = w.users ∨
      ∃ u0, w.users.find? (fun x => x.ID == req.UserID) = some u0 ∧
        u0.EmailVerifiedAt ≠ none ∧ u0.Status = UserStatus.active ∧
        u0.TwoFactorSecret ≠ none ∧ u0.IsTwoFactorEnabled = false ∧
        env.totpValidate req.Code u0.GetTwoFactorSecret = true ∧
        (Verify2FATx cfg env req w).2.users = putRow u0.EnableTwoFactor w.users := by
  unfold Verify2FATx
  repeat' split
  all_goals simp_all [pair_eq_iff, repoGetByID_snd, repoUpdate_snd_users, repoGetByID_ok,
    repoUpdate_none, User.IsEmailVerified, User.IsActive, User.HasTwoFactorSecret,
    Verify2FATokens_snd]

theorem Verify2FATx_usersStep (cfg : Config) (env : Env) (req : Verify2FARequest) (w : World) :
    UsersStep (.verify2FA req) w.users (Verify2FATx cfg env req w).2.users := by
  rcases Verify2FATx_users cfg env req w with h | ⟨u0, hf, _, _, hs, _, _, h⟩
  · exact Or.inl h
  · refine Or.inr (Or.inr ⟨u0, _, List.mem_of_find?_eq_some hf, h, ?_⟩)
    simp [RowStep, User.EnableTwoFactor, Option.isSome_iff_ne_none, hs]

theorem Disable2FATx_users (env : Env) (req : Disable2FARequest) (w : World) :
    (Disable2FATx env req w).2.users = w.users ∨
      ∃ u0, w.users.find? (fun x => x.ID == req.UserID) = some u0 ∧
        u0.EmailVerifiedAt ≠ none ∧ u0.Status = UserStatus.active ∧
        u0.IsTwoFactorEnabled = true ∧
        (Disable2FATx env req w).2.users = putRow u0.DisableTwoFactor w.users := by
  unfold Disable2FATx
  repeat' split
  all_goals simp_all [pair_eq_iff, repoGetByID_snd, repoUpdate_snd_users, repoGetByID_ok,
    repoUpdate_none, User.IsEmailVerified, User.IsActive]

theorem Disable2FATx_usersStep (env : Env) (req : Disable2FARequest) (w : World) :
    UsersStep (.disable2FA req) w.users (Disable2FATx env req w).2.users := by
  rcases Disable2FATx_users env req w with h | ⟨u0, hf, _, _, _, h⟩
  · exact Or.inl h
  · refine Or.inr (Or.inr ⟨u0, _, List.mem_of_find?_eq_some hf, h, ?_⟩)
    simp [RowStep, User.DisableTwoFactor]

theorem usersStep_refl (rq : Request) (users : List User) : UsersStep rq users users :=
  Or.inl rfl

theorem WithTransaction_usersStep {α : Type} (env : Env) (rq : Request)
    (fn : World → Result α × World) (w : World)
    (h : ∀ tx, UsersStep rq tx.users (fn tx).2.users) :
    UsersStep rq w.users (WithTransaction env fn w).2.users := by
  rcases WithTransaction_users env fn w with h1 | ⟨_, h2⟩
  · exact Or.inl h1
  · rw [h2]
    exact h (w.log .txBegin)

theorem Register_usersStep (cfg : Config) (env : Env) (req : RegisterRequest) (w : World) :
    UsersStep (.register req) w.users (Register cfg env req w).2.users := by
  unfold Register
  split
  · simp_all [pair_eq_iff, checkRateLimit_snd, UsersStep]
  · rename_i w1 heq
    have hw : w1.users = w.users := by simp_all [pair_eq_iff, checkRateLimit_snd]
    split
    · simp [hw, UsersStep]
    · rw [respond_snd, ← hw]
      exact WithTransaction_usersStep env _ _ w1 (RegisterTx_usersStep cfg env req)

theorem Login_users (cfg : Config) (env : Env) (req : LoginRequest) (w : World) :
    (Login cfg env req w).2.users = w.users := by
  unfold Login
  repeat' split
  all_goals simp_all [pair_eq_iff, checkRateLimit_snd, getUserByEmail_snd]

theorem RefreshToken_users (cfg : Config) (env : Env) (req : RefreshTokenRequest) (w : World) :
    (RefreshToken cfg env req w).2.users = w.users := by
  unfold RefreshToken
  repeat' split
  all_goals simp_all [pair_eq_iff, getUserByID_snd]

theorem VerifyOTP_usersStep (env : Env) (req : VerifyOTPRequest) (w : World) :
    UsersStep (.verifyOTP req) w.users (VerifyOTP env req w).2.users := by
  unfold VerifyOTP
  split
  · simp_all [pair_eq_iff, checkRateLimit_snd, UsersStep]
  · rename_i w1 heq
    have hw : w1.users = w.users := by simp_all [pair_eq_iff, checkRateLimit_snd]
    split
    · simp [hw, UsersStep]
    · rw [respond_snd, ← hw]
      exact WithTransaction_usersStep env _ _ w1 (VerifyOTPTx_usersStep env req)

theorem ResendOTP_users (cfg : Config) (env : Env) (req : ResendOTPRequest) (w : World) :
    (ResendOTP cfg env req w).2.users = w.users := by
  unfold ResendOTP
  split
  · simp_all [pair_eq_iff, checkRateLimit_snd]
  · rename_i w1 heq
    have hw : w1.users = w.users := by simp_all [pair_eq_iff, checkRateLimit_snd]
    split
    · exact hw
    · rcases WithTransaction_users env (ResendOTPTx cfg env req) w1 with h | ⟨_, h⟩
      · rw [h, hw]
      · rw [h, ResendOTPTx_users, log_users, hw]

theorem ForgotPassword_users (cfg : Config) (env : Env) (req : ForgotPasswordRequest)
    (w : World) : (ForgotPassword cfg env req w).2.users = w.users := by
  unfold ForgotPassword
  split
  · simp_all [pair_eq_iff, checkRateLimit_snd]
  · rename_i w1 heq
    have hw : w1.users = w.users := by simp_all [pair_eq_iff, checkRateLimit_snd]
    split
    · exact hw
    · rcases WithTransaction_users env (ForgotPasswordTx cfg env req) w1 with h | ⟨_, h⟩
      · rw [h, hw]
      · rw [h, ForgotPasswordTx_users, log_users, hw]

theorem ResetPassword_usersStep (env : Env) (req : ResetPasswordRequest) (w : World) :
    UsersStep (.resetPassword req) w.users (ResetPassword env req w).2.users := by
  unfold ResetPassword
  split
  · simp_all [pair_eq_iff, checkRateLimit_snd, UsersStep]
  · rename_i w1 heq
    have hw : w1.users = w.users := by simp_all [pair_eq_iff, checkRateLimit_snd]
    split
    · simp [hw, UsersStep]
    · rw [← hw]
      exact WithTransaction_usersStep env _ _ w1 (ResetPasswordTx_usersStep env req)

theorem Setup2FAFinish_snd (cfg : Config) (env : Env) (r : Result User × World) :
    (Setup2FAFinish cfg env r).2 = r.2 := by
  rcases r with ⟨_ | _ | _, w⟩
  · simp only [Setup2FAFinish]
    split <;> rfl
  · rfl
  · rfl

theorem Setup2FA_usersStep (cfg : Config) (env : Env) (req : Setup2FARequest) (w : World) :
    UsersStep (.setup2FA req) w.users (Setup2FA cfg env req w).2.users := by
  unfold Setup2FA
  split
  · exact Or.inl rfl
  · rw [Setup2FAFinish_snd]
    exact WithTransaction_usersStep env _ _ w (Setup2FATx_usersStep cfg env req)

theorem Verify2FA_usersStep (cfg : Config) (env : Env) (req : Verify2FARequest) (w : World) :
    UsersStep (.verify2FA req) w.users (Verify2FA cfg env req w).2.users := by
  unfold Verify2FA
  split
  · simp_all [pair_eq_iff, checkRateLimit_snd, UsersStep]
  · rename_i w1 heq
    have hw : w1.users = w.users := by simp_all [pair_eq_iff, checkRateLimit_snd]
    split
    · simp [hw, UsersStep]
    · rw [respond_snd, ← hw]
      exact WithTransaction_usersStep env _ _ w1 (Verify2FATx_usersStep cfg env req)

theorem Disable2FA_usersStep (env : Env) (req : Disable2FARequest) (w : World) :
    UsersStep (.disable2FA req) w.users (Disable2FA env req w).2.users := by
  unfold Disable2FA
  split
  · exact Or.inl rfl
  · exact WithTransaction_usersStep env _ _ w (Disable2FATx_usersStep env req)

/-- Every operation changes the rows by one `UsersStep`. -/
theorem step_usersStep (cfg : Config) (env : Env) (rq : Request) (w : World) :
    UsersStep rq w.users (step cfg env rq w).users := by
  cases rq with
  | register r => exact Register_usersStep cfg env r w
  | login r => exact Or.inl (Login_users cfg env r w)
  | verifyOTP r => exact VerifyOTP_usersStep env r w
  | resendOTP r => exact Or.inl (ResendOTP_users cfg env r w)
  | refreshToken r => exact Or.inl (RefreshToken_users cfg env r w)
  | forgotPassword r => exact Or.inl (ForgotPassword_users cfg env r w)
  | resetPassword r => exact ResetPassword_usersStep env r w
  | setup2FA r => exact Setup2FA_usersStep cfg env r w
  | verify2FA r => exact Verify2FA_usersStep cfg env r w
  | disable2FA r => exact Disable2FA_usersStep env r w

/-! ## Rows with unique ids -/

theorem uniqueIDs_eq_of_id {users : List User} (h : UniqueIDs users) {x y : User}
    (hx : x ∈ users) (hy : y ∈ users) (hid : x.ID = y.ID) : x = y :=
  List.inj_on_of_nodup_map h hx hy hid

theorem rowStep_refl (rq : Request) (u : User) : RowStep rq u u := by
  simp [RowStep]

theorem putRow_map_id (u1 : User) (users : List User) :
    (putRow u1 users).map User.ID = users.map User.ID := by
  unfold putRow
  rw [List.map_map]
  apply List.map_congr_left
  intro x _
  by_cases h : x.ID = u1.ID <;> simp [h]

theorem mem_putRow {u1 y : User} {users : List User} (h : y ∈ putRow u1 users) :
    (y = u1 ∧ ∃ x ∈ users, x.ID = u1.ID) ∨ (y ∈ users ∧ y.ID ≠ u1.ID) := by
  unfold putRow at h
  rw [List.mem_map] at h
  obtain ⟨x, hx, rfl⟩ := h
  by_cases hid : x.ID = u1.ID
  · left
    simp [hid]
    exact ⟨x, hx, hid⟩
  · right
    simp [hid, hx]

theorem find?_putRow_email (e : String) (u1 : User) (users : List User)
    (h : ∀ x ∈ users, x.ID = u1.ID → x.Email = u1.Email) :
    (putRow u1 users).find? (fun x => x.Email == e) =
      (users.find? (fun x => x.Email == e)).map (fun x => if x.ID == u1.ID then u1 else x) := by
  induction users with
  | nil => rfl
  | cons x xs ih =>
    have ih1 := ih (fun y hy => h y (List.mem_cons_of_mem _ hy))
    unfold putRow at ih1 ⊢
    simp only [List.map_cons, List.find?_cons]
    rw [ih1]
    by_cases hid : x.ID = u1.ID
    · have he := h x (List.mem_cons_self _ _) hid
      by_cases hx : x.Email = e
      · have : u1.Email = e := by rw [← he, hx]
        simp [hid, hx, this]
      · have h1 : (u1.Email == e) = false := by rw [← he]; simpa using hx
        have h2 : (x.Email == e) = false := by simpa using hx
        simp only [hid, h1, h2, beq_self_eq_true, if_true]
    · by_cases hx : x.Email = e
      · simp [hid, hx]
      · have h2 : (x.Email == e) = false := by simpa using hx
        have h3 : (x.ID == u1.ID) = false := by simpa using hid
        simp only [h2, h3, Bool.false_eq_true, if_false]

/-- One step keeps the ids unique. -/
theorem usersStep_uniqueIDs {rq : Request} {users users1 : List User}
    (hs : UsersStep rq users users1) (hU : UniqueIDs users) : UniqueIDs users1 := by
  rcases hs with rfl | ⟨u, rfl, _, _, _, _, hfresh⟩ | ⟨u0, u1, _, rfl, _⟩
  · exact hU
  · unfold UniqueIDs at hU ⊢
    rw [List.map_append, List.nodup_append]
    refine ⟨hU, by simp, ?_⟩
    intro a ha hb
    simp at hb
    rw [List.mem_map] at ha
    obtain ⟨x, hx, rfl⟩ := ha
    exact (hfresh x hx).1 hb
  · unfold UniqueIDs at hU ⊢
    rw [putRow_map_id]
    exact hU

/-- One step relates every row to the row of the same id before it. -/
theorem usersStep_row {rq : Request} {users users1 : List User}
    (hs : UsersStep rq users users1) (hU : UniqueIDs users) {u v : User}
    (hu : u ∈ users) (hv : v ∈ users1) (hid : v.ID = u.ID) : RowStep rq u v := by
  rcases hs with rfl | ⟨n, rfl, _, _, _, _, hfresh⟩ | ⟨u0, u1, hu0, rfl, hr⟩
  · rw [uniqueIDs_eq_of_id hU hv hu hid]
    exact rowStep_refl rq u
  · rw [List.mem_append] at hv
    rcases hv with hv | hv
    · rw [uniqueIDs_eq_of_id hU hv hu hid]
      exact rowStep_refl rq u
    · simp at hv
      subst hv
      exact absurd hid.symm (hfresh u hu).1
  · rcases mem_putRow hv with ⟨rfl, _⟩ | ⟨hv1, _⟩
    · have : u = u0 := uniqueIDs_eq_of_id hU hu hu0 (by rw [← hid, hr.1])
      rw [this]
      exact hr
    · rw [uniqueIDs_eq_of_id hU hv1 hu hid]
      exact rowStep_refl rq u

/-- One step keeps every row: a row of the same id exists afterwards. -/
theorem usersStep_row_exists {rq : Request} {users users1 : List User}
    (hs : UsersStep rq users users1) {u : User} (hu : u ∈ users) :
    ∃ v ∈ users1, v.ID = u.ID := by
  rcases hs with rfl | ⟨n, rfl, _⟩ | ⟨u0, u1, _, rfl, _⟩
  · exact ⟨u, hu, rfl⟩
  · exact ⟨u, List.mem_append_left _ hu, rfl⟩
  · refine ⟨if u.ID == u1.ID then u1 else u, ?_, ?_⟩
    · unfold putRow
      exact List.mem_map_of_mem _ hu
    · by_cases h : u.ID = u1.ID <;> simp [h]

/-- One step keeps an email verified. -/
theorem usersStep_verifiedEmail {rq : Request} {users users1 : List User}
    (hs : UsersStep rq users users1) (hU : UniqueIDs users) {e : String}
    (hv : VerifiedEmail e users) : VerifiedEmail e users1 := by
  obtain ⟨u, hf, hne⟩ := hv
  rcases hs with rfl | ⟨n, rfl, _⟩ | ⟨u0, u1, hu0, rfl, hr⟩
  · exact ⟨u, hf, hne⟩
  · exact ⟨u, by simp [List.find?_append, hf], hne⟩
  · have hmem := List.mem_of_find?_eq_some hf
    have hkey : ∀ x ∈ users, x.ID = u1.ID → x.Email = u1.Email := by
      intro x hx hid
      have : x = u0 := uniqueIDs_eq_of_id hU hx hu0 (by rw [hid, hr.1])
      rw [this, hr.2.1]
    rw [VerifiedEmail, find?_putRow_email e u1 users hkey, hf]
    by_cases hid : u.ID = u1.ID
    · have : u = u0 := uniqueIDs_eq_of_id hU hmem hu0 (by rw [hid, hr.1])
      subst this
      refine ⟨u1, by simp [hid], ?_⟩
      have h4 := hr.2.2.2.1 (by simpa [Option.isSome_iff_ne_none] using hne)
      rw [h4]
      exact hne
    · exact ⟨u, by simp [hid], hne⟩

theorem run_uniqueIDs (cfg : Config) (ops : List (Env × Request)) (w : World)
    (hU : UniqueIDs w.users) : UniqueIDs (run cfg ops w).users := by
  induction ops generalizing w with
  | nil => exact hU
  | cons op rest ih =>
    obtain ⟨env, rq⟩ := op
    exact ih _ (usersStep_uniqueIDs (step_usersStep cfg env rq w) hU)

theorem run_verifiedEmail (cfg : Config) (ops : List (Env × Request)) (w : World)
    (hU : UniqueIDs w.users) (e : String) (hv : VerifiedEmail e w.users) :
    VerifiedEmail e (run cfg ops w).users := by
  induction ops generalizing w with
  | nil => exact hv
  | cons op rest ih =>
    obtain ⟨env, rq⟩ := op
    exact ih _ (usersStep_uniqueIDs (step_usersStep cfg env rq w) hU)
      (usersStep_verifiedEmail (step_usersStep cfg env rq w) hU hv)

/-! ## VerifyOTP -/

/-- A unit of work of `VerifyOTP` that returns a user found an unverified row
for the email and replaced it by the returned, verified and activated one. -/
theorem VerifyOTPTx_ok (env : Env) (req : VerifyOTPRequest) (w : World) (u : User)
    (h : (VerifyOTPTx env req w).1 = .ok u) :
    ∃ u0, w.users.find? (fun x => x.Email == req.Email) = some u0 ∧
      u0.EmailVerifiedAt = none ∧ u = (u0.VerifyEmail env.now).Activate ∧
      (VerifyOTPTx env req w).2.users = putRow u w.users := by
  revert h
  unfold VerifyOTPTx
  repeat' split
  all_goals simp_all [pair_eq_iff, getUserByEmail_snd, getCachedOTP_snd,
    repoUpdate_snd_users, updateUser, deleteCachedOTP_snd_users, deleteCachedOTP_fst,
    getUserByEmail_ok, repoUpdate_none, User.IsEmailVerified]

/-- After a `VerifyOTP` that returned a response, the lookup by the email finds
an active, verified user. -/
theorem VerifyOTP_ok_verified (env : Env) (req : VerifyOTPRequest) (w : World)
    (resp : VerifyOTPResponse) (hU : UniqueIDs w.users)
    (hok : (VerifyOTP env req w).1 = .ok resp) :
    ∃ u, (VerifyOTP env req w).2.users.find? (fun x => x.Email == req.Email) = some u ∧
      u.Status = UserStatus.active ∧ u.EmailVerifiedAt ≠ none := by
  revert hok
  unfold VerifyOTP
  split
  · simp
  · rename_i w1 heq
    have hw : w1.users = w.users := by simp_all [pair_eq_iff, checkRateLimit_snd]
    split
    · simp
    · intro hok
      rw [respond_ok] at hok
      obtain ⟨u, hu, _⟩ := hok
      obtain ⟨htx, husers⟩ := WithTransaction_ok env _ w1 u hu
      obtain ⟨u0, hf, _, hdef, hput⟩ := VerifyOTPTx_ok env req _ u htx
      rw [respond_snd, husers, hput]
      simp only [log_users, hw] at hf ⊢
      have hmem := List.mem_of_find?_eq_some hf
      have he : u0.Email = req.Email := by simpa using List.find?_some hf
      have hidu : u.ID = u0.ID := by rw [hdef]; rfl
      have hemu : u.Email = u0.Email := by rw [hdef]; rfl
      have hkey : ∀ x ∈ w.users, x.ID = u.ID → x.Email = u.Email := by
        intro x hx hid
        have : x = u0 := uniqueIDs_eq_of_id hU hx hmem (by rw [hid, hidu])
        rw [this, hemu]
      rw [find?_putRow_email req.Email u w.users hkey, hf]
      refine ⟨u, by simp [hidu], ?_, ?_⟩
      · rw [hdef]; rfl
      · rw [hdef]; simp [User.VerifyEmail, User.Activate, User.SetStatus]

/-- A `VerifyOTP` for an email whose user is already verified fails with
`BAD_REQUEST`, whatever the submitted code, once it passes the rate limit and
validation and the transaction begins and reads. -/
theorem VerifyOTP_verified_badRequest (env : Env) (req : VerifyOTPRequest) (w : World)
    (hl : env.limiter (rateLimitKey "verify_otp" req.Email) = some false)
    (hv : env.validate (.verifyOTP req) = [])
    (hb : env.faults.txBegin = false) (hg : env.faults.repoGet = false)
    (hver : VerifiedEmail req.Email w.users) :
    (VerifyOTP env req w).1 =
      .err (.app (NewAppError ErrCodeBadRequest "Email already verified")) := by
  obtain ⟨u, hf, hne⟩ := hver
  have hver1 : u.IsEmailVerified = true := by
    simpa [User.IsEmailVerified, Option.isSome_iff_ne_none] using hne
  simp [VerifyOTP, checkRateLimit, hl, hv, WithTransaction, hb, VerifyOTPTx, getUserByEmail,
    repoGetByEmail, hg, hf, World.log, hver1, respond]

/-- A code that is live at `t1` and expires after `t2` is the code found at
every instant from `t1` to `t2`. -/
theorem cache_live_later (cache : List CacheEntry) (k : String) (t1 t2 : Nat)
    (e : CacheEntry)
    (h : cache.find? (fun x => x.key == k && decide (t1 < x.expiresAt)) = some e)
    (h12 : t1 ≤ t2) (h2 : t2 < e.expiresAt) :
    cache.find? (fun x => x.key == k && decide (t2 < x.expiresAt)) = some e := by
  induction cache with
  | nil => simp at h
  | cons x xs ih =>
    rw [List.find?_cons] at h ⊢
    by_cases hx : (x.key == k && decide (t1 < x.expiresAt)) = true
    · rw [hx] at h
      simp only [Option.some.injEq] at h
      subst h
      have : (x.key == k && decide (t2 < x.expiresAt)) = true := by
        simp only [Bool.and_eq_true, decide_eq_true_eq] at hx ⊢
        exact ⟨hx.1, h2⟩
      rw [this]
    · have hx1 : (x.key == k && decide (t1 < x.expiresAt)) = false := by simpa using hx
      rw [hx1] at h
      have : (x.key == k && decide (t2 < x.expiresAt)) = false := by
        simp only [Bool.and_eq_false_iff, decide_eq_false_iff_not, Nat.not_lt] at hx1 ⊢
        rcases hx1 with h' | h'
        · exact Or.inl h'
        · exact Or.inr (by omega)
      rw [this]
      exact ih h

/-! ## The state gate before tokens -/

theorem validateUserState_none (u : User) :
    validateUserState u true true = none ↔
      u.EmailVerifiedAt ≠ none ∧ u.Status = UserStatus.active := by
  unfold validateUserState User.IsEmailVerified User.IsActive
  cases u.EmailVerifiedAt <;> cases u.Status <;> simp

/-- What the state gate answers for a user who is not both verified and
active. -/
theorem validateUserState_some (u : User)
    (h : ¬ (u.Status = UserStatus.active ∧ u.EmailVerifiedAt ≠ none)) :
    validateUserState u true true = some (.app ErrUserEmailNotVerified) ∨
      validateUserState u true true = some (.app ErrUserInactive) := by
  revert h
  unfold validateUserState User.IsEmailVerified User.IsActive
  cases u.EmailVerifiedAt <;> cases u.Status <;> simp

theorem Login_ok (cfg : Config) (env : Env) (req : LoginRequest) (w : World)
    (resp : LoginResponse) (h : (Login cfg env req w).1 = .ok resp) :
    ∃ u, w.users.find? (fun x => x.Email == req.Email) = some u ∧
      u.Status = UserStatus.active ∧ u.EmailVerifiedAt ≠ none := by
  revert h
  unfold Login
  repeat' split
  all_goals simp_all [pair_eq_iff, checkRateLimit_snd, getUserByEmail_snd, getUserByEmail_ok,
    validateUserState_none]

theorem RefreshToken_ok (cfg : Config) (env : Env) (req : RefreshTokenRequest) (w : World)
    (resp : RefreshTokenResponse) (h : (RefreshToken cfg env req w).1 = .ok resp) :
    ∃ p u, verifyToken env req.RefreshToken = .ok p ∧
      w.users.find? (fun x => x.ID == p.UserID) = some u ∧
      u.Status = UserStatus.active ∧ u.EmailVerifiedAt ≠ none := by
  revert h
  unfold RefreshToken
  repeat' split
  all_goals simp_all [pair_eq_iff, getUserByID_snd, getUserByID_ok, validateUserState_none]

theorem Verify2FATokens_ok (cfg : Config) (env : Env) (u : User) (w : World)
    (t : GenerateTokenResponse × GenerateTokenResponse) :
    (Verify2FATokens cfg env u w).1 = .ok t ↔
      GenerateToken cfg env u.ID cfg.AuthAccessTokenExpiry = some t.1 ∧
      GenerateToken cfg env u.ID cfg.AuthRefreshTokenExpiry = some t.2 := by
  unfold Verify2FATokens
  cases GenerateToken cfg env u.ID cfg.AuthAccessTokenExpiry <;>
    cases GenerateToken cfg env u.ID cfg.AuthRefreshTokenExpiry <;>
    simp [Prod.ext_iff, eq_comm]

theorem Verify2FATx_ok (cfg : Config) (env : Env) (req : Verify2FARequest) (w : World)
    (t : GenerateTokenResponse × GenerateTokenResponse)
    (h : (Verify2FATx cfg env req w).1 = .ok t) :
    ∃ u, w.users.find? (fun x => x.ID == req.UserID) = some u ∧
      u.Status = UserStatus.active ∧ u.EmailVerifiedAt ≠ none ∧ u.TwoFactorSecret ≠ none ∧
      env.totpValidate req.Code u.GetTwoFactorSecret = true := by
  revert h
  unfold Verify2FATx
  repeat' split
  all_goals simp_all [pair_eq_iff, repoGetByID_snd, repoGetByID_ok, User.IsEmailVerified,
    User.IsActive, User.HasTwoFactorSecret]

theorem Verify2FA_ok (cfg : Config) (env : Env) (req : Verify2FARequest) (w : World)
    (resp : Verify2FAResponse) (h : (Verify2FA cfg env req w).1 = .ok resp) :
    ∃ u, w.users.find? (fun x => x.ID == req.UserID) = some u ∧
      u.Status = UserStatus.active ∧ u.EmailVerifiedAt ≠ none := by
  revert h
  unfold Verify2FA
  split
  · simp
  · rename_i w1 heq
    have hw : w1.users = w.users := by simp_all [pair_eq_iff, checkRateLimit_snd]
    split
    · simp
    · intro hok
      rw [respond_ok] at hok
      obtain ⟨t, ht, _⟩ := hok
      obtain ⟨htx, _⟩ := WithTransaction_ok env _ w1 t ht
      obtain ⟨u, hf, ha, hv, _⟩ := Verify2FATx_ok cfg env req _ t htx
      simp only [log_users, hw] at hf
      exact ⟨u, hf, ha, hv⟩

/-! ## Lookup by id after an update -/

/-- After `putRow u1`, the lookup by the id of `u1` finds `u1` when it found a
row before. -/
theorem find?_putRow_id (id : UserID) (u0 u1 : User) (users : List User)
    (h : users.find? (fun x => x.ID == id) = some u0) (hid : u1.ID = id) :
    (putRow u1 users).find? (fun x => x.ID == id) = some u1 := by
  induction users with
  | nil => simp at h
  | cons x xs ih =>
    unfold putRow at ih ⊢
    simp only [List.map_cons, List.find?_cons] at h ⊢
    by_cases hx : x.ID = id
    · have h1 : (x.ID == u1.ID) = true := by simp [hx, hid]
      have h2 : (u1.ID == id) = true := by simp [hid]
      simp only [h1, if_true, h2]
    · have h1 : (x.ID == u1.ID) = false := by simpa [hid] using hx
      have h2 : (x.ID == id) = false := by simpa using hx
      simp only [h1, h2, Bool.false_eq_true, if_false] at h ⊢
      exact ih h

/-! ## The second-factor invariant -/

/-- One step keeps the second-factor invariant. -/
theorem usersStep_twoFactor {rq : Request} {users users1 : List User}
    (hs : UsersStep rq users users1) (hi : TwoFactorInvariant users) :
    TwoFactorInvariant users1 := by
  rcases hs with rfl | ⟨n, rfl, _, _, _, hoff, _⟩ | ⟨u0, u1, hu0, rfl, hr⟩
  · exact hi
  · intro v hv hflag
    rw [List.mem_append] at hv
    rcases hv with hv | hv
    · exact hi v hv hflag
    · simp at hv
      subst hv
      rw [hoff] at hflag
      cases hflag
  · intro v hv hflag
    rcases mem_putRow hv with ⟨rfl, _⟩ | ⟨hv1, _⟩
    · have h0 : u0.TwoFactorEnabled = true → u0.TwoFactorSecret.isSome = true := by
        intro h
        simpa [Option.isSome_iff_ne_none] using hi u0 hu0 h
      have := hr.2.2.2.2 h0 hflag
      simpa [Option.isSome_iff_ne_none] using this
    · exact hi v hv1 hflag

theorem run_twoFactor (cfg : Config) (ops : List (Env × Request)) (w : World)
    (hi : TwoFactorInvariant w.users) : TwoFactorInvariant (run cfg ops w).users := by
  induction ops generalizing w with
  | nil => exact hi
  | cons op rest ih =>
    obtain ⟨env, rq⟩ := op
    exact ih _ (usersStep_twoFactor (step_usersStep cfg env rq w) hi)

/-! ## Cache and queue effects -/

theorem repoUpdate_snd_cache (env : Env) (u : User) (w : World) :
    (repoUpdate env u w).2.cache = w.cache := by
  unfold repoUpdate
  cases env.faults.repoUpdate <;> simp

theorem repoUpdate_snd_queue (env : Env) (u : User) (w : World) :
    (repoUpdate env u w).2.queue = w.queue := by
  unfold repoUpdate
  cases env.faults.repoUpdate <;> simp

theorem repoCreate_snd_queue (env : Env) (u : User) (w : World) :
    (repoCreate env u w).2.queue = w.queue := by
  unfold repoCreate
  cases env.faults.repoCreate <;> cases violatesUnique w.users u <;> simp

theorem deleteCachedOTP_snd_cache (env : Env) (p i : String) (w : World) :
    (deleteCachedOTP env p i w).2.cache =
      if env.faults.cacheDelete then w.cache
      else w.cache.filter (fun e => e.key != otpCacheKey p i) := by
  unfold deleteCachedOTP cacheDelete
  cases env.faults.cacheDelete <;> simp

theorem WithTransaction_ok_cache {α : Type} (env : Env) (fn : World → Result α × World)
    (w : World) (a : α) (h : (WithTransaction env fn w).1 = .ok a) :
    (WithTransaction env fn w).2.cache = (fn (w.log .txBegin)).2.cache := by
  revert h
  unfold WithTransaction
  cases env.faults.txBegin
  · rcases h : fn (w.log .txBegin) with ⟨_ | _ | _, w2⟩
    · cases env.faults.txCommit <;> simp [h]
    · simp [h]
    · simp [h]
  · simp

/-- A unit of work of `ResetPassword` that returns no error found the user,
replaced the credential by the new hash, and deleted the stored code unless
the delete failed. -/
theorem ResetPasswordTx_ok (env : Env) (req : ResetPasswordRequest) (w : World)
    (h : (ResetPasswordTx env req w).1 = .ok ()) :
    ∃ u0 p, w.users.find? (fun x => x.Email == req.Email) = some u0 ∧
      env.hashPassword req.NewPassword = some p ∧
      (ResetPasswordTx env req w).2.users =
        putRow { u0 with Password := p, UpdatedAt := env.now } w.users ∧
      (ResetPasswordTx env req w).2.cache =
        if env.faults.cacheDelete then w.cache
        else w.cache.filter (fun e => e.key != otpCacheKey "password_reset" req.Email) := by
  revert h
  unfold ResetPasswordTx
  repeat' split
  all_goals simp_all [pair_eq_iff, getUserByEmail_snd, getCachedOTP_snd,
    repoUpdate_snd_users, repoUpdate_snd_cache, updateUser, deleteCachedOTP_snd_users,
    deleteCachedOTP_snd_cache, deleteCachedOTP_fst, getUserByEmail_ok, repoUpdate_none,
    hashPassword_ok]

/-- After `putRow u1`, the lookup by the email of `u1` still finds a row when
it found one before. -/
theorem find?_putRow_email_some (e : String) (u0 u1 : User) (users : List User)
    (h : users.find? (fun x => x.Email == e) = some u0) (he : u1.Email = e) :
    ∃ v, (putRow u1 users).find? (fun x => x.Email == e) = some v := by
  have hmem := List.mem_of_find?_eq_some h
  have h0 : u0.Email = e := by simpa using List.find?_some h
  have hsome : ((putRow u1 users).find? (fun x => x.Email == e)).isSome = true := by
    rw [List.find?_isSome]
    refine ⟨if u0.ID == u1.ID then u1 else u0, ?_, ?_⟩
    · unfold putRow
      exact List.mem_map_of_mem _ hmem
    · by_cases hid : u0.ID = u1.ID <;> simp [hid, he, h0]
  exact Option.isSome_iff_exists.mp hsome

/-- A `ResetPassword` that returns no error leaves a user under the email, and,
when its cache delete did not fail, no reset code for the email. -/
theorem ResetPassword_ok (env : Env) (req : ResetPasswordRequest) (w : World)
    (hok : (ResetPassword env req w).1 = .ok ()) (hdel : env.faults.cacheDelete = false) :
    (∃ v, (ResetPassword env req w).2.users.find? (fun x => x.Email == req.Email) = some v) ∧
    ∀ t, (ResetPassword env req w).2.cache.find?
      (fun e => e.key == otpCacheKey "password_reset" req.Email && decide (t < e.expiresAt)) =
        none := by
  revert hok
  unfold ResetPassword
  split
  · simp
  · rename_i w1 heq
    have hw : w1 = w.log (.limiterTake (rateLimitKey "reset_password" req.Email)) := by
      simp_all [pair_eq_iff, checkRateLimit_snd]
    split
    · simp
    · intro hok
      obtain ⟨htx, husers⟩ := WithTransaction_ok env _ w1 () hok
      have hcache := WithTransaction_ok_cache env _ w1 () hok
      obtain ⟨u0, p, hf, _, hput, hc⟩ := ResetPasswordTx_ok env req _ htx
      rw [husers, hcache, hput, hc]
      simp only [hw, log_users, log_cache, hdel, Bool.false_eq_true, if_false] at hf ⊢
      constructor
      · exact find?_putRow_email_some req.Email u0 _ w.users hf
          (by simpa using List.find?_some hf)
      · intro t
        rw [List.find?_eq_none]
        intro x hx
        rw [List.mem_filter] at hx
        have hk : ¬ x.key = otpCacheKey "password_reset" req.Email := by simpa using hx.2
        simp [hk]

/-! ## The queue -/

theorem cacheSet_snd_queue (env : Env) (k v : String) (t : Nat) (w : World) :
    (cacheSet env k v t w).2.queue = w.queue := by
  unfold cacheSet
  cases env.faults.cacheSet <;> simp

theorem generateAndCacheOTP_snd_queue (env : Env) (p i : String) (w : World) :
    (generateAndCacheOTP env p i w).2.queue = w.queue := by
  unfold generateAndCacheOTP
  cases GenerateNumericOTP env.rand OTPCodeLength with
  | error e => rfl
  | ok c =>
    have h := cacheSet_snd_queue env (otpCacheKey p i) c EmailConfirmationExpInMin w
    rcases hc : cacheSet env (otpCacheKey p i) c EmailConfirmationExpInMin w with ⟨_ | _, w1⟩ <;>
      simp [hc] at h ⊢ <;> exact h

theorem enqueueTask_snd_queue (env : Env) (t : Task) (w : World) :
    (enqueueTask env t w).2.queue =
      if (enqueueTask env t w).1 = none then w.queue ++ [t] else w.queue := by
  unfold enqueueTask
  cases env.faults.enqueue <;> simp

theorem queueVerificationEmail_snd_queue (cfg : Config) (env : Env) (u : User) (c : String)
    (w : World) :
    (queueVerificationEmail cfg env u c w).2.queue =
      if (queueVerificationEmail cfg env u c w).1 = none then
        w.queue ++
          [.sendVerifyEmail
            { UserID := u.ID, Name := u.FullName, Email := u.Email, VerificationCode := c,
              VerificationCodeExpiration := EmailConfirmationExpInMin / Minute,
              From := cfg.AppName, Subject := TaskSendVerifyEmailSubject }]
      else w.queue := by
  unfold queueVerificationEmail DistributeTaskSendVerifyEmail
  rw [enqueueTask_snd_queue]

theorem queueForgotPasswordEmail_snd_queue (cfg : Config) (env : Env) (u : User) (c : String)
    (w : World) :
    (queueForgotPasswordEmail cfg env u c w).2.queue =
      if (queueForgotPasswordEmail cfg env u c w).1 = none then
        w.queue ++
          [.sendForgotPasswordEmail
            { UserID := u.ID, Name := u.FullName, Email := u.Email, VerificationCode := c,
              VerificationCodeExpiration := EmailConfirmationExpInMin / Minute,
              From := cfg.AppName, Subject := TaskSendForgotPasswordEmailSubject,
              ResetLink := cfg.AppFrontendURL ++ "/reset-password/" ++ c }]
      else w.queue := by
  unfold queueForgotPasswordEmail DistributeTaskSendForgotPasswordEmail
  rw [enqueueTask_snd_queue]

theorem RegisterTx_queue (cfg : Config) (env : Env) (req : RegisterRequest) :
    QueueStep (RegisterTx cfg env req) := by
  intro tx
  unfold RegisterTx
  repeat' split
  all_goals simp_all [pair_eq_iff, getUserByEmail_snd, createUser, repoCreate_snd_queue,
    generateAndCacheOTP_snd_queue, queueVerificationEmail_snd_queue]

theorem ResendOTPTx_queue (cfg : Config) (env : Env) (req : ResendOTPRequest) :
    QueueStep (ResendOTPTx cfg env req) := by
  intro tx
  unfold ResendOTPTx
  repeat' split
  all_goals simp_all [pair_eq_iff, getUserByEmail_snd, generateAndCacheOTP_snd_queue,
    queueVerificationEmail_snd_queue]

theorem ForgotPasswordTx_queue (cfg : Config) (env : Env) (req : ForgotPasswordRequest) :
    QueueStep (ForgotPasswordTx cfg env req) := by
  intro tx
  unfold ForgotPasswordTx
  repeat' split
  all_goals simp_all [pair_eq_iff, getUserByEmail_snd, generateAndCacheOTP_snd_queue,
    queueForgotPasswordEmail_snd_queue]

/-- The queue after a transaction around a unit of work that dispatches:
unchanged, or one task more, and then the transaction returned no error or
its commit failed. -/
theorem void_ok {α : Type} (r : Result α) : r.void = .ok () ↔ ∃ a, r = .ok a := by
  cases r <;> simp [Result.void]

theorem respond_void {α β : Type} (f : α → β) (r : Result α × World) :
    (respond f r).1.void = r.1.void := by
  rcases r with ⟨_ | _ | _, w⟩ <;> rfl

theorem WithTransaction_queue {α : Type} (env : Env) (fn : World → Result α × World)
    (w : World) (h : QueueStep fn) :
    (WithTransaction env fn w).2.queue = w.queue ∨
      (((WithTransaction env fn w).1.void = .ok () ∨
          (env.faults.txCommit = true ∧
            (WithTransaction env fn w).1.void = .err (.other "commit: driver"))) ∧
        ∃ t, (WithTransaction env fn w).2.queue = w.queue ++ [t]) := by
  have h1 := h (w.log .txBegin)
  unfold WithTransaction
  cases env.faults.txBegin
  · rcases hfn : fn (w.log .txBegin) with ⟨_ | _ | _, w2⟩
    · cases env.faults.txCommit <;> simp_all [Result.void]
    · simp_all
    · simp_all
  · simp

theorem Register_queue (cfg : Config) (env : Env) (req : RegisterRequest) (w : World) :
    (Register cfg env req w).2.queue = w.queue ∨
      (((Register cfg env req w).1.void = .ok () ∨
          (env.faults.txCommit = true ∧
            (Register cfg env req w).1.void = .err (.other "commit: driver"))) ∧
        ∃ t, (Register cfg env req w).2.queue = w.queue ++ [t]) := by
  unfold Register
  split
  · simp_all [pair_eq_iff, checkRateLimit_snd]
  · rename_i w1 heq
    have hw : w1.queue = w.queue := by simp_all [pair_eq_iff, checkRateLimit_snd]
    split
    · exact Or.inl hw
    · rw [respond_snd, respond_void, ← hw]
      exact WithTransaction_queue env _ w1 (RegisterTx_queue cfg env req)

theorem ResendOTP_queue (cfg : Config) (env : Env) (req : ResendOTPRequest) (w : World) :
    (ResendOTP cfg env req w).2.queue = w.queue ∨
      (((ResendOTP cfg env req w).1.void = .ok () ∨
          (env.faults.txCommit = true ∧
            (ResendOTP cfg env req w).1.void = .err (.other "commit: driver"))) ∧
        ∃ t, (ResendOTP cfg env req w).2.queue = w.queue ++ [t]) := by
  unfold ResendOTP
  split
  · simp_all [pair_eq_iff, checkRateLimit_snd]
  · rename_i w1 heq
    have hw : w1.queue = w.queue := by simp_all [pair_eq_iff, checkRateLimit_snd]
    split
    · exact Or.inl hw
    · rw [← hw]
      exact WithTransaction_queue env _ w1 (ResendOTPTx_queue cfg env req)

theorem ForgotPassword_queue (cfg : Config) (env : Env) (req : ForgotPasswordRequest)
    (w : World) :
    (ForgotPassword cfg env req w).2.queue = w.queue ∨
      (((ForgotPassword cfg env req w).1.void = .ok () ∨
          (env.faults.txCommit = true ∧
            (ForgotPassword cfg env req w).1.void = .err (.other "commit: driver"))) ∧
        ∃ t, (ForgotPassword cfg env req w).2.queue = w.queue ++ [t]) := by
  unfold ForgotPassword
  split
  · simp_all [pair_eq_iff, checkRateLimit_snd]
  · rename_i w1 heq
    have hw : w1.queue = w.queue := by simp_all [pair_eq_iff, checkRateLimit_snd]
    split
    · exact Or.inl hw
    · rw [← hw]
      exact WithTransaction_queue env _ w1 (ForgotPasswordTx_queue cfg env req)

/-! ## classification of the errors an operation returns -/

theorem validation_origin (env : Env) (fields : ValidationErrors) :
    ErrorOrigin env (NewValidationError fields) := rfl

theorem HTTPStatusCode_code (e : AppError) :
    HTTPStatusCode e = HTTPStatusCode (NewAppError e.Code "") := rfl

theorem HTTPStatusCode_defined :
    ∀ c ∈ definedCodes, c ≠ ErrCodeBadRequest → c ≠ ErrCodeTooManyRequests →
      (HTTPStatusCode (NewAppError c "") = 500 ↔
        (c = ErrCodeInternalError ∨ c = ErrCodeDatabaseError ∨ c = ErrCodeOTPExpired)) ∧
      (c ∈ clientCodes → c ≠ ErrCodeOTPExpired →
        400 ≤ HTTPStatusCode (NewAppError c "") ∧ HTTPStatusCode (NewAppError c "") < 500) := by
  decide

theorem HTTPStatusCode_undefined (c : ErrorCode) (h : c ∉ definedCodes) :
    HTTPStatusCode (NewAppError c "") = 500 := by
  simp only [definedCodes, List.mem_cons, List.mem_singleton, List.not_mem_nil,
    or_false, not_or] at h
  simp [HTTPStatusCode, NewAppError, h]

theorem clientCodes_defined : ∀ c ∈ clientCodes, c ∈ definedCodes := by decide

/-! ## the numeric code generator -/

theorem digitChar_isDigit : ∀ n : Fin 10, (digitChar n).isDigit = true := by decide

theorem otpLoop_ok (rand : Nat → Option (Fin 10)) (n : Nat) :
    ∀ (s : Nat) (acc : List Char), (∀ i, i < n → rand (s + i) ≠ none) →
      ∃ cs : List Char, otpLoop rand n s acc = .ok (String.mk (acc ++ cs)) ∧ cs.length = n ∧
        ∀ c ∈ cs, c.isDigit = true := by
  induction n with
  | zero =>
    intro s acc _
    exact ⟨[], by simp [otpLoop], rfl, by simp⟩
  | succ n ih =>
    intro s acc h
    have h0 := h 0 (Nat.succ_pos n)
    rw [Nat.add_zero] at h0
    obtain ⟨d, hd⟩ := Option.ne_none_iff_exists'.mp h0
    obtain ⟨cs, h1, h2, h3⟩ := ih (s + 1) (acc ++ [digitChar d]) (fun i hi => by
      have := h (i + 1) (Nat.succ_lt_succ hi)
      rwa [Nat.add_assoc, Nat.add_comm 1 i])
    refine ⟨digitChar d :: cs, ?_, by simp [h2], ?_⟩
    · simp [otpLoop, hd, h1]
    · intro c hc
      rcases List.mem_cons.mp hc with rfl | hc
      · exact digitChar_isDigit d
      · exact h3 c hc

theorem otpLoop_error (rand : Nat → Option (Fin 10)) (n : Nat) :
    ∀ (s : Nat) (acc : List Char), (∃ i, i < n ∧ rand (s + i) = none) →
      otpLoop rand n s acc =
        .error (.app (NewAppErrorWithCause ErrCodeInternalError "Failed to generate random OTP"
          "rand")) := by
  induction n with
  | zero =>
    intro s acc ⟨i, hi, _⟩
    exact absurd hi (Nat.not_lt_zero i)
  | succ n ih =>
    intro s acc ⟨i, hi, hr⟩
    cases hd : rand s with
    | none => simp [otpLoop, hd]
    | some d =>
      have hpos : i ≠ 0 := by
        rintro rfl
        rw [Nat.add_zero, hd] at hr
        cases hr
      obtain ⟨j, rfl⟩ := Nat.exists_eq_succ_of_ne_zero hpos
      simp only [otpLoop, hd]
      exact ih (s + 1) _ ⟨j, Nat.lt_of_succ_lt_succ hi, by
        rwa [Nat.add_assoc, Nat.add_comm 1 j]⟩

/-! ## splitting a header -/

theorem stringsSplit_ne_nil (sep : Char) (l : List Char) : stringsSplit sep l ≠ [] := by
  cases l with
  | nil => simp [stringsSplit]
  | cons c cs =>
    unfold stringsSplit
    split
    · simp
    · split <;> simp

theorem stringsSplit_one (sep : Char) (l : List Char) :
    ∀ p, stringsSplit sep l = [p] ↔ l = p ∧ sep ∉ p := by
  induction l with
  | nil =>
    intro p
    simp only [stringsSplit, List.cons.injEq, and_true]
    constructor
    · rintro rfl
      simp
    · rintro ⟨rfl, _⟩
      rfl
  | cons c cs ih =>
    intro p
    unfold stringsSplit
    by_cases hc : c = sep
    · simp only [hc, if_true, List.cons.injEq]
      constructor
      · rintro ⟨_, h⟩
        exact absurd h (stringsSplit_ne_nil sep cs)
      · rintro ⟨rfl, h⟩
        simp at h
    · simp only [hc, if_false]
      rcases hs : stringsSplit sep cs with _ | ⟨q, qs⟩
      · exact absurd hs (stringsSplit_ne_nil sep cs)
      · simp only [List.cons.injEq]
        constructor
        · rintro ⟨rfl, rfl⟩
          obtain ⟨h1, h2⟩ := (ih q).mp hs
          subst h1
          refine ⟨rfl, ?_⟩
          simp only [List.mem_cons, not_or]
          exact ⟨fun h => hc h.symm, h2⟩
        · rintro ⟨rfl, h⟩
          simp only [List.mem_cons, not_or] at h
          have := (ih cs).mpr ⟨rfl, h.2⟩
          rw [hs] at this
          simp only [List.cons.injEq] at this
          exact ⟨by rw [this.1], this.2⟩

theorem stringsSplit_two (sep : Char) (l : List Char) :
    ∀ p0 p1, stringsSplit sep l = [p0, p1] ↔ l = p0 ++ sep :: p1 ∧ sep ∉ p0 ∧ sep ∉ p1 := by
  induction l with
  | nil =>
    intro p0 p1
    simp [stringsSplit]
  | cons c cs ih =>
    intro p0 p1
    unfold stringsSplit
    by_cases hc : c = sep
    · simp only [hc, if_true, List.cons.injEq]
      rw [stringsSplit_one]
      constructor
      · rintro ⟨rfl, rfl, h⟩
        simp [h]
      · rintro ⟨h1, h2, h3⟩
        cases p0 with
        | nil =>
          simp only [List.nil_append, List.cons.injEq, true_and] at h1
          exact ⟨rfl, h1, h3⟩
        | cons a p =>
          simp only [List.cons_append, List.cons.injEq] at h1
          exact absurd (List.mem_cons.mpr (Or.inl h1.1)) h2
    · simp only [hc, if_false]
      rcases hs : stringsSplit sep cs with _ | ⟨q, qs⟩
      · exact absurd hs (stringsSplit_ne_nil sep cs)
      · simp only [List.cons.injEq]
        constructor
        · rintro ⟨rfl, rfl⟩
          obtain ⟨h1, h2, h3⟩ := (ih q p1).mp (by rw [hs])
          subst h1
          refine ⟨rfl, ?_, h3⟩
          simp only [List.mem_cons, not_or]
          exact ⟨fun h => hc h.symm, h2⟩
        · rintro ⟨h1, h2, h3⟩
          cases p0 with
          | nil =>
            simp only [List.nil_append, List.cons.injEq] at h1
            exact absurd h1.1 hc
          | cons a p =>
            simp only [List.cons_append, List.cons.injEq] at h1
            simp only [List.mem_cons, not_or] at h2
            have := (ih p p1).mpr ⟨h1.2, h2.2, h3⟩
            rw [hs] at this
            simp only [List.cons.injEq] at this
            exact ⟨by rw [h1.1, this.1], this.2⟩

theorem extractBearerToken_of_format (t : String) (ht : t ≠ "") (hs : ' ' ∉ t.data) :
    extractBearerToken ("Bearer " ++ t) = .ok t := by
  have hsplit : stringsSplit ' ' ("Bearer " ++ t).data = ["Bearer".data, t.data] :=
    (stringsSplit_two ' ' _ _ _).mpr ⟨by simp, by decide, hs⟩
  have hne : "Bearer " ++ t ≠ "" := by
    intro h
    have := congrArg String.data h
    simp at this
  have ht' : t.data ≠ [] := fun h => ht (String.ext h)
  simp only [extractBearerToken, hsplit]
  simp [hne, ht']

theorem extractBearerToken_format (h t : String) (hok : extractBearerToken h = .ok t) :
    h = "Bearer " ++ t ∧ t ≠ "" ∧ ' ' ∉ t.data := by
  simp only [extractBearerToken] at hok
  split_ifs at hok with h1 h2 h3
  simp only [not_or, not_not] at h2
  obtain ⟨hlen, hb⟩ := h2
  rcases hs : stringsSplit ' ' h.data with _ | ⟨p0, _ | ⟨p1, _ | ⟨p2, ps⟩⟩⟩
  · simp [hs] at hlen
  · simp [hs] at hlen
  · rw [hs] at hb h3 hok
    simp only [List.getD_cons_zero, List.getD_cons_succ] at hb h3 hok
    obtain ⟨e1, e2, e3⟩ := (stringsSplit_two ' ' _ _ _).mp hs
    have ht : t = String.mk p1 := by
      simpa using hok.symm
    subst ht
    refine ⟨String.ext ?_, ?_, e3⟩
    · rw [e1, hb]
      simp
    · intro hm
      exact h3 (by simpa using congrArg String.data hm)
  · simp [hs] at hlen

theorem extractBearerToken_total (h : String) :
    extractBearerToken h = .error ErrInvalidTokenFormat ∨ ∃ t, extractBearerToken h = .ok t := by
  simp only [extractBearerToken]
  split_ifs <;> simp

/-! ## the password rule -/

theorem passwordFold (uni : UnicodeTables) (cs : List Char) :
    ∀ f : PasswordFlags,
      ((cs.foldl (passwordStep uni) f).hasLower = true ↔
        f.hasLower = true ∨ ∃ c ∈ cs, uni.IsLower c = true) ∧
      ((cs.foldl (passwordStep uni) f).hasUpper = true ↔
        f.hasUpper = true ∨ ∃ c ∈ cs, uni.IsLower c = false ∧ uni.IsUpper c = true) ∧
      ((cs.foldl (passwordStep uni) f).hasNumber = true ↔
        f.hasNumber = true ∨
          ∃ c ∈ cs, uni.IsLower c = false ∧ uni.IsUpper c = false ∧ uni.IsNumber c = true) ∧
      ((cs.foldl (passwordStep uni) f).hasSpecial = true ↔
        f.hasSpecial = true ∨
          ∃ c ∈ cs, uni.IsLower c = false ∧ uni.IsUpper c = false ∧ uni.IsNumber c = false ∧
            (uni.IsPunct c = true ∨ uni.IsSymbol c = true)) := by
  induction cs with
  | nil => intro f; simp
  | cons c cs ih =>
    intro f
    simp only [List.foldl_cons, List.mem_cons, exists_eq_or_imp]
    obtain ⟨h1, h2, h3, h4⟩ := ih (passwordStep uni f c)
    rw [h1, h2, h3, h4]
    unfold passwordStep
    cases uni.IsLower c <;> cases uni.IsUpper c <;> cases uni.IsNumber c <;>
      cases uni.IsPunct c <;> cases uni.IsSymbol c <;> simp

/-- What `validatePassword` computes, whatever the tables: the `switch` counts
a character for the first class it belongs to. -/
theorem validatePassword_exact (uni : UnicodeTables) (password : String) :
    validatePassword uni password = true ↔
      6 ≤ password.utf8ByteSize ∧
      (∃ c ∈ password.data, uni.IsLower c = true) ∧
      (∃ c ∈ password.data, uni.IsLower c = false ∧ uni.IsUpper c = true) ∧
      (∃ c ∈ password.data,
        uni.IsLower c = false ∧ uni.IsUpper c = false ∧ uni.IsNumber c = true) ∧
      (∃ c ∈ password.data,
        uni.IsLower c = false ∧ uni.IsUpper c = false ∧ uni.IsNumber c = false ∧
          (uni.IsPunct c = true ∨ uni.IsSymbol c = true)) := by
  obtain ⟨h1, h2, h3, h4⟩ := passwordFold uni password.data
    { hasLower := false, hasUpper := false, hasNumber := false, hasSpecial := false }
  unfold validatePassword
  by_cases hlen : password.utf8ByteSize < 6
  · simp only [hlen, if_true]
    constructor
    · intro h
      cases h
    · rintro ⟨h, _⟩
      omega
  · simp only [hlen, if_false, Bool.and_eq_true, h1, h2, h3, h4]
    simp only [Bool.false_eq_true, false_or]
    constructor
    · rintro ⟨⟨⟨a, b⟩, c⟩, d⟩
      exact ⟨by omega, a, b, c, d⟩
    · rintro ⟨_, a, b, c, d⟩
      exact ⟨⟨⟨a, b⟩, c⟩, d⟩

/-! ## paging arithmetic -/

theorem wrapInt_eq (x : Int) (h1 : minInt ≤ x) (h2 : x ≤ maxInt) : wrapInt x = x := by
  unfold wrapInt
  unfold minInt at h1
  unfold maxInt at h2
  omega

theorem ceilDiv_spec (a b : Int) (hb : 0 < b) :
    (ceilDiv a b - 1) * b < a ∧ a ≤ ceilDiv a b * b := by
  unfold ceilDiv
  have h1 := Int.ediv_add_emod (a + b - 1) b
  have h2 := Int.emod_nonneg (a + b - 1) (Int.ne_of_gt hb)
  have h3 := Int.emod_lt_of_pos (a + b - 1) hb
  constructor <;> nlinarith

theorem ceilDiv_unique (a b q : Int) (hb : 0 < b) (h1 : (q - 1) * b < a) (h2 : a ≤ q * b) :
    ceilDiv a b = q := by
  obtain ⟨h3, h4⟩ := ceilDiv_spec a b hb
  have hle : ceilDiv a b ≤ q := by
    by_contra hc
    have : q + 1 ≤ ceilDiv a b := by omega
    have := Int.mul_le_mul_of_nonneg_right (show q ≤ ceilDiv a b - 1 by omega) (Int.le_of_lt hb)
    omega
  have hge : q ≤ ceilDiv a b := by
    by_contra hc
    have := Int.mul_le_mul_of_nonneg_right (show ceilDiv a b ≤ q - 1 by omega) (Int.le_of_lt hb)
    omega
  omega

theorem lastPage_eq_ceilDiv (td pp : Int) (htd : 0 ≤ td) (hpp : 1 ≤ pp) (hmax : td ≤ maxInt) :
    (if Int.tmod td pp ≠ 0 then wrapInt (Int.tdiv td pp + 1) else Int.tdiv td pp) =
      ceilDiv td pp := by
  have hpp0 : (0 : Int) ≤ pp := by omega
  rw [Int.tdiv_eq_ediv htd hpp0, Int.tmod_eq_emod htd hpp0]
  have h1 := Int.ediv_add_emod td pp
  have h2 := Int.emod_nonneg td (show pp ≠ 0 by omega)
  have h3 := Int.emod_lt_of_pos td (show 0 < pp by omega)
  have hq0 : 0 ≤ td / pp := Int.ediv_nonneg htd hpp0
  split
  · rename_i hr
    have h4 : 0 < td % pp := by omega
    have hq : td / pp + 1 ≤ maxInt := by
      have : pp * (td / pp) ≥ td / pp := by nlinarith
      omega
    rw [wrapInt_eq _ (by unfold minInt; omega) hq]
    symm
    apply ceilDiv_unique _ _ _ (by omega)
    · nlinarith
    · nlinarith
  · rename_i hr
    simp only [ne_eq, not_not] at hr
    symm
    apply ceilDiv_unique _ _ _ (by omega)
    · nlinarith
    · nlinarith

/-- What `NewPaging` computes when no intermediate value overflows: a positive
page, a positive page size, a positive total, and a page whose end
`currentPage * perPage` is a Go `int`. -/
theorem NewPaging_regular (cp pp td : Int) (hcp : 1 ≤ cp) (hpp : 1 ≤ pp) (htd : 1 ≤ td)
    (htdmax : td ≤ maxInt) (hend : cp * pp ≤ maxInt) :
    NewPaging cp pp td =
      .ok { HasPreviousPage := decide ((if cp > ceilDiv td pp then ceilDiv td pp else cp) > 1),
            HasNextPage :=
              decide ((if cp > ceilDiv td pp then ceilDiv td pp else cp) < ceilDiv td pp),
            CurrentPage := if cp > ceilDiv td pp then ceilDiv td pp else cp,
            PerPage := pp, TotalData := td,
            TotalDataInCurrentPage := min (cp * pp) td - (cp - 1) * pp,
            LastPage := ceilDiv td pp,
            From := if min (cp * pp) td > (cp - 1) * pp then (cp - 1) * pp + 1 else 0,
            To := min (cp * pp) td } := by
  have hmin : minInt = -9223372036854775808 := rfl
  have hmax : maxInt = 9223372036854775807 := rfl
  have hprod : (cp - 1) * pp = cp * pp - pp := by ring
  have hcple : cp ≤ cp * pp := by nlinarith
  have hoff0 : 0 ≤ (cp - 1) * pp := Int.mul_nonneg (by omega) (by omega)
  have h1 : wrapInt (cp - 1) = cp - 1 := wrapInt_eq _ (by omega) (by omega)
  have h2 : wrapInt ((cp - 1) * pp) = (cp - 1) * pp := wrapInt_eq _ (by omega) (by omega)
  have h3 : wrapInt ((cp - 1) * pp + pp) = cp * pp := by
    rw [show (cp - 1) * pp + pp = cp * pp by ring]
    exact wrapInt_eq _ (by omega) hend
  have h4 : wrapInt ((cp - 1) * pp + 1) = (cp - 1) * pp + 1 := wrapInt_eq _ (by omega) (by omega)
  have h5 : wrapInt (min (cp * pp) td - (cp - 1) * pp) = min (cp * pp) td - (cp - 1) * pp :=
    wrapInt_eq _ (by omega) (by omega)
  have h6 := lastPage_eq_ceilDiv td pp (by omega) hpp htdmax
  have hunl : isUnlimitedPage pp = false := by
    simp only [isUnlimitedPage, UnlimitedPage, beq_eq_false_iff_ne, ne_eq]
    omega
  have htd0 : td ≠ 0 := by omega
  have hcond : ¬ (pp ≤ 0 ∨ (cp - 1) * pp < 0) := by omega
  simp only [NewPaging, hunl, htd0, h1, h2, hcond, h3, h4, h5, h6, if_false, Bool.false_eq_true]

/-- The fields of the `Paging` for a page up to the last one, the end of the
page `currentPage * perPage` being a Go `int`. -/
theorem NewPaging_fields_of_end (currentPage perPage totalData : Int)
    (hpp : 1 ≤ perPage) (htd : 1 ≤ totalData) (htdmax : totalData ≤ maxInt)
    (hcp1 : 1 ≤ currentPage) (hcp : currentPage ≤ ceilDiv totalData perPage)
    (hend : currentPage * perPage ≤ maxInt) :
    ∃ p, NewPaging currentPage perPage totalData = .ok p ∧
      p.LastPage = ceilDiv totalData perPage ∧
      (p.LastPage - 1) * perPage < totalData ∧ totalData ≤ p.LastPage * perPage ∧
      p.From = (currentPage - 1) * perPage + 1 ∧
      p.To = min (currentPage * perPage) totalData ∧
      p.TotalDataInCurrentPage = p.To - p.From + 1 ∧
      (p.HasPreviousPage = true ↔ currentPage > 1) ∧
      (p.HasNextPage = true ↔ currentPage < p.LastPage) ∧
      p.CurrentPage = currentPage ∧ p.PerPage = perPage ∧ p.TotalData = totalData := by
  obtain ⟨hs1, hs2⟩ := ceilDiv_spec totalData perPage (by omega)
  have hclamp : ¬ currentPage > ceilDiv totalData perPage := by omega
  have hoff : (currentPage - 1) * perPage < totalData := by
    have := Int.mul_le_mul_of_nonneg_right
      (show currentPage - 1 ≤ ceilDiv totalData perPage - 1 by omega)
      (show (0 : Int) ≤ perPage by omega)
    omega
  have hoff2 : (currentPage - 1) * perPage < currentPage * perPage := by
    have : (currentPage - 1) * perPage = currentPage * perPage - perPage := by ring
    omega
  have hgt : min (currentPage * perPage) totalData > (currentPage - 1) * perPage := by
    omega
  refine ⟨_, NewPaging_regular currentPage perPage totalData hcp1 hpp htd htdmax hend, ?_⟩
  simp only [hclamp, hgt, if_false, if_true, decide_eq_true_eq]
  refine ⟨?_, ?_, ?_, ?_, ?_, ?_, ?_, ?_, ?_, ?_, ?_⟩ <;>
    first | trivial | exact hs1 | exact hs2 | omega

/-- For a page up to the last one and a total of at most `2^62 - 1` rows the
end of the page is a Go `int`. -/
theorem page_end_le_maxInt (currentPage perPage totalData : Int)
    (hpp : 1 ≤ perPage) (hppmax : perPage ≤ maxInt) (htd : 1 ≤ totalData)
    (htd62 : totalData ≤ 4611686018427387903)
    (hcp1 : 1 ≤ currentPage) (hcp : currentPage ≤ ceilDiv totalData perPage) :
    currentPage * perPage ≤ maxInt := by
  have hmax : maxInt = 9223372036854775807 := rfl
  obtain ⟨hs1, hs2⟩ := ceilDiv_spec totalData perPage (by omega)
  have hoff : (currentPage - 1) * perPage < totalData := by
    have := Int.mul_le_mul_of_nonneg_right
      (show currentPage - 1 ≤ ceilDiv totalData perPage - 1 by omega)
      (show (0 : Int) ≤ perPage by omega)
    omega
  have hprod : (currentPage - 1) * perPage = currentPage * perPage - perPage := by ring
  by_cases hle : perPage ≤ totalData
  · omega
  · have hone : ceilDiv totalData perPage = 1 :=
      ceilDiv_unique totalData perPage 1 (by omega) (by omega) (by omega)
    have hcp' : currentPage = 1 := by omega
    subst hcp'
    omega

/-! ## padding and the encryption round trip -/

theorem pkcs7Pad_eq (data : Bytes) (bs : Nat) (hbs : 0 < bs) (hbs2 : bs < 256) :
    ∃ k, 0 < k ∧ k ≤ bs ∧ k % 256 = k ∧ (data.length + k) % bs = 0 ∧
      pkcs7Pad data bs = data ++ List.replicate k k := by
  have hlt : data.length % bs < bs := Nat.mod_lt _ hbs
  have hk : (bs - data.length % bs) % 256 = bs - data.length % bs :=
    Nat.mod_eq_of_lt (by omega)
  refine ⟨bs - data.length % bs, by omega, by omega, hk, ?_, ?_⟩
  · have h := Nat.div_add_mod data.length bs
    have hsum : data.length + (bs - data.length % bs) = bs * (data.length / bs + 1) := by
      rw [Nat.mul_add, Nat.mul_one]
      omega
    rw [hsum]
    exact Nat.mul_mod_right _ _
  · simp only [pkcs7Pad, hk]

theorem pkcs7Pad_length (data : Bytes) (bs : Nat) (hbs : 0 < bs) (hbs2 : bs < 256) :
    (pkcs7Pad data bs).length % bs = 0 ∧ 0 < (pkcs7Pad data bs).length ∧
      data.length < (pkcs7Pad data bs).length ∧ (pkcs7Pad data bs).length ≤ data.length + bs := by
  obtain ⟨k, h1, h2, _, h4, h5⟩ := pkcs7Pad_eq data bs hbs hbs2
  rw [h5, List.length_append, List.length_replicate]
  exact ⟨h4, by omega, by omega, by omega⟩

theorem pkcs7Unpad_pkcs7Pad (data : Bytes) (bs : Nat) (hbs : 0 < bs) (hbs2 : bs < 256) :
    pkcs7Unpad (pkcs7Pad data bs) bs = .ok data := by
  obtain ⟨k, h1, h2, h3, h4, h5⟩ := pkcs7Pad_eq data bs hbs hbs2
  rw [h5]
  obtain ⟨j, rfl⟩ := Nat.exists_eq_succ_of_ne_zero (Nat.pos_iff_ne_zero.mp h1)
  have hlast : (data ++ List.replicate (j + 1) (j + 1)).getLastD 0 = j + 1 := by
    rw [List.replicate_succ', ← List.append_assoc, List.getLastD_concat]
  have hlen : (data ++ List.replicate (j + 1) (j + 1)).length = data.length + (j + 1) := by
    simp
  have hdrop : (data ++ List.replicate (j + 1) (j + 1)).drop (data.length + (j + 1) - (j + 1)) =
      List.replicate (j + 1) (j + 1) := List.drop_left' (by omega)
  have htake : (data ++ List.replicate (j + 1) (j + 1)).take (data.length + (j + 1) - (j + 1)) =
      data := List.take_left' (by omega)
  unfold pkcs7Unpad
  simp only [hlast, hlen, hdrop, htake, h3, h4]
  simp [List.any_replicate]
  omega

theorem Encrypt_ok (lib : CryptoLib) (key iv plaintext : Bytes) (hkey : key.length = 32)
    (hrand : lib.randRead BlockSize = some iv) (hiv : iv.length = BlockSize) :
    Encrypt lib key plaintext =
      .ok (lib.base64Encode (lib.jsonMarshal (encryptedPayloadOf lib key iv plaintext))) := by
  have hk : validKeySize key = true := by simp [validKeySize, hkey]
  have hpad := (pkcs7Pad_length plaintext BlockSize (by decide) (by decide)).1
  simp only [Encrypt, hrand, hk, hiv, hpad]
  rfl

theorem Decrypt_encrypted (lib : CryptoLib) (key iv plaintext : Bytes) (hkey : key.length = 32)
    (hiv : iv.length = BlockSize) (hlib : LibraryRoundTrips lib key iv plaintext) :
    Decrypt lib key
        (lib.base64Encode (lib.jsonMarshal (encryptedPayloadOf lib key iv plaintext))) =
      .ok plaintext := by
  obtain ⟨h1, h2, h3, h4, h5, h6⟩ := hlib
  have hk : validKeySize key = true := by simp [validKeySize, hkey]
  have hpad := (pkcs7Pad_length plaintext BlockSize (by decide) (by decide)).1
  have hun := pkcs7Unpad_pkcs7Pad plaintext BlockSize (by decide) (by decide)
  have hct : (lib.cbcEncrypt key iv (pkcs7Pad plaintext BlockSize)).length % BlockSize = 0 := by
    rw [h1]
    exact hpad
  have hmac : generateMAC lib key (encryptedPayloadOf lib key iv plaintext) =
      (encryptedPayloadOf lib key iv plaintext).MAC := rfl
  have e1 : (encryptedPayloadOf lib key iv plaintext).IV = lib.base64Encode iv := rfl
  have e2 : (encryptedPayloadOf lib key iv plaintext).Value =
      lib.base64Encode (lib.cbcEncrypt key iv (pkcs7Pad plaintext BlockSize)) := rfl
  simp only [Decrypt, h6, h5, hmac, e1, e2, h3, h4, hk, hct, hiv, h2, hun]
  simp

/-! ## C1: login failures do not reveal whether the account exists -/

/-- C1. `Login` with an email for which no user exists and `Login` with the
email of an existing user and a password that does not verify against the
stored hash both return the same error value, `ErrUserIncorrectPassword`
(code `USER_INCORRECT_PASSWORD`, message `Incorrect password`), whenever both
requests pass the rate limit and field validation. -/
theorem login_failure_indistinguishable (cfg : Config) (envA envB : Env) (wA wB : World)
    (reqA reqB : LoginRequest) (u : User)
    (hlA : envA.limiter (rateLimitKey "login" reqA.Email) = some false)
    (hvA : envA.validate (.login reqA) = [])
    (hlB : envB.limiter (rateLimitKey "login" reqB.Email) = some false)
    (hvB : envB.validate (.login reqB) = [])
    (hno : ∀ x ∈ wA.users, x.Email ≠ reqA.Email)
    (hfind : wB.users.find? (fun x => x.Email == reqB.Email) = some u)
    (hwrong : envB.checkPasswordHash reqB.Password u.Password = false) :
    (Login cfg envA reqA wA).1 = (Login cfg envB reqB wB).1 ∧
      (Login cfg envB reqB wB).1 = .err (.app ErrUserIncorrectPassword) ∧
      ErrUserIncorrectPassword.Code = "USER_INCORRECT_PASSWORD" ∧
      ErrUserIncorrectPassword.Message = "Incorrect password" := by
  have hnone : wA.users.find? (fun x => x.Email == reqA.Email) = none := by
    simpa [List.find?_eq_none] using hno
  have hA : (Login cfg envA reqA wA).1 = .err (.app ErrUserIncorrectPassword) := by
    cases hf : envA.faults.repoGet <;>
      simp [Login, checkRateLimit, hlA, hvA, getUserByEmail, repoGetByEmail, hnone, hf]
  have hB : (Login cfg envB reqB wB).1 = .err (.app ErrUserIncorrectPassword) := by
    cases hf : envB.faults.repoGet <;>
      simp [Login, checkRateLimit, hlB, hvB, getUserByEmail, repoGetByEmail, hfind, hf,
        verifyPassword, hwrong]
  exact ⟨hA.trans hB.symm, hB, rfl, rfl⟩

/-- C1 at a concrete input: no user `nobody@x.com`, and `a@x.com` with a wrong
password. -/
theorem login_failure_indistinguishable_witness :
    (Login sampleCfg sampleEnv { Email := "nobody@x.com", Password := "Abcd12!@", Remember := false }
        (worldWith [annActive])).1 =
      (Login sampleCfg sampleEnv { Email := "a@x.com", Password := "Wrong12!@", Remember := false }
        (worldWith [annActive])).1 ∧
    (Login sampleCfg sampleEnv { Email := "a@x.com", Password := "Wrong12!@", Remember := false }
        (worldWith [annActive])).1 = .err (.app ErrUserIncorrectPassword) ∧
    ErrUserIncorrectPassword.Code = "USER_INCORRECT_PASSWORD" ∧
    ErrUserIncorrectPassword.Message = "Incorrect password" :=
  login_failure_indistinguishable sampleCfg sampleEnv sampleEnv (worldWith [annActive])
    (worldWith [annActive]) _ _ annActive rfl rfl rfl rfl (by decide) (by decide) (by decide)

/-! ## C2: ResendOTP for an unknown email and for a verified user -/

/-- C2, counterexample.  For the verified user `a@x.com` `ResendOTP` does not
succeed silently: it returns the error `BAD_REQUEST`, `Email already verified`. -/
theorem resendOTP_verified_user_is_refused :
    annActive.EmailVerifiedAt = some 500 ∧
    (ResendOTP sampleCfg sampleEnv { Email := "a@x.com" } (worldWith [annActive])).1 =
      .err (.app (NewAppError ErrCodeBadRequest "Email already verified")) ∧
    (ResendOTP sampleCfg sampleEnv { Email := "a@x.com" } (worldWith [annActive])).1 ≠
      .ok () := by
  decide

/-- C2, amended.  When the request passes the rate limit and validation and the
transaction begins and reads: for an email no user has, `ResendOTP` returns no
error (the commit succeeding), and for the email of a user who is already
verified it fails with `BAD_REQUEST`, `Email already verified`.  In both cases
rows, cache and queue are unchanged and the only collaborator calls are the
limiter, the transaction and the lookup: no code is stored and no email is
enqueued. -/
theorem resendOTP_unknown_silent_verified_refused (cfg : Config) (envU envV : Env)
    (wU wV : World) (reqU reqV : ResendOTPRequest) (v : User)
    (hlU : envU.limiter (rateLimitKey "resend_otp" reqU.Email) = some false)
    (hvU : envU.validate (.resendOTP reqU) = [])
    (hbU : envU.faults.txBegin = false) (hgU : envU.faults.repoGet = false)
    (hcU : envU.faults.txCommit = false)
    (hno : ∀ x ∈ wU.users, x.Email ≠ reqU.Email)
    (hlV : envV.limiter (rateLimitKey "resend_otp" reqV.Email) = some false)
    (hvV : envV.validate (.resendOTP reqV) = [])
    (hbV : envV.faults.txBegin = false) (hgV : envV.faults.repoGet = false)
    (hfind : wV.users.find? (fun x => x.Email == reqV.Email) = some v)
    (hver : v.EmailVerifiedAt ≠ none) :
    ResendOTP cfg envU reqU wU =
      (.ok (), { wU with trace := wU.trace ++
        [.limiterTake (rateLimitKey "resend_otp" reqU.Email), .txBegin,
         .repoGetByEmail reqU.Email, .txCommit] }) ∧
    ResendOTP cfg envV reqV wV =
      (.err (.app (NewAppError ErrCodeBadRequest "Email already verified")),
        { wV with trace := wV.trace ++
          [.limiterTake (rateLimitKey "resend_otp" reqV.Email), .txBegin,
           .repoGetByEmail reqV.Email, .txRollback] }) := by
  have hnone : wU.users.find? (fun x => x.Email == reqU.Email) = none := by
    simpa [List.find?_eq_none] using hno
  have hver1 : v.IsEmailVerified = true := by
    simpa [User.IsEmailVerified, Option.isSome_iff_ne_none] using hver
  constructor
  · simp [ResendOTP, checkRateLimit, hlU, hvU, WithTransaction, hbU, hcU, ResendOTPTx,
      getUserByEmail, repoGetByEmail, hgU, hnone, World.log, errorsIs, ErrUserNotFound,
      NewAppError]
  · simp [ResendOTP, checkRateLimit, hlV, hvV, WithTransaction, hbV, ResendOTPTx,
      getUserByEmail, repoGetByEmail, hgV, hfind, World.log, hver1]

/-- C2 amended, at a concrete input: the unknown `nobody@x.com` and the verified
`a@x.com`. -/
theorem resendOTP_unknown_silent_verified_refused_witness :
    ResendOTP sampleCfg sampleEnv { Email := "nobody@x.com" } (worldWith [annActive]) =
      (.ok (), { worldWith [annActive] with trace := (worldWith [annActive]).trace ++
        [.limiterTake (rateLimitKey "resend_otp" "nobody@x.com"), .txBegin,
         .repoGetByEmail "nobody@x.com", .txCommit] }) ∧
    ResendOTP sampleCfg sampleEnv { Email := "a@x.com" } (worldWith [annActive]) =
      (.err (.app (NewAppError ErrCodeBadRequest "Email already verified")),
        { worldWith [annActive] with trace := (worldWith [annActive]).trace ++
          [.limiterTake (rateLimitKey "resend_otp" "a@x.com"), .txBegin,
           .repoGetByEmail "a@x.com", .txRollback] }) :=
  resendOTP_unknown_silent_verified_refused sampleCfg sampleEnv sampleEnv
    (worldWith [annActive]) (worldWith [annActive]) { Email := "nobody@x.com" }
    { Email := "a@x.com" } annActive rfl rfl rfl rfl rfl (by decide) rfl rfl rfl rfl
    (by decide) (by decide)

/-! ## C3: which operations change a status -/

/-- C3, counterexample.  The suspended user `a@x.com` never verified the email
and holds no code.  `ResendOTP` stores a fresh code (`444444`, every draw of
the sample random source being 4) and `VerifyOTP` with that code makes the
account `active`: `suspended` is left through two service operations. -/
theorem verifyOTP_activates_suspended_user :
    annSuspended.Status = UserStatus.suspended ∧
    (run sampleCfg
        [(sampleEnv, .resendOTP { Email := "a@x.com" }),
         (sampleEnv, .verifyOTP { Email := "a@x.com", OTP := "444444" })]
        suspendedWorld).users =
      [{ annSuspended with EmailVerifiedAt := some 1000, Status := UserStatus.active }] := by
  decide

/-- C3, amended.  With unique ids, every user present before an operation is
present after it, and for the row of the same id afterwards: the status is
unchanged when the user's email was verified, and unchanged by every operation
other than `VerifyOTP`; `VerifyOTP` on an unverified user either leaves the
status or sets it to `active`, whatever it was; and the status is `pending`
afterwards only if it was `pending` before. -/
theorem status_changes_only_by_verifyOTP (cfg : Config) (env : Env) (rq : Request) (w : World)
    (u : User) (hU : UniqueIDs w.users) (hu : u ∈ w.users) :
    (∃ v ∈ (step cfg env rq w).users, v.ID = u.ID) ∧
    ∀ v ∈ (step cfg env rq w).users, v.ID = u.ID →
      (u.EmailVerifiedAt ≠ none → v.Status = u.Status) ∧
      ((∀ r, rq ≠ Request.verifyOTP r) → v.Status = u.Status) ∧
      (v.Status = u.Status ∨ v.Status = UserStatus.active) ∧
      (v.Status = UserStatus.pending → u.Status = UserStatus.pending) := by
  have hs := step_usersStep cfg env rq w
  refine ⟨usersStep_row_exists hs hu, ?_⟩
  intro v hv hid
  obtain ⟨_, _, hst, _, _⟩ := usersStep_row hs hU hu hv hid
  rcases hst with h | ⟨⟨r, hr⟩, hnone, hact⟩
  · exact ⟨fun _ => h, fun _ => h, Or.inl h, fun hp => by rw [← h]; exact hp⟩
  · refine ⟨fun hne => absurd hnone hne, fun hnot => absurd hr (hnot r), Or.inr hact, ?_⟩
    intro hp
    rw [hact] at hp
    cases hp

/-- C3 amended, at a concrete input: `VerifyOTP` on the suspended, unverified
user. -/
theorem status_changes_only_by_verifyOTP_witness :
    (∃ v ∈ (step sampleCfg sampleEnv (.verifyOTP { Email := "a@x.com", OTP := "483920" })
        (worldWith [annSuspended])).users, v.ID = annSuspended.ID) ∧
    ∀ v ∈ (step sampleCfg sampleEnv (.verifyOTP { Email := "a@x.com", OTP := "483920" })
        (worldWith [annSuspended])).users, v.ID = annSuspended.ID →
      (annSuspended.EmailVerifiedAt ≠ none → v.Status = annSuspended.Status) ∧
      ((∀ r, Request.verifyOTP { Email := "a@x.com", OTP := "483920" } ≠ Request.verifyOTP r) →
        v.Status = annSuspended.Status) ∧
      (v.Status = annSuspended.Status ∨ v.Status = UserStatus.active) ∧
      (v.Status = UserStatus.pending → annSuspended.Status = UserStatus.pending) :=
  status_changes_only_by_verifyOTP sampleCfg sampleEnv _ (worldWith [annSuspended])
    annSuspended (by decide) (by decide)

/-! ## C4: registration -/

/-- C4, at the failing input.  `Register("a@x.com", "Ann", "Abcd12!@")` with no
last name, an unused email, a limiter that admits and a validator that accepts,
and nothing failing: `GenerateFullName` dereferences the nil last name, the
operation panics inside the transaction, which is rolled back, and no user is
created. -/
theorem register_without_last_name_panics :
    Register sampleCfg sampleEnv
        { Email := "a@x.com", FirstName := "Ann", LastName := none, Password := "Abcd12!@" }
        emptyWorld =
      (.panic nilDereference,
        { emptyWorld with trace :=
          [.limiterTake (rateLimitKey "register" "a@x.com"), .txBegin,
           .repoGetByEmail "a@x.com", .txRollback] }) := by
  decide

/-- With a last name present the registration of C4 goes through: for a request
that passes the rate limit and validation, an unused email and a fresh id,
and no collaborator failing, `Register` returns the profile of a user whose
status is `pending`, and the row it stores has status `pending`, no
verification timestamp, and the hash as its credential. -/
theorem register_with_last_name (cfg : Config) (env : Env) (req : RegisterRequest) (w : World)
    (l h code : String)
    (hlast : req.LastName = some l)
    (hl : env.limiter (rateLimitKey "register" req.Email) = some false)
    (hv : env.validate (.register req) = [])
    (hf : env.faults = noFaults)
    (hh : env.hashPassword req.Password = some h)
    (hotp : GenerateNumericOTP env.rand OTPCodeLength = .ok code)
    (hno : ∀ x ∈ w.users, x.Email ≠ req.Email)
    (hid : ∀ x ∈ w.users, x.ID ≠ env.newID) :
    ∃ created : User,
      (Register cfg env req w).1 = .ok { UserResponse := UserEntityToUserResponse created } ∧
      (Register cfg env req w).2.users = w.users ++ [created] ∧
      created.Email = req.Email ∧ created.Status = UserStatus.pending ∧
      created.EmailVerifiedAt = none ∧ created.Password = h := by
  have hnone : w.users.find? (fun x => x.Email == req.Email) = none := by
    simpa [List.find?_eq_none] using hno
  have hany : w.users.any (fun x => x.ID == env.newID || x.Email == req.Email) = false := by
    rw [List.any_eq_false]
    intro x hx
    simp [hno x hx, hid x hx]
  refine ⟨{ ID := env.newID, Email := req.Email, EmailVerifiedAt := none,
            FirstName := req.FirstName, LastName := some l,
            FullName := req.FirstName ++ " " ++ l, Password := h,
            Status := UserStatus.pending, TwoFactorSecret := none, TwoFactorEnabled := false,
            CreatedAt := env.now, UpdatedAt := env.now }, ?_, ?_, rfl, rfl, rfl, rfl⟩
  · simp [Register, checkRateLimit, hl, hv, WithTransaction, RegisterTx, getUserByEmail,
      repoGetByEmail, hf, noFaults, hnone, World.log, errorsIs, ErrUserNotFound, NewAppError,
      RegisterRequestToUserEntity, User.GenerateFullName, User.SetStatus, hlast, hashPassword,
      hh, createUser, repoCreate, violatesUnique, hany, generateAndCacheOTP, hotp, cacheSet,
      queueVerificationEmail, DistributeTaskSendVerifyEmail, enqueueTask, respond]
  · simp [Register, checkRateLimit, hl, hv, WithTransaction, RegisterTx, getUserByEmail,
      repoGetByEmail, hf, noFaults, hnone, World.log, errorsIs, ErrUserNotFound, NewAppError,
      RegisterRequestToUserEntity, User.GenerateFullName, User.SetStatus, hlast, hashPassword,
      hh, createUser, repoCreate, violatesUnique, hany, generateAndCacheOTP, hotp, cacheSet,
      queueVerificationEmail, DistributeTaskSendVerifyEmail, enqueueTask, respond]

/-- The registration with a last name at a concrete input: `Ann Lee`,
`a@x.com`, on an empty table. -/
theorem register_with_last_name_witness :
    ∃ created : User,
      (Register sampleCfg sampleEnv
        { Email := "a@x.com", FirstName := "Ann", LastName := some "Lee",
          Password := "Abcd12!@" } emptyWorld).1 =
        .ok { UserResponse := UserEntityToUserResponse created } ∧
      (Register sampleCfg sampleEnv
        { Email := "a@x.com", FirstName := "Ann", LastName := some "Lee",
          Password := "Abcd12!@" } emptyWorld).2.users = emptyWorld.users ++ [created] ∧
      created.Email = "a@x.com" ∧ created.Status = UserStatus.pending ∧
      created.EmailVerifiedAt = none ∧ created.Password = "hash:Abcd12!@" :=
  register_with_last_name sampleCfg sampleEnv
    { Email := "a@x.com", FirstName := "Ann", LastName := some "Lee", Password := "Abcd12!@" }
    emptyWorld "Lee" "hash:Abcd12!@" "444444" rfl rfl rfl rfl rfl rfl (by decide) (by decide)

/-! ## C5: the email is verified exactly once -/

/-- C5.  With unique ids: after a `VerifyOTP` call that succeeds, the user
stored under the email is `active` with a verification timestamp, and after
any further sequence of service operations every `VerifyOTP` call for that
email, with any code, that passes the rate limit and validation and whose
transaction begins and reads, fails with `BAD_REQUEST`, `Email already
verified`. -/
theorem verifyOTP_exactly_once (cfg : Config) (env : Env) (req : VerifyOTPRequest) (w : World)
    (resp : VerifyOTPResponse) (later : List (Env × Request)) (env2 : Env) (otp2 : String)
    (hU : UniqueIDs w.users)
    (hok : (VerifyOTP env req w).1 = .ok resp)
    (hl2 : env2.limiter (rateLimitKey "verify_otp" req.Email) = some false)
    (hv2 : env2.validate (.verifyOTP { Email := req.Email, OTP := otp2 }) = [])
    (hb2 : env2.faults.txBegin = false) (hg2 : env2.faults.repoGet = false) :
    (∃ u, (VerifyOTP env req w).2.users.find? (fun x => x.Email == req.Email) = some u ∧
      u.Status = UserStatus.active ∧ u.EmailVerifiedAt ≠ none) ∧
    (VerifyOTP env2 { Email := req.Email, OTP := otp2 }
        (run cfg later (VerifyOTP env req w).2)).1 =
      .err (.app (NewAppError ErrCodeBadRequest "Email already verified")) := by
  have h1 := VerifyOTP_ok_verified env req w resp hU hok
  refine ⟨h1, ?_⟩
  have hU1 : UniqueIDs (VerifyOTP env req w).2.users :=
    usersStep_uniqueIDs (VerifyOTP_usersStep env req w) hU
  have hver : VerifiedEmail req.Email (VerifyOTP env req w).2.users := by
    obtain ⟨u, hf, _, hne⟩ := h1
    exact ⟨u, hf, hne⟩
  exact VerifyOTP_verified_badRequest env2 _ _ hl2 hv2 hb2 hg2
    (run_verifiedEmail cfg later _ hU1 req.Email hver)

/-- C5 at a concrete input: `a@x.com` verifies with the stored code `483920`,
logs in, asks for a password reset, and then submits the same code again. -/
theorem verifyOTP_exactly_once_witness :
    (∃ u, (VerifyOTP sampleEnv { Email := "a@x.com", OTP := "483920" }
        (worldWith [ann])).2.users.find? (fun x => x.Email == "a@x.com") = some u ∧
      u.Status = UserStatus.active ∧ u.EmailVerifiedAt ≠ none) ∧
    (VerifyOTP sampleEnv { Email := "a@x.com", OTP := "483920" }
        (run sampleCfg
          [(sampleEnv, .login { Email := "a@x.com", Password := "Abcd12!@", Remember := false }),
           (sampleEnv, .forgotPassword { Email := "a@x.com" })]
          (VerifyOTP sampleEnv { Email := "a@x.com", OTP := "483920" } (worldWith [ann])).2)).1 =
      .err (.app (NewAppError ErrCodeBadRequest "Email already verified")) :=
  verifyOTP_exactly_once sampleCfg sampleEnv { Email := "a@x.com", OTP := "483920" }
    (worldWith [ann])
    { UserResponse := UserEntityToUserResponse
        { ann with EmailVerifiedAt := some 1000, Status := UserStatus.active } }
    _ sampleEnv "483920" (by decide) (by decide) rfl rfl rfl rfl

/-! ## C6: a wrong code does not consume the stored code -/

/-- C6.  For an unverified user with a live stored verification code `entry`,
`VerifyOTP` with another code fails with `INVALID_OTP` and changes neither
rows, cache nor queue (it only reads); a later `VerifyOTP` with the stored
code, made before the code expires, succeeds and returns the activated user.
Both calls pass the rate limit and validation; the first reads without
failure, the second runs without any failure. -/
theorem verifyOTP_wrong_code_keeps_code (env1 env2 : Env) (email otp : String) (w : World)
    (u : User) (entry : CacheEntry)
    (hl1 : env1.limiter (rateLimitKey "verify_otp" email) = some false)
    (hv1 : env1.validate (.verifyOTP { Email := email, OTP := otp }) = [])
    (hb1 : env1.faults.txBegin = false) (hg1 : env1.faults.repoGet = false)
    (hc1 : env1.faults.cacheGet = false)
    (hfind : w.users.find? (fun x => x.Email == email) = some u)
    (hun : u.EmailVerifiedAt = none)
    (hcode : w.cache.find? (fun e => e.key == otpCacheKey "email_verification" email &&
      decide (env1.now < e.expiresAt)) = some entry)
    (hne : otp ≠ entry.value)
    (hl2 : env2.limiter (rateLimitKey "verify_otp" email) = some false)
    (hv2 : env2.validate (.verifyOTP { Email := email, OTP := entry.value }) = [])
    (hf2 : env2.faults = noFaults)
    (ht : env1.now ≤ env2.now) (hlive : env2.now < entry.expiresAt) :
    VerifyOTP env1 { Email := email, OTP := otp } w =
      (.err (.app ErrInvalidOTP),
        { w with trace := w.trace ++
          [.limiterTake (rateLimitKey "verify_otp" email), .txBegin, .repoGetByEmail email,
           .cacheGet (otpCacheKey "email_verification" email), .txRollback] }) ∧
    (VerifyOTP env2 { Email := email, OTP := entry.value }
        (VerifyOTP env1 { Email := email, OTP := otp } w).2).1 =
      .ok { UserResponse := UserEntityToUserResponse (u.VerifyEmail env2.now).Activate } := by
  have hun1 : u.IsEmailVerified = false := by simp [User.IsEmailVerified, hun]
  have hne1 : ¬ entry.value = otp := fun h => hne h.symm
  have hfirst : VerifyOTP env1 { Email := email, OTP := otp } w =
      (.err (.app ErrInvalidOTP),
        { w with trace := w.trace ++
          [.limiterTake (rateLimitKey "verify_otp" email), .txBegin, .repoGetByEmail email,
           .cacheGet (otpCacheKey "email_verification" email), .txRollback] }) := by
    simp [VerifyOTP, checkRateLimit, hl1, hv1, WithTransaction, hb1, VerifyOTPTx,
      getUserByEmail, repoGetByEmail, hg1, hfind, World.log, hun1, getCachedOTP, cacheGet, hc1,
      hcode, hne1, respond]
  refine ⟨hfirst, ?_⟩
  have hcode2 := cache_live_later w.cache _ env1.now env2.now entry hcode ht hlive
  rw [hfirst]
  simp [VerifyOTP, checkRateLimit, hl2, hv2, WithTransaction, VerifyOTPTx, getUserByEmail,
    repoGetByEmail, hf2, noFaults, hfind, World.log, hun1, getCachedOTP, cacheGet, hcode2,
    updateUser, repoUpdate, deleteCachedOTP, cacheDelete, respond]

/-- C6 at a concrete input, the example of the specification: the stored code
is `483920`, `000000` is refused, `483920` is then accepted. -/
theorem verifyOTP_wrong_code_keeps_code_witness :
    VerifyOTP sampleEnv { Email := "a@x.com", OTP := "000000" } (worldWith [ann]) =
      (.err (.app ErrInvalidOTP),
        { worldWith [ann] with trace := (worldWith [ann]).trace ++
          [.limiterTake (rateLimitKey "verify_otp" "a@x.com"), .txBegin,
           .repoGetByEmail "a@x.com",
           .cacheGet (otpCacheKey "email_verification" "a@x.com"), .txRollback] }) ∧
    (VerifyOTP sampleEnv { Email := "a@x.com", OTP := "483920" }
        (VerifyOTP sampleEnv { Email := "a@x.com", OTP := "000000" } (worldWith [ann])).2).1 =
      .ok { UserResponse := UserEntityToUserResponse (ann.VerifyEmail sampleEnv.now).Activate } :=
  verifyOTP_wrong_code_keeps_code sampleEnv sampleEnv "a@x.com" "000000" (worldWith [ann]) ann
    { key := "email_verification:a@x.com", value := "483920", expiresAt := 2000 }
    rfl rfl rfl rfl rfl (by decide) rfl (by decide) (by decide) rfl rfl rfl (by decide)
    (by decide)

/-! ## C7: the rate-limit gate -/

/-- C7.  For each of the seven gated operations (`Register`, `Login`,
`VerifyOTP`, `ResendOTP`, `ForgotPassword`, `ResetPassword`, `Verify2FA`): when
the limiter reports the key of the request as exceeded, the operation returns
`TOO_MANY_REQUESTS`, whatever the validator would say about the request, and
the only collaborator call it makes is the `Take` on the limiter: rows, cache
and queue are untouched. -/
theorem rate_limit_gate (cfg : Config) (env : Env) (rq : Request) (w : World) (k : String)
    (hk : gateKey rq = some k) (hex : env.limiter k = some true) :
    perform cfg env rq w =
      (.err (.app (NewAppError ErrCodeTooManyRequests "Too many requests")),
        { w with trace := w.trace ++ [.limiterTake k] }) := by
  cases rq <;> simp only [gateKey, Option.some.injEq, reduceCtorEq] at hk <;> subst hk <;>
    simp [perform, Register, Login, VerifyOTP, ResendOTP, ForgotPassword, ResetPassword,
      Verify2FA, checkRateLimit, hex, World.log, Result.void]

/-- C7 at a concrete input: a `Register` request that also fails validation,
with the limiter exceeded. -/
theorem rate_limit_gate_witness :
    perform sampleCfg limitedEnv
        (.register { Email := "", FirstName := "", LastName := none, Password := "" })
        (worldWith [ann]) =
      (.err (.app (NewAppError ErrCodeTooManyRequests "Too many requests")),
        { worldWith [ann] with trace := (worldWith [ann]).trace ++
          [.limiterTake (rateLimitKey "register" "")] }) :=
  rate_limit_gate sampleCfg limitedEnv _ (worldWith [ann]) _ rfl rfl

/-! ## C8: tokens only for active, verified users -/

/-- C8.  Whatever the environment, the world and the request: a `Login`, a
`RefreshToken` or a `Verify2FA` call that returns a response (so every call
that returns tokens) was made for a stored user whose status is `active` and
whose verification timestamp is present.  And when the call reaches the state
check for a user who is not both (`Login`: rate limit, validation, lookup and
password passed; `RefreshToken`: validation, token and lookup passed;
`Verify2FA`: rate limit, validation, begin and lookup passed), it fails with
`USER_EMAIL_NOT_VERIFIED` or `USER_INACTIVE`. -/
theorem tokens_only_for_active_verified (cfg : Config) (env : Env) (w : World)
    (reqL : LoginRequest) (reqR : RefreshTokenRequest) (reqV : Verify2FARequest)
    (uL uR uV : User) (p : Payload)
    (hg : env.faults.repoGet = false)
    (hlL : env.limiter (rateLimitKey "login" reqL.Email) = some false)
    (hvL : env.validate (.login reqL) = [])
    (hfL : w.users.find? (fun x => x.Email == reqL.Email) = some uL)
    (hpw : env.checkPasswordHash reqL.Password uL.Password = true)
    (hbadL : ¬ (uL.Status = UserStatus.active ∧ uL.EmailVerifiedAt ≠ none))
    (hvR : env.validate (.refreshToken reqR) = [])
    (htok : verifyToken env reqR.RefreshToken = .ok p)
    (hfR : w.users.find? (fun x => x.ID == p.UserID) = some uR)
    (hbadR : ¬ (uR.Status = UserStatus.active ∧ uR.EmailVerifiedAt ≠ none))
    (hlV : env.limiter (rateLimitKey "verify_2fa" ("verify_2fa:" ++ toString reqV.UserID)) =
      some false)
    (hvV : env.validate (.verify2FA reqV) = [])
    (hb : env.faults.txBegin = false)
    (hfV : w.users.find? (fun x => x.ID == reqV.UserID) = some uV)
    (hbadV : ¬ (uV.Status = UserStatus.active ∧ uV.EmailVerifiedAt ≠ none)) :
    (∀ (e : Env) (x : World) (r : LoginRequest) (resp : LoginResponse),
      (Login cfg e r x).1 = .ok resp →
        ∃ u, x.users.find? (fun y => y.Email == r.Email) = some u ∧
          u.Status = UserStatus.active ∧ u.EmailVerifiedAt ≠ none) ∧
    (∀ (e : Env) (x : World) (r : RefreshTokenRequest) (resp : RefreshTokenResponse),
      (RefreshToken cfg e r x).1 = .ok resp →
        ∃ q u, verifyToken e r.RefreshToken = .ok q ∧
          x.users.find? (fun y => y.ID == q.UserID) = some u ∧
          u.Status = UserStatus.active ∧ u.EmailVerifiedAt ≠ none) ∧
    (∀ (e : Env) (x : World) (r : Verify2FARequest) (resp : Verify2FAResponse),
      (Verify2FA cfg e r x).1 = .ok resp →
        ∃ u, x.users.find? (fun y => y.ID == r.UserID) = some u ∧
          u.Status = UserStatus.active ∧ u.EmailVerifiedAt ≠ none) ∧
    ((Login cfg env reqL w).1 = .err (.app ErrUserEmailNotVerified) ∨
      (Login cfg env reqL w).1 = .err (.app ErrUserInactive)) ∧
    ((RefreshToken cfg env reqR w).1 = .err (.app ErrUserEmailNotVerified) ∨
      (RefreshToken cfg env reqR w).1 = .err (.app ErrUserInactive)) ∧
    ((Verify2FA cfg env reqV w).1 = .err (.app ErrUserEmailNotVerified) ∨
      (Verify2FA cfg env reqV w).1 = .err (.app ErrUserInactive)) := by
  refine ⟨fun e x r resp h => Login_ok cfg e r x resp h,
    fun e x r resp h => RefreshToken_ok cfg e r x resp h,
    fun e x r resp h => Verify2FA_ok cfg e r x resp h, ?_, ?_, ?_⟩
  · rcases validateUserState_some uL hbadL with h | h
    · left
      simp [Login, checkRateLimit, hlL, hvL, getUserByEmail, repoGetByEmail, hg, hfL,
        verifyPassword, hpw, h]
    · right
      simp [Login, checkRateLimit, hlL, hvL, getUserByEmail, repoGetByEmail, hg, hfL,
        verifyPassword, hpw, h]
  · rcases validateUserState_some uR hbadR with h | h
    · left
      simp [RefreshToken, hvR, htok, getUserByID, repoGetByID, hg, hfR, h]
    · right
      simp [RefreshToken, hvR, htok, getUserByID, repoGetByID, hg, hfR, h]
  · cases hver : uV.EmailVerifiedAt with
    | none =>
      left
      simp [Verify2FA, checkRateLimit, hlV, hvV, WithTransaction, hb, Verify2FATx, repoGetByID,
        hg, hfV, World.log, User.IsEmailVerified, hver, respond]
    | some t =>
      have hst : uV.IsActive = false := by
        cases hs : uV.Status <;> simp_all [User.IsActive]
      right
      simp [Verify2FA, checkRateLimit, hlV, hvV, WithTransaction, hb, Verify2FATx, repoGetByID,
        hg, hfV, World.log, User.IsEmailVerified, hver, hst, respond]

/-- C8 at a concrete input: the user `a@x.com` (id 1) has not verified the
email; a login with the right password, a refresh with a token for user 1 and
a second-factor check for user 1 all end at the state check. -/
theorem tokens_only_for_active_verified_witness :
    (∀ (e : Env) (x : World) (r : LoginRequest) (resp : LoginResponse),
      (Login sampleCfg e r x).1 = .ok resp →
        ∃ u, x.users.find? (fun y => y.Email == r.Email) = some u ∧
          u.Status = UserStatus.active ∧ u.EmailVerifiedAt ≠ none) ∧
    (∀ (e : Env) (x : World) (r : RefreshTokenRequest) (resp : RefreshTokenResponse),
      (RefreshToken sampleCfg e r x).1 = .ok resp →
        ∃ q u, verifyToken e r.RefreshToken = .ok q ∧
          x.users.find? (fun y => y.ID == q.UserID) = some u ∧
          u.Status = UserStatus.active ∧ u.EmailVerifiedAt ≠ none) ∧
    (∀ (e : Env) (x : World) (r : Verify2FARequest) (resp : Verify2FAResponse),
      (Verify2FA sampleCfg e r x).1 = .ok resp →
        ∃ u, x.users.find? (fun y => y.ID == r.UserID) = some u ∧
          u.Status = UserStatus.active ∧ u.EmailVerifiedAt ≠ none) ∧
    ((Login sampleCfg tokenEnv { Email := "a@x.com", Password := "Abcd12!@", Remember := false }
        (worldWith [ann])).1 = .err (.app ErrUserEmailNotVerified) ∨
      (Login sampleCfg tokenEnv { Email := "a@x.com", Password := "Abcd12!@", Remember := false }
        (worldWith [ann])).1 = .err (.app ErrUserInactive)) ∧
    ((RefreshToken sampleCfg tokenEnv { RefreshToken := "jwt" } (worldWith [ann])).1 =
        .err (.app ErrUserEmailNotVerified) ∨
      (RefreshToken sampleCfg tokenEnv { RefreshToken := "jwt" } (worldWith [ann])).1 =
        .err (.app ErrUserInactive)) ∧
    ((Verify2FA sampleCfg tokenEnv { UserID := 1, Code := "123456" } (worldWith [ann])).1 =
        .err (.app ErrUserEmailNotVerified) ∨
      (Verify2FA sampleCfg tokenEnv { UserID := 1, Code := "123456" } (worldWith [ann])).1 =
        .err (.app ErrUserInactive)) :=
  tokens_only_for_active_verified sampleCfg tokenEnv (worldWith [ann]) _ _ _ ann ann ann
    { UserID := 1, ExpiresAt := 5000 } rfl rfl rfl (by decide) (by decide) (by decide) rfl
    rfl (by decide) (by decide) rfl rfl rfl (by decide) (by decide)

/-! ## C9: login with and without the second factor -/

/-- C9.  `Login` with the right password, past the rate limit, validation and
the lookup, for active and verified users.  For a user with the second factor
enabled (flag set and secret present) the result has `TwoFactorEnabled = true`
and its token fields keep Go's zero values: no access token, no refresh token.
For a user without it, with both tokens signed, the result carries the two
tokens, each expiring after the extended duration when `Remember` is true and
after the default duration otherwise. -/
theorem login_two_factor_or_tokens (cfg : Config) (env : Env) (w : World)
    (req2 req0 : LoginRequest) (u2 u0 : User) (ta tr : String)
    (hg : env.faults.repoGet = false)
    (hl2 : env.limiter (rateLimitKey "login" req2.Email) = some false)
    (hv2 : env.validate (.login req2) = [])
    (hf2 : w.users.find? (fun x => x.Email == req2.Email) = some u2)
    (hpw2 : env.checkPasswordHash req2.Password u2.Password = true)
    (hact2 : u2.Status = UserStatus.active) (hver2 : u2.EmailVerifiedAt ≠ none)
    (hflag : u2.TwoFactorEnabled = true) (hsec : u2.TwoFactorSecret ≠ none)
    (hl0 : env.limiter (rateLimitKey "login" req0.Email) = some false)
    (hv0 : env.validate (.login req0) = [])
    (hf0 : w.users.find? (fun x => x.Email == req0.Email) = some u0)
    (hpw0 : env.checkPasswordHash req0.Password u0.Password = true)
    (hact0 : u0.Status = UserStatus.active) (hver0 : u0.EmailVerifiedAt ≠ none)
    (hoff : u0.IsTwoFactorEnabled = false)
    (hsa : env.sign
      { UserID := u0.ID, Issuer := cfg.AppName,
        ExpiresAt := env.now + (if req0.Remember then cfg.AuthAccessTokenExpiryExtended
          else cfg.AuthAccessTokenExpiry),
        IssuedAt := env.now, NotBefore := env.now } = some ta)
    (hsr : env.sign
      { UserID := u0.ID, Issuer := cfg.AppName,
        ExpiresAt := env.now + (if req0.Remember then cfg.AuthRefreshTokenExpiryExtended
          else cfg.AuthRefreshTokenExpiry),
        IssuedAt := env.now, NotBefore := env.now } = some tr) :
    (Login cfg env req2 w).1 =
      .ok { UserResponse := UserEntityToUserResponse u2, TwoFactorEnabled := true,
            AccessToken := "", RefreshToken := "",
            AccessTokenExpiresAt := 0, RefreshTokenExpiresAt := 0 } ∧
    (Login cfg env req0 w).1 =
      .ok { UserResponse := UserEntityToUserResponse u0, TwoFactorEnabled := false,
            AccessToken := ta, RefreshToken := tr,
            AccessTokenExpiresAt := env.now +
              (if req0.Remember then cfg.AuthAccessTokenExpiryExtended
                else cfg.AuthAccessTokenExpiry),
            RefreshTokenExpiresAt := env.now +
              (if req0.Remember then cfg.AuthRefreshTokenExpiryExtended
                else cfg.AuthRefreshTokenExpiry) } := by
  have hs2 : validateUserState u2 true true = none :=
    (validateUserState_none u2).mpr ⟨hver2, hact2⟩
  have hs0 : validateUserState u0 true true = none :=
    (validateUserState_none u0).mpr ⟨hver0, hact0⟩
  have hon : u2.IsTwoFactorEnabled = true := by
    simp [User.IsTwoFactorEnabled, hflag, Option.isSome_iff_ne_none, hsec]
  constructor
  · simp [Login, checkRateLimit, hl2, hv2, getUserByEmail, repoGetByEmail, hg, hf2,
      verifyPassword, hpw2, hs2, hon]
  · cases hr : req0.Remember <;> simp only [hr, Bool.false_eq_true, if_false, if_true] at hsa hsr <;>
      simp [Login, checkRateLimit, hl0, hv0, getUserByEmail, repoGetByEmail, hg, hf0,
        verifyPassword, hpw0, hs0, hoff, generateAuthTokens, GenerateToken, hr, hsa, hsr]

/-- C9 at a concrete input: `b@x.com` has the second factor enabled, `a@x.com`
has not and logs in with `Remember`. -/
theorem login_two_factor_or_tokens_witness :
    (Login sampleCfg sampleEnv { Email := "b@x.com", Password := "Abcd12!@", Remember := false }
        (worldWith [annActive, { annTwoFactor with ID := 3, Email := "b@x.com" }])).1 =
      .ok { UserResponse :=
              UserEntityToUserResponse { annTwoFactor with ID := 3, Email := "b@x.com" },
            TwoFactorEnabled := true, AccessToken := "", RefreshToken := "",
            AccessTokenExpiresAt := 0, RefreshTokenExpiresAt := 0 } ∧
    (Login sampleCfg sampleEnv { Email := "a@x.com", Password := "Abcd12!@", Remember := true }
        (worldWith [annActive, { annTwoFactor with ID := 3, Email := "b@x.com" }])).1 =
      .ok { UserResponse := UserEntityToUserResponse annActive, TwoFactorEnabled := false,
            AccessToken := "jwt", RefreshToken := "jwt",
            AccessTokenExpiresAt := sampleEnv.now +
              (if true then sampleCfg.AuthAccessTokenExpiryExtended
                else sampleCfg.AuthAccessTokenExpiry),
            RefreshTokenExpiresAt := sampleEnv.now +
              (if true then sampleCfg.AuthRefreshTokenExpiryExtended
                else sampleCfg.AuthRefreshTokenExpiry) } :=
  login_two_factor_or_tokens sampleCfg sampleEnv
    (worldWith [annActive, { annTwoFactor with ID := 3, Email := "b@x.com" }])
    { Email := "b@x.com", Password := "Abcd12!@", Remember := false }
    { Email := "a@x.com", Password := "Abcd12!@", Remember := true }
    { annTwoFactor with ID := 3, Email := "b@x.com" } annActive "jwt" "jwt"
    rfl rfl rfl (by decide) (by decide) rfl (by decide) rfl (by decide)
    rfl rfl (by decide) (by decide) rfl (by decide) (by decide) rfl rfl

/-! ## C10: the new password must differ from the current one -/

/-- C10.  For a user with a live stored reset code, `ResetPassword` with that
code and a new password that verifies against the stored hash fails with
`INVALID_INPUT`, `New password must be different from the old password`; the
transaction is rolled back and the world is the one before the call but for
the list of calls, which holds reads only: the stored credential and the
stored reset code are unchanged.  The call passes the rate limit and
validation and reads without failure. -/
theorem resetPassword_same_password_refused (env : Env) (req : ResetPasswordRequest) (w : World)
    (u : User) (entry : CacheEntry)
    (hl : env.limiter (rateLimitKey "reset_password" req.Email) = some false)
    (hv : env.validate (.resetPassword req) = [])
    (hb : env.faults.txBegin = false) (hg : env.faults.repoGet = false)
    (hc : env.faults.cacheGet = false)
    (hfind : w.users.find? (fun x => x.Email == req.Email) = some u)
    (hcode : w.cache.find? (fun e => e.key == otpCacheKey "password_reset" req.Email &&
      decide (env.now < e.expiresAt)) = some entry)
    (hotp : req.OTP = entry.value)
    (hsame : env.checkPasswordHash req.NewPassword u.Password = true) :
    ResetPassword env req w =
      (.err (.app (NewAppError ErrCodeInvalidInput
          "New password must be different from the old password")),
        { w with trace := w.trace ++
          [.limiterTake (rateLimitKey "reset_password" req.Email), .txBegin,
           .repoGetByEmail req.Email, .cacheGet (otpCacheKey "password_reset" req.Email),
           .txRollback] }) := by
  simp [ResetPassword, checkRateLimit, hl, hv, WithTransaction, hb, ResetPasswordTx,
    getUserByEmail, repoGetByEmail, hg, hfind, World.log, getCachedOTP, cacheGet, hc, hcode,
    hotp, hsame]

/-- C10 at a concrete input: `a@x.com` resets with the stored code `771204` to
the password already in use. -/
theorem resetPassword_same_password_refused_witness :
    ResetPassword sampleEnv { Email := "a@x.com", OTP := "771204", NewPassword := "Abcd12!@" }
        (worldWith [annActive]) =
      (.err (.app (NewAppError ErrCodeInvalidInput
          "New password must be different from the old password")),
        { worldWith [annActive] with trace := (worldWith [annActive]).trace ++
          [.limiterTake (rateLimitKey "reset_password" "a@x.com"), .txBegin,
           .repoGetByEmail "a@x.com", .cacheGet (otpCacheKey "password_reset" "a@x.com"),
           .txRollback] }) :=
  resetPassword_same_password_refused sampleEnv
    { Email := "a@x.com", OTP := "771204", NewPassword := "Abcd12!@" } (worldWith [annActive])
    annActive { key := "password_reset:a@x.com", value := "771204", expiresAt := 2000 }
    rfl rfl rfl rfl rfl (by decide) (by decide) rfl (by decide)

/-! ## C11: a consumed reset code -/

/-- C11, counterexample.  `deleteCachedOTP` logs a failed cache delete and
returns no error.  With the delete failing, the first `ResetPassword` with the
stored code `771204` succeeds and the code stays in the cache; a second
`ResetPassword` with the same email, the same code and another new password
then succeeds as well instead of failing with `OTP_EXPIRED`. -/
theorem resetPassword_code_survives_failed_delete :
    (ResetPassword deleteFailEnv
        { Email := "a@x.com", OTP := "771204", NewPassword := "Newpw12!@" }
        (worldWith [annActive])).1 = .ok () ∧
    (ResetPassword sampleEnv
        { Email := "a@x.com", OTP := "771204", NewPassword := "Other12!@" }
        (ResetPassword deleteFailEnv
          { Email := "a@x.com", OTP := "771204", NewPassword := "Newpw12!@" }
          (worldWith [annActive])).2).1 = .ok () ∧
    (ResetPassword sampleEnv
        { Email := "a@x.com", OTP := "771204", NewPassword := "Other12!@" }
        (ResetPassword deleteFailEnv
          { Email := "a@x.com", OTP := "771204", NewPassword := "Newpw12!@" }
          (worldWith [annActive])).2).1 ≠ .err (.app ErrOTPExpired) := by
  decide

/-- C11, amended.  After a `ResetPassword` call that succeeds and whose delete
of the stored code did not fail, a second `ResetPassword` call with the same
email and the same code fails with `OTP_EXPIRED`, whatever new password it
carries, once it passes the rate limit and validation and its transaction
begins and reads the user. -/
theorem resetPassword_code_consumed (env1 env2 : Env) (req : ResetPasswordRequest)
    (newPassword2 : String) (w : World)
    (hok : (ResetPassword env1 req w).1 = .ok ())
    (hdel : env1.faults.cacheDelete = false)
    (hl2 : env2.limiter (rateLimitKey "reset_password" req.Email) = some false)
    (hv2 : env2.validate
      (.resetPassword { Email := req.Email, OTP := req.OTP, NewPassword := newPassword2 }) = [])
    (hb2 : env2.faults.txBegin = false) (hg2 : env2.faults.repoGet = false) :
    (ResetPassword env2 { Email := req.Email, OTP := req.OTP, NewPassword := newPassword2 }
        (ResetPassword env1 req w).2).1 = .err (.app ErrOTPExpired) := by
  obtain ⟨⟨v, hfind⟩, hcache⟩ := ResetPassword_ok env1 req w hok hdel
  have hc := hcache env2.now
  generalize (ResetPassword env1 req w).2 = w1 at hfind hc
  cases hcg : env2.faults.cacheGet <;>
    simp [ResetPassword, checkRateLimit, hl2, hv2, WithTransaction, hb2, ResetPasswordTx,
      getUserByEmail, repoGetByEmail, hg2, hfind, World.log, getCachedOTP, cacheGet, hcg, hc]

/-- C11 amended, at a concrete input: `a@x.com` resets with the stored code
`771204` and submits the same code again with another password. -/
theorem resetPassword_code_consumed_witness :
    (ResetPassword sampleEnv
        { Email := "a@x.com", OTP := "771204", NewPassword := "Other12!@" }
        (ResetPassword sampleEnv
          { Email := "a@x.com", OTP := "771204", NewPassword := "Newpw12!@" }
          (worldWith [annActive])).2).1 = .err (.app ErrOTPExpired) :=
  resetPassword_code_consumed sampleEnv sampleEnv
    { Email := "a@x.com", OTP := "771204", NewPassword := "Newpw12!@" } "Other12!@"
    (worldWith [annActive]) (by decide) rfl rfl rfl rfl rfl

/-! ## C12: the email is enqueued inside the unit of work -/

/-- C12, counterexample.  With the commit failing, `Register` returns the
commit's error and no row is stored, yet the verification email has been
enqueued: the enqueue is the last step of the unit of work, before the
commit. -/
theorem register_enqueues_before_failed_commit :
    (Register sampleCfg commitFailEnv annRequest emptyWorld).1 =
      .err (.other "commit: driver") ∧
    (Register sampleCfg commitFailEnv annRequest emptyWorld).2.users = [] ∧
    (Register sampleCfg commitFailEnv annRequest emptyWorld).2.queue =
      [.sendVerifyEmail
        { UserID := 2, Name := "Ann Lee", Email := "a@x.com", VerificationCode := "444444",
          VerificationCodeExpiration := 15, From := "goca",
          Subject := TaskSendVerifyEmailSubject }] ∧
    (Register sampleCfg commitFailEnv annRequest emptyWorld).2.trace =
      [.limiterTake (rateLimitKey "register" "a@x.com"), .txBegin, .repoGetByEmail "a@x.com",
       .repoCreate
        { ID := 2, Email := "a@x.com", EmailVerifiedAt := none, FirstName := "Ann",
          LastName := some "Lee", FullName := "Ann Lee", Password := "hash:Abcd12!@",
          Status := UserStatus.pending, TwoFactorSecret := none, TwoFactorEnabled := false,
          CreatedAt := 1000, UpdatedAt := 1000 },
       .cacheSet "email_verification:a@x.com" "444444" (15 * Minute),
       .enqueue (.sendVerifyEmail
        { UserID := 2, Name := "Ann Lee", Email := "a@x.com", VerificationCode := "444444",
          VerificationCodeExpiration := 15, From := "goca",
          Subject := TaskSendVerifyEmailSubject }),
       .txCommit] := by
  decide

/-- C12, amended.  For every `Register`, `ResendOTP` and `ForgotPassword` call
that does not return success: the queue is as it was before the call, unless
the call returns the error of a failed commit, in which case one task may
have been added.  So a failure of any step before the commit (rate limit,
validation, begin, lookup, hashing, insert, code generation, cache write,
enqueue) leaves no email enqueued, while a failed commit comes after the
enqueue. -/
theorem dispatch_only_undone_by_commit (cfg : Config) (env : Env) (rq : Request) (w : World)
    (hrq : dispatches rq = true) (hfail : (perform cfg env rq w).1 ≠ .ok ()) :
    (perform cfg env rq w).2.queue = w.queue ∨
      (env.faults.txCommit = true ∧
        (perform cfg env rq w).1 = .err (.other "commit: driver") ∧
        ∃ t, (perform cfg env rq w).2.queue = w.queue ++ [t]) := by
  cases rq with
  | register r =>
    rcases Register_queue cfg env r w with h | ⟨h1 | ⟨h1, h3⟩, h2⟩
    · exact Or.inl h
    · exact absurd h1 hfail
    · exact Or.inr ⟨h1, h3, h2⟩
  | resendOTP r =>
    rcases ResendOTP_queue cfg env r w with h | ⟨h1 | ⟨h1, h3⟩, h2⟩
    · exact Or.inl h
    · exact absurd h1 hfail
    · exact Or.inr ⟨h1, h3, h2⟩
  | forgotPassword r =>
    rcases ForgotPassword_queue cfg env r w with h | ⟨h1 | ⟨h1, h3⟩, h2⟩
    · exact Or.inl h
    · exact absurd h1 hfail
    · exact Or.inr ⟨h1, h3, h2⟩
  | login r => cases hrq
  | verifyOTP r => cases hrq
  | refreshToken r => cases hrq
  | resetPassword r => cases hrq
  | setup2FA r => cases hrq
  | verify2FA r => cases hrq
  | disable2FA r => cases hrq

/-- C12 amended, at a concrete input: the enqueue of `Register` fails, and the
queue is as before. -/
theorem dispatch_only_undone_by_commit_witness :
    (perform sampleCfg enqueueFailEnv (.register annRequest) emptyWorld).1 ≠ .ok () ∧
    ((perform sampleCfg enqueueFailEnv (.register annRequest) emptyWorld).2.queue =
        emptyWorld.queue ∨
      (enqueueFailEnv.faults.txCommit = true ∧
        (perform sampleCfg enqueueFailEnv (.register annRequest) emptyWorld).1 =
          .err (.other "commit: driver") ∧
        ∃ t, (perform sampleCfg enqueueFailEnv (.register annRequest) emptyWorld).2.queue =
          emptyWorld.queue ++ [t])) :=
  ⟨by decide,
    dispatch_only_undone_by_commit sampleCfg enqueueFailEnv (.register annRequest) emptyWorld
      rfl (by decide)⟩

/-! ## C13: classification of collaborator failures -/

/-- A failed read of the credential store is not always returned as
`DATABASE_ERROR`: `Login` answers it with `USER_INCORRECT_PASSWORD` and
`Disable2FA` with `USER_NOT_FOUND`. -/
theorem failed_read_is_masked :
    (Login sampleCfg readFailEnv
        { Email := "a@x.com", Password := "Abcd12!@", Remember := false }
        (worldWith [annActive])).1 = .err (.app ErrUserIncorrectPassword) ∧
    (Disable2FA readFailEnv { UserID := 1 } (worldWith [annTwoFactor])).1 =
      .err (.app ErrUserNotFound) := by
  decide

/-! ## C14: RefreshToken issues a default-expiry pair for the subject -/

/-- C14.  For a token that verifies with claims `c` (whatever their expiry, so
whatever mode the login that issued it used) and whose subject is a stored
user, active and verified, `RefreshToken` returns a new access token and a new
refresh token, both signed over claims for that same subject, expiring after
the configured default access and refresh durations.  The request validates,
the lookup reads, and the two signatures succeed. -/
theorem refreshToken_default_pair (cfg : Config) (env : Env) (req : RefreshTokenRequest)
    (w : World) (c : Claims) (u : User) (ta tr : String)
    (hv : env.validate (.refreshToken req) = [])
    (hparse : env.parse req.RefreshToken = .valid c)
    (hg : env.faults.repoGet = false)
    (hfind : w.users.find? (fun x => x.ID == c.UserID) = some u)
    (hact : u.Status = UserStatus.active) (hver : u.EmailVerifiedAt ≠ none)
    (hsa : env.sign
      { UserID := c.UserID, Issuer := cfg.AppName,
        ExpiresAt := env.now + cfg.AuthAccessTokenExpiry,
        IssuedAt := env.now, NotBefore := env.now } = some ta)
    (hsr : env.sign
      { UserID := c.UserID, Issuer := cfg.AppName,
        ExpiresAt := env.now + cfg.AuthRefreshTokenExpiry,
        IssuedAt := env.now, NotBefore := env.now } = some tr) :
    (RefreshToken cfg env req w).1 =
      .ok { AccessToken := ta, RefreshToken := tr,
            AccessTokenExpiresAt := env.now + cfg.AuthAccessTokenExpiry,
            RefreshTokenExpiresAt := env.now + cfg.AuthRefreshTokenExpiry } := by
  have hs : validateUserState u true true = none :=
    (validateUserState_none u).mpr ⟨hver, hact⟩
  have hid : u.ID = c.UserID := by simpa using List.find?_some hfind
  simp [RefreshToken, hv, verifyToken, VerifyToken, hparse, getUserByID, repoGetByID, hg,
    hfind, hs, GenerateToken, hid, hsa, hsr]

/-- C14 at a concrete input: a token for user 1 that expires at 5000, the user
being active and verified. -/
theorem refreshToken_default_pair_witness :
    (RefreshToken sampleCfg tokenEnv { RefreshToken := "jwt" } (worldWith [annActive])).1 =
      .ok { AccessToken := "jwt", RefreshToken := "jwt",
            AccessTokenExpiresAt := tokenEnv.now + sampleCfg.AuthAccessTokenExpiry,
            RefreshTokenExpiresAt := tokenEnv.now + sampleCfg.AuthRefreshTokenExpiry } :=
  refreshToken_default_pair sampleCfg tokenEnv { RefreshToken := "jwt" } (worldWith [annActive])
    { UserID := 1, Issuer := "goca", ExpiresAt := 5000, IssuedAt := 0, NotBefore := 0 }
    annActive "jwt" "jwt" rfl rfl rfl (by decide) rfl (by decide) rfl rfl

/-! ## C15: the second-factor invariant is preserved -/

/-- C15.  Starting from rows in which every user with the enabled flag set has
a secret, after any sequence of service operations, each in its own
environment and successful or not (so in particular after any sequence of
`Setup2FA`, `Verify2FA` and `Disable2FA` calls), every stored user with
`TwoFactorEnabled = true` has a secret. -/
theorem two_factor_invariant_preserved (cfg : Config) (ops : List (Env × Request)) (w : World)
    (hinv : ∀ u ∈ w.users, u.TwoFactorEnabled = true → u.TwoFactorSecret ≠ none) :
    ∀ u ∈ (run cfg ops w).users, u.TwoFactorEnabled = true → u.TwoFactorSecret ≠ none :=
  run_twoFactor cfg ops w hinv

/-- C15 at a concrete input: user 1 sets the second factor up, fails a check,
passes a check, disables it and tries to disable it again. -/
theorem two_factor_invariant_preserved_witness :
    TwoFactorInvariant (worldWith [annActive]).users ∧
    TwoFactorInvariant (run sampleCfg
        [(sampleEnv, .setup2FA { UserID := 1 }),
         (rejectEnv, .verify2FA { UserID := 1, Code := "000000" }),
         (sampleEnv, .verify2FA { UserID := 1, Code := "123456" }),
         (sampleEnv, .disable2FA { UserID := 1 }),
         (sampleEnv, .disable2FA { UserID := 1 })]
        (worldWith [annActive])).users :=
  ⟨by unfold TwoFactorInvariant; decide,
    two_factor_invariant_preserved sampleCfg _ (worldWith [annActive]) (by decide)⟩

/-! ## C16: Disable2FA succeeds once -/

/-- C16.  For an active, verified user with the second factor enabled,
`Disable2FA` returns no error and commits the user with the secret absent and
the flag false: that is the row the lookup by the id then finds.  A second
`Disable2FA` for the same user then fails with `BAD_REQUEST`, `2FA not
enabled`, and leaves rows, cache and queue as they are.  Both requests
validate; the first call runs without a failure of the transaction or the
repository, the second begins and reads. -/
theorem disable2FA_once (env1 env2 : Env) (req : Disable2FARequest) (w : World) (u : User)
    (hv1 : env1.validate (.disable2FA req) = [])
    (hb1 : env1.faults.txBegin = false) (hg1 : env1.faults.repoGet = false)
    (hu1 : env1.faults.repoUpdate = false) (hc1 : env1.faults.txCommit = false)
    (hfind : w.users.find? (fun x => x.ID == req.UserID) = some u)
    (hact : u.Status = UserStatus.active) (hver : u.EmailVerifiedAt ≠ none)
    (hon : u.IsTwoFactorEnabled = true)
    (hv2 : env2.validate (.disable2FA req) = [])
    (hb2 : env2.faults.txBegin = false) (hg2 : env2.faults.repoGet = false) :
    Disable2FA env1 req w =
      (.ok (),
        { w with
          users := putRow u.DisableTwoFactor w.users,
          trace := w.trace ++
            [.txBegin, .repoGetByID req.UserID, .repoUpdate u.DisableTwoFactor, .txCommit] }) ∧
    (Disable2FA env1 req w).2.users.find? (fun x => x.ID == req.UserID) =
      some u.DisableTwoFactor ∧
    u.DisableTwoFactor.TwoFactorSecret = none ∧ u.DisableTwoFactor.TwoFactorEnabled = false ∧
    Disable2FA env2 req (Disable2FA env1 req w).2 =
      (.err (.app (NewAppError ErrCodeBadRequest "2FA not enabled")),
        { (Disable2FA env1 req w).2 with trace := (Disable2FA env1 req w).2.trace ++
          [.txBegin, .repoGetByID req.UserID, .txRollback] }) := by
  have h1 : u.IsEmailVerified = true := by
    simpa [User.IsEmailVerified, Option.isSome_iff_ne_none] using hver
  have h2 : u.IsActive = true := by simp [User.IsActive, hact]
  have hid : u.ID = req.UserID := by simpa using List.find?_some hfind
  have hfirst : Disable2FA env1 req w =
      (.ok (),
        { w with
          users := putRow u.DisableTwoFactor w.users,
          trace := w.trace ++
            [.txBegin, .repoGetByID req.UserID, .repoUpdate u.DisableTwoFactor,
             .txCommit] }) := by
    simp [Disable2FA, hv1, WithTransaction, hb1, hc1, Disable2FATx, repoGetByID, hg1, hfind,
      World.log, h1, h2, hon, repoUpdate, hu1, putRow]
  have hfind2 : (putRow u.DisableTwoFactor w.users).find? (fun x => x.ID == req.UserID) =
      some u.DisableTwoFactor :=
    find?_putRow_id req.UserID u u.DisableTwoFactor w.users hfind hid
  refine ⟨hfirst, ?_, rfl, rfl, ?_⟩
  · rw [hfirst]
    exact hfind2
  · have hd1 : u.DisableTwoFactor.IsEmailVerified = true := h1
    have hd2 : u.DisableTwoFactor.IsActive = true := h2
    have hd3 : u.DisableTwoFactor.IsTwoFactorEnabled = false := rfl
    rw [hfirst]
    simp [Disable2FA, hv2, WithTransaction, hb2, Disable2FATx, repoGetByID, hg2, hfind2,
      World.log, hd1, hd2, hd3]

/-- C16 at a concrete input: user 1 with the second factor enabled disables it
twice. -/
theorem disable2FA_once_witness :
    Disable2FA sampleEnv { UserID := 1 } (worldWith [annTwoFactor]) =
      (.ok (),
        { worldWith [annTwoFactor] with
          users := putRow annTwoFactor.DisableTwoFactor (worldWith [annTwoFactor]).users,
          trace := (worldWith [annTwoFactor]).trace ++
            [.txBegin, .repoGetByID 1, .repoUpdate annTwoFactor.DisableTwoFactor,
             .txCommit] }) ∧
    (Disable2FA sampleEnv { UserID := 1 } (worldWith [annTwoFactor])).2.users.find?
        (fun x => x.ID == 1) = some annTwoFactor.DisableTwoFactor ∧
    annTwoFactor.DisableTwoFactor.TwoFactorSecret = none ∧
    annTwoFactor.DisableTwoFactor.TwoFactorEnabled = false ∧
    Disable2FA sampleEnv { UserID := 1 }
        (Disable2FA sampleEnv { UserID := 1 } (worldWith [annTwoFactor])).2 =
      (.err (.app (NewAppError ErrCodeBadRequest "2FA not enabled")),
        { (Disable2FA sampleEnv { UserID := 1 } (worldWith [annTwoFactor])).2 with
          trace := (Disable2FA sampleEnv { UserID := 1 } (worldWith [annTwoFactor])).2.trace ++
            [.txBegin, .repoGetByID 1, .txRollback] }) :=
  disable2FA_once sampleEnv sampleEnv { UserID := 1 } (worldWith [annTwoFactor]) annTwoFactor
    rfl rfl rfl rfl rfl (by decide) rfl (by decide) (by decide) rfl rfl rfl

/-! ## C17: a rejected second-factor code changes nothing -/

/-- C17.  For an active, verified user with a stored secret, `Verify2FA` with a
code the validator rejects fails with `INVALID_INPUT`, `Invalid 2FA code`: no
response, so no tokens, and the world after the call is the world before it
but for the list of calls, which holds the limiter, the begin, the lookup and
the rollback: no update, the enabled flag keeps its value.  The call passes
the rate limit and validation, the transaction begins and reads. -/
theorem verify2FA_rejected_code (cfg : Config) (env : Env) (req : Verify2FARequest)
    (w : World) (u : User)
    (hl : env.limiter (rateLimitKey "verify_2fa" ("verify_2fa:" ++ toString req.UserID)) =
      some false)
    (hv : env.validate (.verify2FA req) = [])
    (hb : env.faults.txBegin = false) (hg : env.faults.repoGet = false)
    (hfind : w.users.find? (fun x => x.ID == req.UserID) = some u)
    (hact : u.Status = UserStatus.active) (hver : u.EmailVerifiedAt ≠ none)
    (hsec : u.TwoFactorSecret ≠ none)
    (hrej : env.totpValidate req.Code u.GetTwoFactorSecret = false) :
    Verify2FA cfg env req w =
      (.err (.app (NewAppError ErrCodeInvalidInput "Invalid 2FA code")),
        { w with trace := w.trace ++
          [.limiterTake (rateLimitKey "verify_2fa" ("verify_2fa:" ++ toString req.UserID)),
           .txBegin, .repoGetByID req.UserID, .txRollback] }) := by
  have h1 : u.IsEmailVerified = true := by
    simpa [User.IsEmailVerified, Option.isSome_iff_ne_none] using hver
  have h2 : u.IsActive = true := by simp [User.IsActive, hact]
  have h3 : u.HasTwoFactorSecret = true := by
    simpa [User.HasTwoFactorSecret, Option.isSome_iff_ne_none] using hsec
  simp [Verify2FA, checkRateLimit, hl, hv, WithTransaction, hb, Verify2FATx, repoGetByID, hg,
    hfind, World.log, h1, h2, h3, hrej, respond]

/-- C17 at a concrete input: user 1 has the secret and the flag, the validator
rejects every code. -/
theorem verify2FA_rejected_code_witness :
    Verify2FA sampleCfg rejectEnv { UserID := 1, Code := "000000" } (worldWith [annTwoFactor]) =
      (.err (.app (NewAppError ErrCodeInvalidInput "Invalid 2FA code")),
        { worldWith [annTwoFactor] with trace := (worldWith [annTwoFactor]).trace ++
          [.limiterTake (rateLimitKey "verify_2fa" ("verify_2fa:" ++ toString 1)),
           .txBegin, .repoGetByID 1, .txRollback] }) :=
  verify2FA_rejected_code sampleCfg rejectEnv { UserID := 1, Code := "000000" }
    (worldWith [annTwoFactor]) annTwoFactor rfl rfl rfl rfl (by decide) rfl (by decide)
    (by decide) rfl

/-! ## C18: ForgotPassword -/

/-- C19.  `Register` with an email that a stored user has fails with
`ErrUserAlreadyExists` (`USER_ALREADY_EXISTS`, `User already exists`, reported
as HTTP 409 Conflict), and the world after the call is the world before it
but for the list of calls, which holds the limiter, the begin, the lookup and
the rollback: no row is created or changed, no code is stored, no email is
enqueued.  The request passes the rate limit and validation, the transaction
begins and reads. -/
theorem register_existing_email_conflict (cfg : Config) (env : Env) (req : RegisterRequest)
    (w : World) (u : User)
    (hl : env.limiter (rateLimitKey "register" req.Email) = some false)
    (hv : env.validate (.register req) = [])
    (hb : env.faults.txBegin = false) (hg : env.faults.repoGet = false)
    (hfind : w.users.find? (fun x => x.Email == req.Email) = some u) :
    Register cfg env req w =
      (.err (.app ErrUserAlreadyExists),
        { w with trace := w.trace ++
          [.limiterTake (rateLimitKey "register" req.Email), .txBegin,
           .repoGetByEmail req.Email, .txRollback] }) ∧
    ErrUserAlreadyExists.Code = "USER_ALREADY_EXISTS" ∧
    ErrUserAlreadyExists.Message = "User already exists" ∧
    HTTPStatusCode ErrUserAlreadyExists = 409 := by
  refine ⟨?_, rfl, rfl, by decide⟩
  simp [Register, checkRateLimit, hl, hv, WithTransaction, hb, RegisterTx, getUserByEmail,
    repoGetByEmail, hg, hfind, World.log, respond]

/-- C19 at a concrete input: `a@x.com` registers a second time. -/
theorem register_existing_email_conflict_witness :
    Register sampleCfg sampleEnv annRequest (worldWith [ann]) =
      (.err (.app ErrUserAlreadyExists),
        { worldWith [ann] with trace := (worldWith [ann]).trace ++
          [.limiterTake (rateLimitKey "register" annRequest.Email), .txBegin,
           .repoGetByEmail annRequest.Email, .txRollback] }) ∧
    ErrUserAlreadyExists.Code = "USER_ALREADY_EXISTS" ∧
    ErrUserAlreadyExists.Message = "User already exists" ∧
    HTTPStatusCode ErrUserAlreadyExists = 409 :=
  register_existing_email_conflict sampleCfg sampleEnv annRequest (worldWith [ann]) ann
    rfl rfl rfl rfl (by decide)

/-! ## C20: WithTransaction commits exactly when the unit of work returns no error -/

/-- C20.  Once the transaction has begun: when the unit of work returns an
error `e`, `WithTransaction` returns `e` unchanged, the rows are those at
`Begin`, and the one call it adds after the unit of work is the rollback, no
commit; when the unit of work returns no error, the one call it adds is the
commit, and it returns the result of that commit: the commit's error when it
fails (the rows then being those at `Begin`), no error and the rows of the
unit of work when it succeeds. -/
theorem withTransaction_commits_iff_no_error {α : Type} (env : Env)
    (fnE fnO : World → Result α × World) (w wE wO : World) (e : Error) (a : α)
    (hb : env.faults.txBegin = false)
    (hE : fnE (w.log .txBegin) = (.err e, wE))
    (hO : fnO (w.log .txBegin) = (.ok a, wO)) :
    WithTransaction env fnE w =
      (.err e, { wE with users := w.users, trace := wE.trace ++ [.txRollback] }) ∧
    WithTransaction env fnO w =
      (if env.faults.txCommit then
        (.err (.other "commit: driver"),
          { wO with users := w.users, trace := wO.trace ++ [.txCommit] })
      else (.ok a, { wO with trace := wO.trace ++ [.txCommit] })) := by
  constructor
  · simp only [WithTransaction, hb, hE, Bool.false_eq_true, if_false]
    rfl
  · cases hc : env.faults.txCommit <;>
      simp only [WithTransaction, hb, hO, hc, Bool.false_eq_true, if_false, if_true] <;> rfl

/-- C20 at a concrete input: a unit of work that fails with `INVALID_OTP`
after inserting a row, and one that inserts the row and returns. -/
theorem withTransaction_commits_iff_no_error_witness :
    WithTransaction sampleEnv
        (fun tx => (Result.err (α := Unit) (.app ErrInvalidOTP), (repoCreate sampleEnv ann tx).2))
        emptyWorld =
      (.err (.app ErrInvalidOTP),
        { (repoCreate sampleEnv ann (emptyWorld.log .txBegin)).2 with
          users := emptyWorld.users,
          trace := (repoCreate sampleEnv ann (emptyWorld.log .txBegin)).2.trace ++
            [.txRollback] }) ∧
    WithTransaction sampleEnv (fun tx => (Result.ok (), (repoCreate sampleEnv ann tx).2))
        emptyWorld =
      (if sampleEnv.faults.txCommit then
        (.err (.other "commit: driver"),
          { (repoCreate sampleEnv ann (emptyWorld.log .txBegin)).2 with
            users := emptyWorld.users,
            trace := (repoCreate sampleEnv ann (emptyWorld.log .txBegin)).2.trace ++
              [.txCommit] })
      else (.ok (),
        { (repoCreate sampleEnv ann (emptyWorld.log .txBegin)).2 with
          trace := (repoCreate sampleEnv ann (emptyWorld.log .txBegin)).2.trace ++
            [.txCommit] })) :=
  withTransaction_commits_iff_no_error sampleEnv _ _ emptyWorld _ _ (.app ErrInvalidOTP) ()
    rfl rfl rfl

/-! ## C21: GenerateNumericOTP -/

/-- C21, counterexample.  A failure is one of the outcomes of the random
source: when a draw fails (`rand.Int` returns an error)
`GenerateNumericOTP(6)` returns the empty string with an `INTERNAL_ERROR`, not
a string of six digits, whether the first draw fails or a later one. -/
theorem generateNumericOTP_failed_draw :
    GenerateNumericOTP (fun _ => none) 6 =
      .error (.app (NewAppErrorWithCause ErrCodeInternalError "Failed to generate random OTP"
        "rand")) ∧
    GenerateNumericOTP (fun i => if i < 3 then some 7 else none) 6 =
      .error (.app (NewAppErrorWithCause ErrCodeInternalError "Failed to generate random OTP"
        "rand")) := by
  constructor <;> rfl

/-- C21, amended.  For every length from 4 to 12 inclusive and every outcome
of the random source in which the `length` draws succeed,
`GenerateNumericOTP(length)` returns no error and a string of exactly `length`
characters, each a decimal digit; when one of the draws fails it returns the
empty string and an `INTERNAL_ERROR`; for every length below 4 or above 12 it
returns the empty string and the error `INVALID_INPUT: OTP length must be
between 4 and 12 digits`.  (`.error` stands for the empty string returned with
the error.) -/
theorem generateNumericOTP_spec (rand : Nat → Option (Fin 10)) (length : Int) :
    (4 ≤ length → length ≤ 12 → (∀ i, i < length.toNat → rand i ≠ none) →
      ∃ code : String, GenerateNumericOTP rand length = .ok code ∧
        (code.length : Int) = length ∧ ∀ c ∈ code.data, c.isDigit = true) ∧
    (4 ≤ length → length ≤ 12 → (∃ i, i < length.toNat ∧ rand i = none) →
      GenerateNumericOTP rand length =
        .error (.app (NewAppErrorWithCause ErrCodeInternalError "Failed to generate random OTP"
          "rand"))) ∧
    (length < 4 ∨ 12 < length →
      GenerateNumericOTP rand length =
        .error (.app (NewAppError ErrCodeInvalidInput
          "OTP length must be between 4 and 12 digits")) ∧
      (NewAppError ErrCodeInvalidInput "OTP length must be between 4 and 12 digits").Error =
        "INVALID_INPUT: " ++ "OTP length must be between 4 and 12 digits") := by
  refine ⟨fun h4 h12 hr => ?_, fun h4 h12 hr => ?_, fun h => ⟨?_, by decide⟩⟩
  · have hlen : ¬ (length < minOTPLength ∨ length > maxOTPLength) := by
      simp only [minOTPLength, maxOTPLength]
      omega
    obtain ⟨cs, h1, h2, h3⟩ := otpLoop_ok rand length.toNat 0 [] (fun i hi => by
      rw [Nat.zero_add]
      exact hr i hi)
    refine ⟨String.mk cs, ?_, ?_, h3⟩
    · simpa [GenerateNumericOTP, hlen] using h1
    · show ((cs.length : Nat) : Int) = length
      rw [h2]
      omega
  · have hlen : ¬ (length < minOTPLength ∨ length > maxOTPLength) := by
      simp only [minOTPLength, maxOTPLength]
      omega
    obtain ⟨i, hi, hn⟩ := hr
    have := otpLoop_error rand length.toNat 0 [] ⟨i, hi, by rwa [Nat.zero_add]⟩
    simpa [GenerateNumericOTP, hlen] using this
  · have hlen : length < minOTPLength ∨ length > maxOTPLength := by
      simp only [minOTPLength, maxOTPLength]
      omega
    simp [GenerateNumericOTP, hlen]

/-- C21 amended, at concrete inputs: six draws of the digit 4, a failing
source, and the length 3. -/
theorem generateNumericOTP_spec_witness :
    GenerateNumericOTP (fun _ => some 4) 6 = .ok "444444" ∧
    (∃ code : String, GenerateNumericOTP (fun _ => some 4) 6 = .ok code ∧
      (code.length : Int) = 6 ∧ ∀ c ∈ code.data, c.isDigit = true) ∧
    GenerateNumericOTP (fun _ => none) 6 =
      .error (.app (NewAppErrorWithCause ErrCodeInternalError "Failed to generate random OTP"
        "rand")) ∧
    GenerateNumericOTP (fun _ => some 4) 3 =
      .error (.app (NewAppError ErrCodeInvalidInput
        "OTP length must be between 4 and 12 digits")) :=
  ⟨rfl,
    (generateNumericOTP_spec (fun _ => some 4) 6).1 (by decide) (by decide)
      (fun _ _ => by simp),
    (generateNumericOTP_spec (fun _ => none) 6).2.1 (by decide) (by decide) ⟨0, by decide, rfl⟩,
    ((generateNumericOTP_spec (fun _ => some 4) 3).2.2 (Or.inl (by decide))).1⟩

/-! ## C22: the password rule -/

/-- C22, at the failing input.  The string `Abcde½!` has 8 bytes, a lowercase
letter, an uppercase letter and a punctuation character, and no digit: none of
its characters is one of `0` to `9`.  `validatePassword` tests
`unicode.IsNumber`, which holds for the fraction `½` (U+00BD), and accepts the
string. -/
theorem validatePassword_accepts_without_digit :
    validatePassword latin1Tables "Abcde½!" = true ∧
    (∀ c ∈ "Abcde½!".data, c.isDigit = false) ∧
    latin1Tables.IsNumber '½' = true ∧ '½'.toNat = 189 ∧
    "Abcde½!".utf8ByteSize = 8 := by
  decide

/-- What the rule of C22 accepts, in the classes the code tests.  For tables
of `unicode` that are disjoint on the characters of the string, as the general
categories of Unicode are, `validatePassword` accepts a string if and only if
it has at least 6 bytes and contains a lowercase letter (`unicode.IsLower`), an
uppercase letter (`unicode.IsUpper`), a number (`unicode.IsNumber`) and a
punctuation or symbol character (`unicode.IsPunct`, `unicode.IsSymbol`). -/
theorem validatePassword_iff (uni : UnicodeTables) (password : String)
    (hd : DisjointClasses uni password) :
    validatePassword uni password = true ↔
      6 ≤ password.utf8ByteSize ∧
      (∃ c ∈ password.data, uni.IsLower c = true) ∧
      (∃ c ∈ password.data, uni.IsUpper c = true) ∧
      (∃ c ∈ password.data, uni.IsNumber c = true) ∧
      (∃ c ∈ password.data, uni.IsPunct c = true ∨ uni.IsSymbol c = true) := by
  rw [validatePassword_exact]
  constructor
  · rintro ⟨h0, h1, ⟨c2, m2, _, h2⟩, ⟨c3, m3, _, _, h3⟩, ⟨c4, m4, _, _, _, h4⟩⟩
    exact ⟨h0, h1, ⟨c2, m2, h2⟩, ⟨c3, m3, h3⟩, ⟨c4, m4, h4⟩⟩
  · rintro ⟨h0, h1, ⟨c2, m2, h2⟩, ⟨c3, m3, h3⟩, ⟨c4, m4, h4⟩⟩
    refine ⟨h0, h1, ⟨c2, m2, (hd c2 m2).1 h2, h2⟩, ⟨c3, m3, ?_, ?_, h3⟩, ⟨c4, m4, ?_, ?_, ?_, h4⟩⟩
    · exact ((hd c3 m3).2.1 h3).1
    · exact ((hd c3 m3).2.1 h3).2
    · exact ((hd c4 m4).2.2 h4).1
    · exact ((hd c4 m4).2.2 h4).2.1
    · exact ((hd c4 m4).2.2 h4).2.2

/-- The equivalence at a concrete input: `Abcd12!@` is accepted. -/
theorem validatePassword_iff_witness :
    validatePassword latin1Tables "Abcd12!@" = true ∧
    (validatePassword latin1Tables "Abcd12!@" = true ↔
      6 ≤ "Abcd12!@".utf8ByteSize ∧
      (∃ c ∈ "Abcd12!@".data, latin1Tables.IsLower c = true) ∧
      (∃ c ∈ "Abcd12!@".data, latin1Tables.IsUpper c = true) ∧
      (∃ c ∈ "Abcd12!@".data, latin1Tables.IsNumber c = true) ∧
      (∃ c ∈ "Abcd12!@".data,
        latin1Tables.IsPunct c = true ∨ latin1Tables.IsSymbol c = true)) :=
  ⟨by decide, validatePassword_iff latin1Tables "Abcd12!@" (by unfold DisjointClasses; decide)⟩

/-- The half of C22 that holds.  A string of at least 6 bytes that contains a
lowercase letter, an uppercase letter, a digit `0` to `9` and a punctuation or
symbol character is accepted, the digits of the string being numbers of
`unicode`; and an accepted string has at least 6 bytes, a lowercase letter, an
uppercase letter and a punctuation or symbol character. -/
theorem validatePassword_with_digit (uni : UnicodeTables) (password : String)
    (hd : DisjointClasses uni password)
    (hdigit : ∀ c ∈ password.data, c.isDigit = true → uni.IsNumber c = true) :
    (6 ≤ password.utf8ByteSize →
      (∃ c ∈ password.data, uni.IsLower c = true) →
      (∃ c ∈ password.data, uni.IsUpper c = true) →
      (∃ c ∈ password.data, c.isDigit = true) →
      (∃ c ∈ password.data, uni.IsPunct c = true ∨ uni.IsSymbol c = true) →
      validatePassword uni password = true) ∧
    (validatePassword uni password = true →
      6 ≤ password.utf8ByteSize ∧
      (∃ c ∈ password.data, uni.IsLower c = true) ∧
      (∃ c ∈ password.data, uni.IsUpper c = true) ∧
      (∃ c ∈ password.data, uni.IsPunct c = true ∨ uni.IsSymbol c = true)) := by
  constructor
  · rintro h0 h1 h2 ⟨c, m, h3⟩ h4
    exact (validatePassword_iff uni password hd).mpr ⟨h0, h1, h2, ⟨c, m, hdigit c m h3⟩, h4⟩
  · intro h
    obtain ⟨h0, h1, h2, _, h4⟩ := (validatePassword_iff uni password hd).mp h
    exact ⟨h0, h1, h2, h4⟩

/-- The half of C22 that holds, at a concrete input: `Abcd12!@`. -/
theorem validatePassword_with_digit_witness :
    validatePassword latin1Tables "Abcd12!@" = true :=
  (validatePassword_with_digit latin1Tables "Abcd12!@" (by unfold DisjointClasses; decide)
    (by decide)).1 (by decide) (by decide) (by decide) (by decide) (by decide)

/-- Strings that miss the length or one of the four classes of the code are
rejected. -/
theorem validatePassword_rejects :
    validatePassword latin1Tables "Ab1!" = false ∧
    validatePassword latin1Tables "ABCD12!@" = false ∧
    validatePassword latin1Tables "abcd12!@" = false ∧
    validatePassword latin1Tables "Abcdef!@" = false ∧
    validatePassword latin1Tables "Abcd1234" = false := by
  decide

/-! ## C23: the page numbers of NewPaging -/

/-- C23.  For every `perPage >= 1`, `totalData >= 1` and `currentPage` from 1
to the last page, `NewPaging` succeeds with `LastPage` the least integer not
below `totalData / perPage`, `From = (currentPage - 1) * perPage + 1`,
`To = min(currentPage * perPage, totalData)`,
`TotalDataInCurrentPage = To - From + 1`, `HasPreviousPage` iff
`currentPage > 1` and `HasNextPage` iff `currentPage < LastPage`.  The
arguments are Go `int`s: `perPage` is at most `maxInt`, and `totalData`, a
count of rows, is at most `2^62 - 1`, which keeps every intermediate value
within the 64-bit `int`. -/
theorem newPaging_within_last_page (currentPage perPage totalData : Int)
    (hpp : 1 ≤ perPage) (hppmax : perPage ≤ maxInt)
    (htd : 1 ≤ totalData) (htd62 : totalData ≤ 4611686018427387903)
    (hcp1 : 1 ≤ currentPage) (hcp : currentPage ≤ ceilDiv totalData perPage) :
    ∃ p, NewPaging currentPage perPage totalData = .ok p ∧
      p.LastPage = ceilDiv totalData perPage ∧
      (p.LastPage - 1) * perPage < totalData ∧ totalData ≤ p.LastPage * perPage ∧
      p.From = (currentPage - 1) * perPage + 1 ∧
      p.To = min (currentPage * perPage) totalData ∧
      p.TotalDataInCurrentPage = p.To - p.From + 1 ∧
      (p.HasPreviousPage = true ↔ currentPage > 1) ∧
      (p.HasNextPage = true ↔ currentPage < p.LastPage) ∧
      p.CurrentPage = currentPage ∧ p.PerPage = perPage ∧ p.TotalData = totalData :=
  NewPaging_fields_of_end currentPage perPage totalData hpp htd
    (by unfold maxInt; omega) hcp1 hcp
    (page_end_le_maxInt currentPage perPage totalData hpp hppmax htd htd62 hcp1 hcp)

/-- C23 on a call of the package's tests: the last, partial page of 93 rows. -/
theorem newPaging_within_last_page_witness :
    NewPaging 10 10 93 =
      .ok { HasPreviousPage := true, HasNextPage := false, CurrentPage := 10, PerPage := 10,
            TotalData := 93, TotalDataInCurrentPage := 3, LastPage := 10, From := 91,
            To := 93 } ∧
    ∃ p, NewPaging 10 10 93 = .ok p ∧
      p.LastPage = ceilDiv 93 10 ∧
      (p.LastPage - 1) * 10 < 93 ∧ 93 ≤ p.LastPage * 10 ∧
      p.From = (10 - 1) * 10 + 1 ∧
      p.To = min (10 * 10) 93 ∧
      p.TotalDataInCurrentPage = p.To - p.From + 1 ∧
      (p.HasPreviousPage = true ↔ (10 : Int) > 1) ∧
      (p.HasNextPage = true ↔ 10 < p.LastPage) ∧
      p.CurrentPage = 10 ∧ p.PerPage = 10 ∧ p.TotalData = 93 :=
  ⟨rfl, newPaging_within_last_page 10 10 93 (by decide) (by decide) (by decide) (by decide)
    (by decide) (by decide)⟩

/-- C23 on the other in-range calls of the package's tests: the first page,
a middle page, and a total below the page size. -/
theorem newPaging_test_calls :
    NewPaging 1 10 100 =
      .ok { HasPreviousPage := false, HasNextPage := true, CurrentPage := 1, PerPage := 10,
            TotalData := 100, TotalDataInCurrentPage := 10, LastPage := 10, From := 1,
            To := 10 } ∧
    NewPaging 5 10 100 =
      .ok { HasPreviousPage := true, HasNextPage := true, CurrentPage := 5, PerPage := 10,
            TotalData := 100, TotalDataInCurrentPage := 10, LastPage := 10, From := 41,
            To := 50 } ∧
    NewPaging 1 20 15 =
      .ok { HasPreviousPage := false, HasNextPage := false, CurrentPage := 1, PerPage := 20,
            TotalData := 15, TotalDataInCurrentPage := 15, LastPage := 1, From := 1,
            To := 15 } :=
  ⟨rfl, rfl, rfl⟩

/-- The bound on `totalData` in C23 cannot be dropped: with a total of `2^63 - 1`
and a page size of `2^62 + 1` the end of page 2, `offset + perPage`, is
9223372036854775810 and wraps around in the 64-bit `int`, so that `To` is
-9223372036854775806 and `From` is 0.  No count of rows reaches such a
total. -/
theorem newPaging_page_end_overflows :
    NewPaging 2 4611686018427387905 9223372036854775807 =
      .ok { HasPreviousPage := true, HasNextPage := false, CurrentPage := 2,
            PerPage := 4611686018427387905, TotalData := 9223372036854775807,
            TotalDataInCurrentPage := 4611686018427387905, LastPage := 2, From := 0,
            To := -9223372036854775806 } ∧
    ceilDiv 9223372036854775807 4611686018427387905 = 2 ∧
    (9223372036854775807 : Int) = maxInt := by
  refine ⟨rfl, by decide, rfl⟩

/-! ## C24: NewPaging on invalid paging input -/

/-- C24, counterexample.  `NewPaging` looks at `totalData == 0` before it
looks at `perPage` and `currentPage`: with no data a zero or negative
`perPage`, or a page below 1, yields the empty `Paging` and no error. -/
theorem newPaging_no_data_not_rejected :
    NewPaging 1 0 0 =
      .ok { HasPreviousPage := false, HasNextPage := false, CurrentPage := 1, PerPage := 0,
            TotalData := 0, TotalDataInCurrentPage := 0, LastPage := 1, From := 0, To := 0 } ∧
    NewPaging 1 (-5) 0 =
      .ok { HasPreviousPage := false, HasNextPage := false, CurrentPage := 1, PerPage := -5,
            TotalData := 0, TotalDataInCurrentPage := 0, LastPage := 1, From := 0, To := 0 } ∧
    NewPaging 0 10 0 =
      .ok { HasPreviousPage := false, HasNextPage := false, CurrentPage := 1, PerPage := 10,
            TotalData := 0, TotalDataInCurrentPage := 0, LastPage := 1, From := 0, To := 0 } :=
  ⟨rfl, rfl, rfl⟩

/-- C24, amended.  For every `totalData` other than 0: a `perPage` that is
zero or negative, other than the `UnlimitedPage` value -1, yields a nil
`Paging` and the error `ErrPaging`, whatever the page; and so does a
`currentPage` below 1 with a positive `perPage`, the offset
`(currentPage - 1) * perPage` being a Go `int`.  For `totalData = 0` such
input is not rejected: for every `perPage` other than `UnlimitedPage` and
every `currentPage`, `NewPaging` returns no error and the empty `Paging`, page
1 of 1 with `From = To = 0`. -/
theorem newPaging_rejects (currentPage perPage totalData : Int) :
    (totalData ≠ 0 → perPage ≤ 0 → perPage ≠ UnlimitedPage →
      NewPaging currentPage perPage totalData = .error ErrPaging) ∧
    (totalData ≠ 0 → 0 < perPage → currentPage < 1 →
      minInt ≤ (currentPage - 1) * perPage →
      NewPaging currentPage perPage totalData = .error ErrPaging) ∧
    (totalData = 0 → perPage ≠ UnlimitedPage →
      NewPaging currentPage perPage totalData =
        .ok { HasPreviousPage := false, HasNextPage := false, CurrentPage := 1,
              PerPage := perPage, TotalData := 0, TotalDataInCurrentPage := 0, LastPage := 1,
              From := 0, To := 0 }) := by
  refine ⟨?_, ?_, ?_⟩
  · intro htd hpp hun
    have hunl : isUnlimitedPage perPage = false := by
      simpa [isUnlimitedPage] using hun
    simp [NewPaging, hunl, htd, hpp]
  · intro htd hpp hcp hoff
    have hmin : minInt = -9223372036854775808 := rfl
    have hmax : maxInt = 9223372036854775807 := rfl
    have hunl : isUnlimitedPage perPage = false := by
      simp only [isUnlimitedPage, UnlimitedPage, beq_eq_false_iff_ne, ne_eq]
      omega
    have hneg : (currentPage - 1) * perPage ≤ currentPage - 1 := by nlinarith
    have h1 : wrapInt (currentPage - 1) = currentPage - 1 :=
      wrapInt_eq _ (by omega) (by omega)
    have h2 : wrapInt ((currentPage - 1) * perPage) = (currentPage - 1) * perPage :=
      wrapInt_eq _ hoff (by omega)
    have hlt : (currentPage - 1) * perPage < 0 := by omega
    simp [NewPaging, hunl, htd, h1, h2, hlt]
  · intro htd hun
    have hunl : isUnlimitedPage perPage = false := by
      simpa [isUnlimitedPage] using hun
    simp [NewPaging, hunl, htd]

/-- C24 amended, on the calls of the package's tests and on a call without
data. -/
theorem newPaging_rejects_witness :
    NewPaging 1 0 100 = .error ErrPaging ∧
    NewPaging 1 (-5) 100 = .error ErrPaging ∧
    NewPaging 0 10 100 = .error ErrPaging ∧
    NewPaging 0 (-5) 0 =
      .ok { HasPreviousPage := false, HasNextPage := false, CurrentPage := 1,
            PerPage := -5, TotalData := 0, TotalDataInCurrentPage := 0, LastPage := 1,
            From := 0, To := 0 } :=
  ⟨(newPaging_rejects 1 0 100).1 (by decide) (by decide) (by decide),
    (newPaging_rejects 1 (-5) 100).1 (by decide) (by decide) (by decide),
    (newPaging_rejects 0 10 100).2.1 (by decide) (by decide) (by decide) (by decide),
    (newPaging_rejects 0 (-5) 0).2.2 rfl (by decide)⟩

/-- Where the offset of a page below 1 overflows the 64-bit `int` and wraps to
a value that is not negative, the page is not rejected:
`NewPaging(-1, 9223372036854775807, 100)` returns a `Paging` for page -1. -/
theorem newPaging_negative_page_overflow :
    NewPaging (-1) 9223372036854775807 100 =
      .ok { HasPreviousPage := false, HasNextPage := true, CurrentPage := -1,
            PerPage := 9223372036854775807, TotalData := 100,
            TotalDataInCurrentPage := 9223372036854775807, LastPage := 1, From := 0,
            To := -9223372036854775807 } ∧
    (-1 - 1) * 9223372036854775807 < minInt :=
  ⟨rfl, by decide⟩

/-- With the `UnlimitedPage` value -1 no input is rejected, with or without
data: `NewPaging(7, -1, 0)` is page 7 with `From = 1`. -/
theorem newPaging_unlimited_no_data :
    NewPaging 7 (-1) 0 =
      .ok { HasPreviousPage := false, HasNextPage := false, CurrentPage := 7, PerPage := -1,
            TotalData := 0, TotalDataInCurrentPage := 0, LastPage := 1, From := 1, To := 0 } :=
  rfl

/-! ## C25: the bearer token of an authorization header -/

/-- C25.  `extractBearerToken` returns the token `t` exactly when the header is
the string `Bearer `, with its one space, followed by a non-empty `t` that
contains no space; for every other header it fails with
`ErrInvalidTokenFormat`.  So does `VerifyBearerToken`, which for a header of
that form is `VerifyToken` on `t`. -/
theorem extractBearerToken_spec :
    (∀ h t, extractBearerToken h = .ok t ↔ BearerFormat h t) ∧
    (∀ h, (¬ ∃ t, BearerFormat h t) → extractBearerToken h = .error ErrInvalidTokenFormat) ∧
    (∀ env h t, BearerFormat h t → VerifyBearerToken env h = VerifyToken env t) ∧
    (∀ env h, (¬ ∃ t, BearerFormat h t) →
      VerifyBearerToken env h = .error ErrInvalidTokenFormat) := by
  have hiff : ∀ h t, extractBearerToken h = .ok t ↔ BearerFormat h t := by
    intro h t
    constructor
    · exact extractBearerToken_format h t
    · rintro ⟨rfl, h2, h3⟩
      exact extractBearerToken_of_format t h2 h3
  have herr : ∀ h, (¬ ∃ t, BearerFormat h t) →
      extractBearerToken h = .error ErrInvalidTokenFormat := by
    intro h hn
    rcases extractBearerToken_total h with he | ⟨t, ht⟩
    · exact he
    · exact absurd ⟨t, (hiff h t).mp ht⟩ hn
  refine ⟨hiff, herr, ?_, ?_⟩
  · intro env h t hf
    simp [VerifyBearerToken, (hiff h t).mpr hf]
  · intro env h hn
    simp [VerifyBearerToken, herr h hn]

/-- C25 on the headers of the package's tests, and on a header with a second
space. -/
theorem extractBearerToken_spec_witness :
    extractBearerToken "Bearer valid-token-string" = .ok "valid-token-string" ∧
    extractBearerToken "" = .error ErrInvalidTokenFormat ∧
    extractBearerToken "InvalidToken" = .error ErrInvalidTokenFormat ∧
    extractBearerToken "bearer lowercase" = .error ErrInvalidTokenFormat ∧
    extractBearerToken "Bearer " = .error ErrInvalidTokenFormat ∧
    extractBearerToken "Basic token" = .error ErrInvalidTokenFormat ∧
    extractBearerToken "Bearer a b" = .error ErrInvalidTokenFormat :=
  ⟨(extractBearerToken_spec.1 _ _).mpr ⟨rfl, by decide, by decide⟩, rfl, rfl, rfl, rfl, rfl, rfl⟩

/-! ## C26: Decrypt undoes Encrypt -/

/-- C26.  For every key of 32 bytes and every plaintext, `Encrypt` returns a
text and `Decrypt` of that text returns the plaintext; `pkcs7Unpad` undoes
`pkcs7Pad` on every byte string, and the padded length is a positive multiple
of 16.  `rand.Read` yields the IV `iv` of 16 bytes, and the standard library
undoes what it did (base64, JSON, the CBC mode of AES) on the values of the
call. -/
theorem decrypt_encrypt (lib : CryptoLib) (key iv plaintext : Bytes)
    (hkey : key.length = 32)
    (hrand : lib.randRead BlockSize = some iv) (hiv : iv.length = BlockSize)
    (hlib : LibraryRoundTrips lib key iv plaintext) :
    (∃ c, Encrypt lib key plaintext = .ok c ∧ Decrypt lib key c = .ok plaintext) ∧
    (∀ d : Bytes, pkcs7Unpad (pkcs7Pad d 16) 16 = .ok d ∧
      (pkcs7Pad d 16).length % 16 = 0 ∧ 0 < (pkcs7Pad d 16).length) :=
  ⟨⟨_, Encrypt_ok lib key iv plaintext hkey hrand hiv,
      Decrypt_encrypted lib key iv plaintext hkey hiv hlib⟩,
    fun d => ⟨pkcs7Unpad_pkcs7Pad d 16 (by decide) (by decide),
      (pkcs7Pad_length d 16 (by decide) (by decide)).1,
      (pkcs7Pad_length d 16 (by decide) (by decide)).2.1⟩⟩

/-- C26 at concrete inputs: the plaintexts `hi`, the empty string and the 16
bytes of `1234567890123456`, with the toy library. -/
theorem decrypt_encrypt_witness :
    ((∃ c, Encrypt toyLib toyKey [104, 105] = .ok c ∧
        Decrypt toyLib toyKey c = .ok [104, 105]) ∧
      (∀ d : Bytes, pkcs7Unpad (pkcs7Pad d 16) 16 = .ok d ∧
        (pkcs7Pad d 16).length % 16 = 0 ∧ 0 < (pkcs7Pad d 16).length)) ∧
    (pkcs7Pad [] 16).length = 16 ∧
    (pkcs7Pad [49, 50, 51, 52, 53, 54, 55, 56, 57, 48, 49, 50, 51, 52, 53, 54] 16).length = 32 :=
  ⟨decrypt_encrypt toyLib toyKey (List.replicate 16 7) [104, 105] rfl rfl rfl
      (by unfold LibraryRoundTrips; decide),
    rfl, rfl⟩

/-! ## C27: GenerateFullName -/

/-- C27, at the failing input.  For a user without a last name
`GenerateFullName` assigns `FirstName` and then falls through to the
dereference of the nil `LastName`: it panics instead of completing, and so
does `RegisterRequestToUserEntity`, which calls it, on a request without a
last name. -/
theorem generateFullName_absent_last_name_panics :
    User.GenerateFullName
      { ID := 1, Email := "a@x.com", EmailVerifiedAt := none, FirstName := "Ann",
        LastName := none, FullName := "", Password := "hash:Abcd12!@",
        Status := UserStatus.pending, TwoFactorSecret := none, TwoFactorEnabled := false,
        CreatedAt := 0, UpdatedAt := 0 } = none ∧
    RegisterRequestToUserEntity 1 0
      { Email := "a@x.com", FirstName := "Ann", LastName := none, Password := "Abcd12!@" } =
      none := by
  decide

/-- The panic of C27 is that of every user without a last name. -/
theorem generateFullName_absent_last_name (u : User) (h : u.LastName = none) :
    u.GenerateFullName = none := by
  simp [User.GenerateFullName, h]

/-- The other half of C27 holds: for a user whose last name is present
`GenerateFullName` completes and sets `FullName` to `FirstName`, a single
space and the last name, leaving the other fields as they are. -/
theorem generateFullName_present_last_name (u : User) (l : String) (h : u.LastName = some l) :
    u.GenerateFullName = some { u with FullName := u.FirstName ++ " " ++ l } := by
  simp [User.GenerateFullName, h]

/-- The present-last-name half at a concrete input: `Ann Lee`. -/
theorem generateFullName_present_last_name_witness :
    User.GenerateFullName
      { ID := 1, Email := "a@x.com", EmailVerifiedAt := none, FirstName := "Ann",
        LastName := some "Lee", FullName := "", Password := "hash:Abcd12!@",
        Status := UserStatus.pending, TwoFactorSecret := none, TwoFactorEnabled := false,
        CreatedAt := 0, UpdatedAt := 0 } =
      some
        { ID := 1, Email := "a@x.com", EmailVerifiedAt := none, FirstName := "Ann",
          LastName := some "Lee", FullName := "Ann" ++ " " ++ "Lee",
          Password := "hash:Abcd12!@", Status := UserStatus.pending, TwoFactorSecret := none,
          TwoFactorEnabled := false, CreatedAt := 0, UpdatedAt := 0 } :=
  generateFullName_present_last_name _ "Lee" rfl

/-! ## C28: internal consistency of a Paging -/

/-- C28, at the failing input.  `NewPaging(99, 10, 50)`, the call of the
package's test for a page beyond the last one, returns no error; the page is
clamped to 5 but the offset 980 is not recomputed, so `From` is 0 and
`TotalDataInCurrentPage` is `50 - 980 = -930`: negative, and not 0. -/
theorem newPaging_clamped_page_negative_count :
    NewPaging 99 10 50 =
      .ok { HasPreviousPage := true, HasNextPage := false, CurrentPage := 5, PerPage := 10,
            TotalData := 50, TotalDataInCurrentPage := -930, LastPage := 5, From := 0,
            To := 50 } :=
  rfl

/-- For a page up to the last one C28 holds: `0 <= TotalDataInCurrentPage <=
perPage`, `From <= To`, and `From` is not 0. -/
theorem newPaging_consistent_within_last_page (currentPage perPage totalData : Int)
    (hpp : 1 ≤ perPage) (htd : 1 ≤ totalData) (htdmax : totalData ≤ maxInt)
    (hcp1 : 1 ≤ currentPage) (hcp : currentPage ≤ ceilDiv totalData perPage)
    (hend : currentPage * perPage ≤ maxInt) :
    ∃ p, NewPaging currentPage perPage totalData = .ok p ∧
      0 ≤ p.TotalDataInCurrentPage ∧ p.TotalDataInCurrentPage ≤ perPage ∧
      p.From ≤ p.To ∧ 0 < p.From := by
  obtain ⟨hs1, hs2⟩ := ceilDiv_spec totalData perPage (by omega)
  have hoff : (currentPage - 1) * perPage < totalData := by
    have := Int.mul_le_mul_of_nonneg_right
      (show currentPage - 1 ≤ ceilDiv totalData perPage - 1 by omega)
      (show (0 : Int) ≤ perPage by omega)
    omega
  have hprod : (currentPage - 1) * perPage = currentPage * perPage - perPage := by ring
  have hoff0 : 0 ≤ (currentPage - 1) * perPage := Int.mul_nonneg (by omega) (by omega)
  have hgt : min (currentPage * perPage) totalData > (currentPage - 1) * perPage := by
    omega
  refine ⟨_, NewPaging_regular currentPage perPage totalData hcp1 hpp htd htdmax hend, ?_⟩
  simp only [hgt, if_true]
  refine ⟨?_, ?_, ?_, ?_⟩ <;> omega

/-- The in-range statement of C28 at a concrete input: the last, partial page
of 93 rows. -/
theorem newPaging_consistent_within_last_page_witness :
    ∃ p, NewPaging 10 10 93 = .ok p ∧
      0 ≤ p.TotalDataInCurrentPage ∧ p.TotalDataInCurrentPage ≤ 10 ∧
      p.From ≤ p.To ∧ 0 < p.From :=
  newPaging_consistent_within_last_page 10 10 93 (by decide) (by decide) (by decide)
    (by decide) (by decide) (by decide)

/-! ## C29: HTTP status of the error codes -/

/-- C29, counterexample.  `HTTPStatusCode` lists `OTP_EXPIRED` in the case of
`DATABASE_ERROR` and `INTERNAL_ERROR`: the business-rule code `OTP_EXPIRED`
maps to 500, not to a 4xx status, while its sibling `INVALID_OTP` maps to
400. -/
theorem otp_expired_is_server_error :
    HTTPStatusCode ErrOTPExpired = 500 ∧ ErrOTPExpired.Code = "OTP_EXPIRED" ∧
    ErrOTPExpired.Code ∈ clientCodes ∧ HTTPStatusCode ErrInvalidOTP = 400 := by
  decide

/-- C29, amended.  For every code other than `BAD_REQUEST` and
`TOO_MANY_REQUESTS`: `HTTPStatusCode` returns 500 exactly for
`INTERNAL_ERROR`, `DATABASE_ERROR`, `OTP_EXPIRED` and the codes the package
does not define, and every other defined client-side or business-rule code
maps to a 4xx status. -/
theorem httpStatusCode_classes (e : AppError)
    (hbad : e.Code ≠ ErrCodeBadRequest) (htoo : e.Code ≠ ErrCodeTooManyRequests) :
    (HTTPStatusCode e = 500 ↔
      (e.Code = ErrCodeInternalError ∨ e.Code = ErrCodeDatabaseError ∨
        e.Code = ErrCodeOTPExpired ∨ e.Code ∉ definedCodes)) ∧
    (e.Code ∈ clientCodes → e.Code ≠ ErrCodeOTPExpired →
      400 ≤ HTTPStatusCode e ∧ HTTPStatusCode e < 500) := by
  rw [HTTPStatusCode_code]
  by_cases hd : e.Code ∈ definedCodes
  · obtain ⟨h1, h2⟩ := HTTPStatusCode_defined e.Code hd hbad htoo
    refine ⟨?_, h2⟩
    rw [h1]
    tauto
  · refine ⟨?_, fun hc => absurd (clientCodes_defined _ hc) hd⟩
    simp [HTTPStatusCode_undefined _ hd, hd]

/-- C29 amended, at a concrete input: `USER_ALREADY_EXISTS`, which maps to
409. -/
theorem httpStatusCode_classes_witness :
    HTTPStatusCode ErrUserAlreadyExists = 409 ∧
    (HTTPStatusCode ErrUserAlreadyExists = 500 ↔
      (ErrUserAlreadyExists.Code = ErrCodeInternalError ∨
        ErrUserAlreadyExists.Code = ErrCodeDatabaseError ∨
        ErrUserAlreadyExists.Code = ErrCodeOTPExpired ∨
        ErrUserAlreadyExists.Code ∉ definedCodes)) ∧
    (ErrUserAlreadyExists.Code ∈ clientCodes → ErrUserAlreadyExists.Code ≠ ErrCodeOTPExpired →
      400 ≤ HTTPStatusCode ErrUserAlreadyExists ∧ HTTPStatusCode ErrUserAlreadyExists < 500) :=
  ⟨by decide, httpStatusCode_classes ErrUserAlreadyExists (by decide) (by decide)⟩

/-- The two defined codes that C29 amended leaves out have no case of their
own in the `switch` and take its default. -/
theorem httpStatusCode_unlisted_codes :
    HTTPStatusCode (NewAppError ErrCodeBadRequest "") = 500 ∧
    HTTPStatusCode (NewAppError ErrCodeTooManyRequests "") = 500 := by
  decide

/-! ## C30: RefreshToken accepts either token of a pair -/

/-- C30.  An active, verified user `u` without the second factor logs in and
receives the pair `ta`, `tr`: the access token and the refresh token `Login`
signed for `u.ID`.  Later the issuer verifies each token as what was signed.
Then `RefreshToken` with the access token `ta` does exactly what it does with
the refresh token `tr`: the same world, the same result, a new pair of tokens
signed for the subject `u.ID` with the default durations.  The requests pass
the rate limit and validation, the lookups read, the signatures succeed. -/
theorem refreshToken_accepts_access_token (cfg : Config) (env1 env2 : Env)
    (req : LoginRequest) (w : World) (u : User) (ta tr na nr : String)
    (hl : env1.limiter (rateLimitKey "login" req.Email) = some false)
    (hv : env1.validate (.login req) = [])
    (hg : env1.faults.repoGet = false)
    (hfind : w.users.find? (fun x => x.Email == req.Email) = some u)
    (hid : w.users.find? (fun x => x.ID == u.ID) = some u)
    (hpw : env1.checkPasswordHash req.Password u.Password = true)
    (hact : u.Status = UserStatus.active) (hver : u.EmailVerifiedAt ≠ none)
    (h2fa : u.IsTwoFactorEnabled = false)
    (hsa : env1.sign
      { UserID := u.ID, Issuer := cfg.AppName,
        ExpiresAt := env1.now +
          (if req.Remember then cfg.AuthAccessTokenExpiryExtended
           else cfg.AuthAccessTokenExpiry),
        IssuedAt := env1.now, NotBefore := env1.now } = some ta)
    (hsr : env1.sign
      { UserID := u.ID, Issuer := cfg.AppName,
        ExpiresAt := env1.now +
          (if req.Remember then cfg.AuthRefreshTokenExpiryExtended
           else cfg.AuthRefreshTokenExpiry),
        IssuedAt := env1.now, NotBefore := env1.now } = some tr)
    (hva : env2.validate (.refreshToken { RefreshToken := ta }) = [])
    (hvr : env2.validate (.refreshToken { RefreshToken := tr }) = [])
    (hpa : env2.parse ta = .valid
      { UserID := u.ID, Issuer := cfg.AppName,
        ExpiresAt := env1.now +
          (if req.Remember then cfg.AuthAccessTokenExpiryExtended
           else cfg.AuthAccessTokenExpiry),
        IssuedAt := env1.now, NotBefore := env1.now })
    (hpr : env2.parse tr = .valid
      { UserID := u.ID, Issuer := cfg.AppName,
        ExpiresAt := env1.now +
          (if req.Remember then cfg.AuthRefreshTokenExpiryExtended
           else cfg.AuthRefreshTokenExpiry),
        IssuedAt := env1.now, NotBefore := env1.now })
    (hg2 : env2.faults.repoGet = false)
    (hna : env2.sign
      { UserID := u.ID, Issuer := cfg.AppName,
        ExpiresAt := env2.now + cfg.AuthAccessTokenExpiry,
        IssuedAt := env2.now, NotBefore := env2.now } = some na)
    (hnr : env2.sign
      { UserID := u.ID, Issuer := cfg.AppName,
        ExpiresAt := env2.now + cfg.AuthRefreshTokenExpiry,
        IssuedAt := env2.now, NotBefore := env2.now } = some nr) :
    (∃ resp, (Login cfg env1 req w).1 = .ok resp ∧ resp.TwoFactorEnabled = false ∧
      resp.AccessToken = ta ∧ resp.RefreshToken = tr) ∧
    RefreshToken cfg env2 { RefreshToken := ta } (Login cfg env1 req w).2 =
      RefreshToken cfg env2 { RefreshToken := tr } (Login cfg env1 req w).2 ∧
    (RefreshToken cfg env2 { RefreshToken := ta } (Login cfg env1 req w).2).1 =
      .ok { AccessToken := na, RefreshToken := nr,
            AccessTokenExpiresAt := env2.now + cfg.AuthAccessTokenExpiry,
            RefreshTokenExpiresAt := env2.now + cfg.AuthRefreshTokenExpiry } := by
  have hs : validateUserState u true true = none :=
    (validateUserState_none u).mpr ⟨hver, hact⟩
  have hw2 : (Login cfg env1 req w).2.users = w.users := Login_users cfg env1 req w
  generalize hw : (Login cfg env1 req w).2 = w2 at hw2
  have hid2 : w2.users.find? (fun x => x.ID == u.ID) = some u := by rw [hw2]; exact hid
  have hlogin : ∃ resp, (Login cfg env1 req w).1 = .ok resp ∧ resp.TwoFactorEnabled = false ∧
      resp.AccessToken = ta ∧ resp.RefreshToken = tr := by
    simp [Login, checkRateLimit, hl, hv, getUserByEmail, repoGetByEmail, hg, hfind,
      verifyPassword, hpw, hs, h2fa, generateAuthTokens, GenerateToken, hsa, hsr]
  have ha : (RefreshToken cfg env2 { RefreshToken := ta } w2) =
      (Result.ok
        ({ AccessToken := na, RefreshToken := nr,
           AccessTokenExpiresAt := env2.now + cfg.AuthAccessTokenExpiry,
           RefreshTokenExpiresAt := env2.now + cfg.AuthRefreshTokenExpiry } :
          RefreshTokenResponse),
        w2.log (.repoGetByID u.ID)) := by
    simp [RefreshToken, hva, verifyToken, VerifyToken, hpa, getUserByID, repoGetByID, hg2,
      hid2, hs, GenerateToken, hna, hnr]
  have hr : (RefreshToken cfg env2 { RefreshToken := tr } w2) =
      (Result.ok
        ({ AccessToken := na, RefreshToken := nr,
           AccessTokenExpiresAt := env2.now + cfg.AuthAccessTokenExpiry,
           RefreshTokenExpiresAt := env2.now + cfg.AuthRefreshTokenExpiry } :
          RefreshTokenResponse),
        w2.log (.repoGetByID u.ID)) := by
    simp [RefreshToken, hvr, verifyToken, VerifyToken, hpr, getUserByID, repoGetByID, hg2,
      hid2, hs, GenerateToken, hna, hnr]
  exact ⟨hlogin, by rw [ha, hr], by rw [ha]⟩

/-- C30 at a concrete input: user 1 logs in at instant 1000 and presents the
access token, or the refresh token, at instant 2000. -/
theorem refreshToken_accepts_access_token_witness :
    (∃ resp, (Login sampleCfg issuerEnv
        { Email := "a@x.com", Password := "Abcd12!@", Remember := false }
        (worldWith [annActive])).1 = .ok resp ∧ resp.TwoFactorEnabled = false ∧
      resp.AccessToken = "access@1000" ∧ resp.RefreshToken = "refresh@1000") ∧
    RefreshToken sampleCfg laterIssuerEnv { RefreshToken := "access@1000" }
        (Login sampleCfg issuerEnv
          { Email := "a@x.com", Password := "Abcd12!@", Remember := false }
          (worldWith [annActive])).2 =
      RefreshToken sampleCfg laterIssuerEnv { RefreshToken := "refresh@1000" }
        (Login sampleCfg issuerEnv
          { Email := "a@x.com", Password := "Abcd12!@", Remember := false }
          (worldWith [annActive])).2 ∧
    (RefreshToken sampleCfg laterIssuerEnv { RefreshToken := "access@1000" }
        (Login sampleCfg issuerEnv
          { Email := "a@x.com", Password := "Abcd12!@", Remember := false }
          (worldWith [annActive])).2).1 =
      .ok { AccessToken := "access@2000", RefreshToken := "refresh@2000",
            AccessTokenExpiresAt := laterIssuerEnv.now + sampleCfg.AuthAccessTokenExpiry,
            RefreshTokenExpiresAt := laterIssuerEnv.now + sampleCfg.AuthRefreshTokenExpiry } :=
  refreshToken_accepts_access_token sampleCfg issuerEnv laterIssuerEnv
    { Email := "a@x.com", Password := "Abcd12!@", Remember := false } (worldWith [annActive])
    annActive "access@1000" "refresh@1000" "access@2000" "refresh@2000"
    rfl rfl rfl (by decide) (by decide) (by decide) rfl (by decide) rfl (by decide) (by decide)
    rfl rfl (by decide) (by decide) rfl (by decide) (by decide)

end Goca
